import Mathlib

/-!
# 3D-Platformer: collision, movement and collectible core

A shallow embedding of the simulation core of the two single-file programs
`P01_13001687.cpp` and `PXX_YYYY.cpp`, followed by theorems about it.

Modelling conventions.

* C++ `float` values are modelled by exact rationals (`ℚ`): the decimal literal
  `0.7f` is `7/10`, and `+ - * /` and the comparisons are the exact ones.
  Infinities and NaN are outside the model, and so is rounding, with one
  exception: the box test is also given with the binary32 rounding of its two
  arithmetic operations per axis (`aabbIntersectsF32`), because whether it
  agrees with the geometric overlap of the boxes depends on that rounding.
* The `<cmath>` functions that have no rational counterpart (`sqrt`, `sinf`,
  `atan2f`) are collected in a structure `Libm` that every function using them
  takes as an argument; theorems hold for every such library.
* `int` counters are unbounded integers (`Int`); they are bounded by the number
  of collectibles of the scene.
* Fixed-size C arrays `T[4]` are functions `Fin 4 → T`, `std::vector<T>` is
  `List T`, `unsigned char` is `Fin 256`.  `Collectible::platformIndex`, which
  the program only ever uses as an index into the four-element arrays, is a
  `Fin 4`.
* Global variables become the fields of a `State` record which every function
  takes and returns.  The frame delta `dt`, which `idle` derives from the GLUT
  clock, is an argument of `idle`.
* Globals that are written by the simulation but only read by the renderer and
  need a random source or an external library (sky oracles, flying oracles,
  audio clips, window size) are not part of `State`; the statements that touch
  them are named in the doc comment of the function they belong to.
-/

namespace Platformer

/-! ## Math helpers (identical in both programs) -/

/-- Source `struct Vec3 { float x, y, z; }`. -/
structure Vec3 where
  x : ℚ
  y : ℚ
  z : ℚ
  deriving DecidableEq, Repr

/-- Source `add(a,b)`. -/
def add (a b : Vec3) : Vec3 := ⟨a.x + b.x, a.y + b.y, a.z + b.z⟩

/-- Source `sub(a,b)`. -/
def sub (a b : Vec3) : Vec3 := ⟨a.x - b.x, a.y - b.y, a.z - b.z⟩

/-- Source `mul(a,s)`. -/
def mul (a : Vec3) (s : ℚ) : Vec3 := ⟨a.x * s, a.y * s, a.z * s⟩

/-- Source `struct AABB { Vec3 center; Vec3 half; }`. -/
structure AABB where
  center : Vec3
  half : Vec3
  deriving DecidableEq, Repr

/-- Source `aabbIntersects` (the same text in both programs): the boxes are
not separated on any of the three axes, with `<=`. -/
def aabbIntersects (a b : AABB) : Bool :=
  decide (abs (a.center.x - b.center.x) ≤ a.half.x + b.half.x) &&
  decide (abs (a.center.y - b.center.y) ≤ a.half.y + b.half.y) &&
  decide (abs (a.center.z - b.center.z) ≤ a.half.z + b.half.z)

/-! ### The box test in binary32

The source computes `a.center.x - b.center.x` and `a.half.x + b.half.x` in
`float`: each of the two results is the exact result rounded to the nearest
binary32 value, ties to even; `std::abs` and `<=` are exact. -/

/-- Rounding of a rational to the nearest integer, ties to the even one. -/
def roundHalfEven (t : ℚ) : ℤ :=
  if t - ⌊t⌋ < 1 / 2 then ⌊t⌋
  else if 1 / 2 < t - ⌊t⌋ then ⌊t⌋ + 1
  else if ⌊t⌋ % 2 = 0 then ⌊t⌋ else ⌊t⌋ + 1

/-- The binary32 exponent of a positive magnitude `t`: the `e` with
`2^e ≤ t < 2^(e+1)`, and `-126` (the exponent of the subnormals) below
`2^(-126)`. -/
def exponent32 (t : ℚ) : ℤ := max (Int.log 2 t) (-126)

/-- The spacing of the binary32 values at magnitude `t`: 24 significant bits,
so `2^(e - 23)`. -/
def quantum32 (t : ℚ) : ℚ := (2 : ℚ) ^ (exponent32 t - 23)

/-- Binary32 rounding of a magnitude `t ≥ 0`, to nearest, ties to even.  A
result of `2^128` stands for `+∞`: that is what IEEE 754 returns exactly when
the rounding with unbounded exponent reaches `2^128`, every binary32 value is
below it, and the box test only compares the result. -/
def roundMag32 (t : ℚ) : ℚ :=
  min ((roundHalfEven (t / quantum32 t) : ℚ) * quantum32 t) (2 ^ 128)

/-- Binary32 rounding of an exact result `x` (round to nearest, ties to even,
symmetric in the sign; `±2^128` stand for `±∞`). -/
def fl32 (x : ℚ) : ℚ := if x < 0 then -roundMag32 (-x) else roundMag32 x

/-- The `<cmath>` functions used by the simulation, as parameters. -/
structure Libm where
  sqrt : ℚ → ℚ
  sin : ℚ → ℚ
  atan2 : ℚ → ℚ → ℚ

/-- A sample library for evaluating the model on concrete inputs: the values
of `sqrt` at the three arguments the movement code can pass (0, 1 and 2, the
last one rounded to single precision), `sin` and `atan2` constantly zero. -/
def sampleLibm : Libm where
  sqrt := fun x => if x = 2 then 11863283 / 8388608 else x
  sin := fun _ => 0
  atan2 := fun _ _ => 0

/-- Source `WORLD_HALF = 40.0f`. -/
def WORLD_HALF : ℚ := 40

/-- Source `playerHalf = {0.7f, 1.0f, 0.7f}`. -/
def playerHalf : Vec3 := ⟨7 / 10, 1, 7 / 10⟩

/-- Source `playerSpeed = 12.0f` (never assigned after initialisation). -/
def playerSpeed : ℚ := 12

/-- Source `totalCollectiblesPerPlatform = 3` (never assigned after
initialisation). -/
def totalCollectiblesPerPlatform : Int := 3

/-- GLUT special-key codes (`GLUT_KEY_LEFT` .. `GLUT_KEY_DOWN` of the GLUT
header, which is not part of the repository). -/
def GLUT_KEY_LEFT : Fin 512 := 100

/-- See `GLUT_KEY_LEFT`. -/
def GLUT_KEY_UP : Fin 512 := 101

/-- See `GLUT_KEY_LEFT`. -/
def GLUT_KEY_RIGHT : Fin 512 := 102

/-- See `GLUT_KEY_LEFT`. -/
def GLUT_KEY_DOWN : Fin 512 := 103

/-- The closed interval `[c - h, c + h]` of a box on one axis contains `p`. -/
def inSpan (c h p : ℚ) : Prop := c - h ≤ p ∧ p ≤ c + h

/-- Two boxes share a point on one axis: their closed intervals
`[center - half, center + half]` have a common element. -/
def spansMeet (ca ha cb hb : ℚ) : Prop := ∃ p : ℚ, inSpan ca ha p ∧ inSpan cb hb p

/-- Non-negative half-extents on all three axes (the AABB invariant of the
data model). -/
def AABB.halfNonneg (a : AABB) : Prop := 0 ≤ a.half.x ∧ 0 ≤ a.half.y ∧ 0 ≤ a.half.z

/-- Source `float color[3]`. -/
structure Color where
  r : ℚ
  g : ℚ
  b : ℚ
  deriving DecidableEq, Repr

/-! ## Declarations with the same text in both programs -/

/-- Source `struct Platform` (same in both programs). -/
structure Platform where
  box : AABB
  color : Color
  deriving DecidableEq, Repr

/-- Source `enum AnimType`. -/
inductive AnimType where
  | ANIM_ROTATE | ANIM_SCALE | ANIM_TRANSLATE | ANIM_COLOR
  deriving DecidableEq, Repr

/-- Source `struct FeatureObj`. -/
structure FeatureObj where
  box : AABB
  baseColor : Color
  type : AnimType
  allCollected : Bool
  animEnabled : Bool
  t : ℚ
  deriving DecidableEq, Repr

/-- Source `struct Collectible`. -/
structure Collectible where
  box : AABB
  color : Color
  collected : Bool
  platformIndex : Fin 4
  deriving DecidableEq, Repr

/-- The player box at a position: source `AABB pb = { pos, playerHalf }`. -/
def playerBox (pos : Vec3) : AABB := ⟨pos, playerHalf⟩

/-- First loop of `updateCollectibles` (same in both programs): walks the collectibles in order; an
uncollected collectible that intersects the player box `pb` is marked collected
and the counter of its platform is incremented.  Returns the new collectibles
and counters.  (`collectedSomething` of the first program only triggers a
sound.) -/
def collectLoop (pb : AABB) : List Collectible → (Fin 4 → Int) →
    List Collectible × (Fin 4 → Int)
  | [], cnt => ([], cnt)
  | c :: cs, cnt =>
    if !c.collected && aabbIntersects pb c.box then
      let r := collectLoop pb cs
        (Function.update cnt c.platformIndex (cnt c.platformIndex + 1))
      ({ c with collected := true } :: r.1, r.2)
    else
      let r := collectLoop pb cs cnt
      (c :: r.1, r.2)

/-- Second loop of `updateCollectibles`, counting part: the number of indices
`i` with `collectedPerPlatform[i] >= totalCollectiblesPerPlatform`. -/
def completedCount (cnt : Fin 4 → Int) : Nat :=
  (List.finRange 4).countP (fun i => decide (cnt i ≥ totalCollectiblesPerPlatform))

/-- The collectible `c` as the first loop of `updateCollectibles` leaves it
when the player box is `pb`: its flag is set if it was set or the boxes
intersect (closed form of one iteration, see `collectLoop_fst`). -/
def collectOne (pb : AABB) (c : Collectible) : Collectible :=
  { c with collected := c.collected || aabbIntersects pb c.box }

/-- Between two collectible vectors no flag reverts: they have the same
length and, position by position, the same box, colour and platform, and a
collectible that was collected is still collected. -/
def FlagsKept (before after : List Collectible) : Prop :=
  List.Forall₂ (fun c c' => c'.box = c.box ∧ c'.color = c.color ∧
    c'.platformIndex = c.platformIndex ∧ (c.collected = true → c'.collected = true)) before after

/-- The number of collectibles of platform `i` whose flag is `false` in
`before` and `true` at the same position in `after`. -/
def flips (before after : List Collectible) (i : Fin 4) : Nat :=
  (List.zip before after).countP
    (fun p => !p.1.collected && p.2.collected && decide (p.1.platformIndex = i))

/-! ## Program `P01_13001687.cpp` -/

namespace P01

/-- Source `GRAVITY = -25.0f`. -/
def GRAVITY : ℚ := -25

/-- Source `JUMP_VELOCITY = 12.0f`. -/
def JUMP_VELOCITY : ℚ := 12

/-- Source `enum CameraPreset`. -/
inductive CameraPreset where
  | CAM_FOLLOW | CAM_TOP | CAM_SIDE | CAM_FRONT | CAM_FREE
  deriving DecidableEq, Repr

/-- Source `enum GameState`. -/
inductive GameState where
  | PLAYING | WON | LOST
  deriving DecidableEq, Repr

/-- Source `struct Obstacle`. -/
structure Obstacle where
  box : AABB
  color : Color
  isMoving : Bool
  moveSpeed : ℚ
  moveRange : ℚ
  basePos : Vec3
  moveTime : ℚ
  deriving DecidableEq, Repr

/-- The global variables of the program that the simulation reads. -/
structure State where
  playerPos : Vec3
  playerDir : Vec3
  playerYawDeg : ℚ
  playerVelY : ℚ
  playerOnGround : Bool
  camPos : Vec3
  camTarget : Vec3
  camUp : Vec3
  camMode : CameraPreset
  gameState : GameState
  gameTime : ℚ
  platforms : Fin 4 → Platform
  obstacles : List Obstacle
  features : Fin 4 → FeatureObj
  collectibles : List Collectible
  collectedPerPlatform : Fin 4 → Int
  groundBox : AABB
  walls : List AABB
  keyDown : Fin 256 → Bool
  specialDown : Fin 512 → Bool

/-- The four platforms that `resetGame` builds. -/
def scenePlatforms : Fin 4 → Platform :=
  ![⟨⟨⟨-20, 3 / 10, -20⟩, ⟨8, 3 / 10, 6⟩⟩, ⟨8 / 10, 2 / 10, 2 / 10⟩⟩,
    ⟨⟨⟨20, 4 / 10, -15⟩, ⟨6, 4 / 10, 8⟩⟩, ⟨2 / 10, 6 / 10, 9 / 10⟩⟩,
    ⟨⟨⟨-18, 5 / 10, 20⟩, ⟨7, 5 / 10, 7⟩⟩, ⟨2 / 10, 8 / 10, 3 / 10⟩⟩,
    ⟨⟨⟨18, 35 / 100, 18⟩, ⟨9, 35 / 100, 5⟩⟩, ⟨9 / 10, 8 / 10, 2 / 10⟩⟩]

/-- A static obstacle as `resetGame` pushes it:
`{box, color, false, 0, 0, {0,0,0}, 0}`. -/
def staticObstacle (box : AABB) (color : Color) : Obstacle :=
  ⟨box, color, false, 0, 0, ⟨0, 0, 0⟩, 0⟩

/-- The eleven obstacles that `resetGame` pushes, in order. -/
def sceneObstacles : List Obstacle :=
  [ staticObstacle ⟨⟨-23, 15 / 10, -20⟩, ⟨5 / 10, 12 / 10, 2⟩⟩ ⟨6 / 10, 15 / 100, 15 / 100⟩,
    staticObstacle ⟨⟨-17, 15 / 10, -20⟩, ⟨5 / 10, 12 / 10, 2⟩⟩ ⟨6 / 10, 15 / 100, 15 / 100⟩,
    staticObstacle ⟨⟨-20, 1, -17⟩, ⟨3, 7 / 10, 5 / 10⟩⟩ ⟨6 / 10, 15 / 100, 15 / 100⟩,
    staticObstacle ⟨⟨175 / 10, 15 / 10, -15⟩, ⟨2, 12 / 10, 25 / 10⟩⟩ ⟨15 / 100, 4 / 10, 7 / 10⟩,
    staticObstacle ⟨⟨21, 25 / 10, -15⟩, ⟨2, 22 / 10, 25 / 10⟩⟩ ⟨15 / 100, 4 / 10, 7 / 10⟩,
    staticObstacle ⟨⟨24, 35 / 10, -15⟩, ⟨2, 32 / 10, 25 / 10⟩⟩ ⟨15 / 100, 4 / 10, 7 / 10⟩,
    ⟨⟨⟨-18, 15 / 10, 18⟩, ⟨15 / 10, 12 / 10, 5 / 10⟩⟩, ⟨15 / 100, 6 / 10, 2 / 10⟩, true, 3, 4,
      ⟨-18, 15 / 10, 18⟩, 0⟩,
    ⟨⟨⟨-18, 15 / 10, 22⟩, ⟨15 / 10, 12 / 10, 5 / 10⟩⟩, ⟨15 / 100, 6 / 10, 2 / 10⟩, true, 25 / 10,
      35 / 10, ⟨-18, 15 / 10, 22⟩, 15 / 10⟩,
    staticObstacle ⟨⟨15, 2, 18⟩, ⟨25 / 10, 17 / 10, 2⟩⟩ ⟨7 / 10, 6 / 10, 15 / 100⟩,
    staticObstacle ⟨⟨21, 12 / 10, 16⟩, ⟨1, 9 / 10, 1⟩⟩ ⟨7 / 10, 6 / 10, 15 / 100⟩,
    staticObstacle ⟨⟨18, 1, 21⟩, ⟨2, 7 / 10, 5 / 10⟩⟩ ⟨7 / 10, 6 / 10, 15 / 100⟩ ]

/-- The four feature objects that `resetGame` builds: centered on their
platform in x and z, with the gates cleared and `t = 0`. -/
def sceneFeatures : Fin 4 → FeatureObj :=
  ![⟨⟨⟨(scenePlatforms 0).box.center.x, 0, (scenePlatforms 0).box.center.z⟩,
        ⟨16 / 10, 26 / 10, 1⟩⟩, ⟨8 / 10, 15 / 100, 15 / 100⟩, .ANIM_ROTATE, false, false, 0⟩,
    ⟨⟨⟨(scenePlatforms 1).box.center.x, 3, (scenePlatforms 1).box.center.z⟩,
        ⟨16 / 10, 26 / 10, 16 / 10⟩⟩, ⟨7 / 10, 4 / 10, 9 / 10⟩, .ANIM_SCALE, false, false, 0⟩,
    ⟨⟨⟨(scenePlatforms 2).box.center.x, 25 / 10, (scenePlatforms 2).box.center.z⟩,
        ⟨16 / 10, 2, 16 / 10⟩⟩, ⟨9 / 10, 3 / 10, 3 / 10⟩, .ANIM_TRANSLATE, false, false, 0⟩,
    ⟨⟨⟨(scenePlatforms 3).box.center.x, 35 / 10, (scenePlatforms 3).box.center.z⟩,
        ⟨16 / 10, 22 / 10, 16 / 10⟩⟩, ⟨6 / 10, 6 / 10, 7 / 10⟩, .ANIM_COLOR, false, false, 0⟩]

/-- Source lambda `platformSurfaceY` of `resetGame`. -/
def platformSurfaceY (pi : Fin 4) : ℚ :=
  (scenePlatforms pi).box.center.y + (scenePlatforms pi).box.half.y

/-- Source lambda `addCollectible` of `resetGame`: the collectible it pushes. -/
def addCollectible (pi : Fin 4) (offx offz heightAboveSurface r g b : ℚ) : Collectible :=
  let p := scenePlatforms pi
  let c : Vec3 := ⟨p.box.center.x + offx, platformSurfaceY pi + heightAboveSurface,
    p.box.center.z + offz⟩
  { box := ⟨c, ⟨18 / 100, 35 / 100, 18 / 100⟩⟩
    color := ⟨r, g, b⟩
    collected := false
    platformIndex := pi }

/-- The twelve collectibles that `resetGame` pushes, in order. -/
def sceneCollectibles : List Collectible :=
  [ addCollectible 0 (-2) (-15 / 10) (25 / 100) (9 / 10) (3 / 10) (3 / 10),
    addCollectible 0 (22 / 10) (-12 / 10) (65 / 100) (9 / 10) (5 / 10) (3 / 10),
    addCollectible 0 0 2 (12 / 10) (9 / 10) (3 / 10) (5 / 10),
    addCollectible 1 (-4) (-5) (35 / 100) (3 / 10) (7 / 10) (9 / 10),
    addCollectible 1 4 (-5) 1 (3 / 10) (9 / 10) (7 / 10),
    addCollectible 1 0 5 (16 / 10) (5 / 10) (8 / 10) (9 / 10),
    addCollectible 2 (-2) (14 / 10) (35 / 100) (2 / 10) (9 / 10) (3 / 10),
    addCollectible 2 2 0 (7 / 10) (2 / 10) (7 / 10) (4 / 10),
    addCollectible 2 0 (-18 / 10) (12 / 10) (2 / 10) (9 / 10) (6 / 10),
    addCollectible 3 (-7) 0 (4 / 10) (9 / 10) (9 / 10) (3 / 10),
    addCollectible 3 6 0 (11 / 10) (9 / 10) (8 / 10) (2 / 10),
    addCollectible 3 0 (-4) (8 / 10) (9 / 10) (7 / 10) (2 / 10) ]

/-- Source `resetGame`.  Every modelled global except the two key arrays is
assigned.  Not modelled: the audio flags and `playAudio(audioBgm)`, and the
refill of `skyOracles` (uses `rand()`). -/
def resetGame (s : State) : State :=
  { playerPos := ⟨0, 1, 0⟩
    playerDir := ⟨0, 0, -1⟩
    playerYawDeg := 0
    playerVelY := 0
    playerOnGround := true
    camPos := ⟨0, 18, 28⟩
    camTarget := ⟨0, 0, 0⟩
    camUp := ⟨0, 1, 0⟩
    camMode := .CAM_FOLLOW
    gameTime := 120
    gameState := .PLAYING
    groundBox := ⟨⟨0, 0, 0⟩, ⟨WORLD_HALF, 2 / 10, WORLD_HALF⟩⟩
    walls := [ ⟨⟨0, 2, -WORLD_HALF + 1⟩, ⟨WORLD_HALF, 2, 1⟩⟩,
               ⟨⟨-WORLD_HALF + 1, 2, 0⟩, ⟨1, 2, WORLD_HALF⟩⟩,
               ⟨⟨WORLD_HALF - 1, 2, 0⟩, ⟨1, 2, WORLD_HALF⟩⟩ ]
    platforms := scenePlatforms
    obstacles := sceneObstacles
    features := sceneFeatures
    collectibles := sceneCollectibles
    collectedPerPlatform := fun _ => 0
    keyDown := s.keyDown
    specialDown := s.specialDown }

/-- The values of the globals before `main` runs: the initialisers of their
declarations, zero for the static arrays without one, empty vectors. -/
def staticInit : State :=
  { playerPos := ⟨0, 1, 0⟩
    playerDir := ⟨0, 0, -1⟩
    playerYawDeg := 0
    playerVelY := 0
    playerOnGround := true
    camPos := ⟨0, 18, 28⟩
    camTarget := ⟨0, 0, 0⟩
    camUp := ⟨0, 1, 0⟩
    camMode := .CAM_FOLLOW
    gameState := .PLAYING
    gameTime := 120
    platforms := fun _ => ⟨⟨⟨0, 0, 0⟩, ⟨0, 0, 0⟩⟩, ⟨0, 0, 0⟩⟩
    obstacles := []
    features := fun _ => ⟨⟨⟨0, 0, 0⟩, ⟨0, 0, 0⟩⟩, ⟨0, 0, 0⟩, .ANIM_ROTATE, false, false, 0⟩
    collectibles := []
    collectedPerPlatform := fun _ => 0
    groundBox := ⟨⟨0, 0, 0⟩, ⟨0, 0, 0⟩⟩
    walls := []
    keyDown := fun _ => false
    specialDown := fun _ => false }

/-- The state in which `main` enters the GLUT loop: `resetGame()` on the
initial globals. -/
def startState : State := resetGame staticInit

/-- The start scene with the player standing on the floor just outside the
corner `x = -12, z = -14` of the red platform. -/
def cornerState : State := { startState with playerPos := ⟨-11, 1, -13⟩ }

/-! ### Collision -/

/-- Body of the platform, obstacle and feature loops of `collidesWithWorld`
(the three loops have the same body): the object is skipped when
`playerBottom >= top - tolerance` with `tolerance = 0.5f`, otherwise it blocks
exactly when the boxes intersect. -/
def blocksBox (box obj : AABB) : Bool :=
  let playerBottom := box.center.y - box.half.y
  let objTop := obj.center.y + obj.half.y
  let tolerance : ℚ := 1 / 2
  if playerBottom ≥ objTop - tolerance then false else aabbIntersects box obj

/-- Source `collidesWithWorld`: the four loops with early `return true`, in
source order (walls, platforms, obstacles, features). -/
def collidesWithWorld (s : State) (box : AABB) : Bool :=
  s.walls.any (fun w => aabbIntersects box w) ||
  (List.ofFn s.platforms).any (fun p => blocksBox box p.box) ||
  s.obstacles.any (fun o => blocksBox box o.box) ||
  (List.ofFn s.features).any (fun f => blocksBox box f.box)

/-- Source `tryMovePlayer`: the X attempt, then the Z attempt from the
position the X attempt left; `delta.y` is not read. -/
def tryMovePlayer (s : State) (delta : Vec3) : State :=
  let attemptX : Vec3 := { s.playerPos with x := s.playerPos.x + delta.x }
  let s1 : State :=
    if !collidesWithWorld s (playerBox attemptX) then
      { s with playerPos := { s.playerPos with x := attemptX.x } }
    else s
  let attemptZ : Vec3 := { s1.playerPos with z := s1.playerPos.z + delta.z }
  if !collidesWithWorld s1 (playerBox attemptZ) then
    { s1 with playerPos := { s1.playerPos with z := attemptZ.z } }
  else s1

/-- Source `isPlayerOnSurface`: the player box lowered by `0.1f` against the
ground, the platforms and the obstacles. -/
def isPlayerOnSurface (s : State) : Bool :=
  let pb : AABB := playerBox { s.playerPos with y := s.playerPos.y - 1 / 10 }
  aabbIntersects pb s.groundBox ||
  (List.ofFn s.platforms).any (fun p => aabbIntersects pb p.box) ||
  s.obstacles.any (fun o => aabbIntersects pb o.box)

/-! ### Game logic -/

/-- The state after the first loop of `updateCollectibles` (the collection
pass). -/
def collectPass (s : State) : State :=
  let r := collectLoop (playerBox s.playerPos) s.collectibles s.collectedPerPlatform
  { s with collectibles := r.1, collectedPerPlatform := r.2 }

/-- Second loop of `updateCollectibles`, feature part: iteration `i` touches
only `features[i]`. -/
def unlockFeature (f : FeatureObj) (count : Int) : FeatureObj :=
  if !f.allCollected && decide (count ≥ totalCollectiblesPerPlatform) then
    { f with allCollected := true, animEnabled := true }
  else f

/-- Source `updateCollectibles`: collection pass, completion loop, win check.
Not modelled: `playAudio(audioCollect)` and `playOnce(audioWin)`. -/
def updateCollectibles (s : State) : State :=
  let s1 := collectPass s
  let s2 : State :=
    { s1 with features := fun i => unlockFeature (s1.features i) (s1.collectedPerPlatform i) }
  if completedCount s2.collectedPerPlatform = 4 then
    if s2.gameState = .PLAYING then { s2 with gameState := .WON } else s2
  else s2

/-- Source `updateFeatures`: iteration `i` touches only `features[i]`. -/
def updateFeatures (s : State) (dt : ℚ) : State :=
  { s with features := fun i =>
      if (s.features i).animEnabled then { s.features i with t := (s.features i).t + dt }
      else s.features i }

/-- Body of the loop of `updateObstacles`. -/
def moveObstacle (m : Libm) (dt : ℚ) (obs : Obstacle) : Obstacle :=
  if obs.isMoving then
    let moveTime := obs.moveTime + dt
    let offset := m.sin (moveTime * obs.moveSpeed) * obs.moveRange
    { obs with
      moveTime := moveTime
      box := { obs.box with center := { obs.box.center with x := obs.basePos.x + offset } } }
  else obs

/-- Source `updateObstacles`. -/
def updateObstacles (m : Libm) (s : State) (dt : ℚ) : State :=
  { s with obstacles := s.obstacles.map (moveObstacle m dt) }

/-! ### Input and update -/

/-- One key statement of `updateCameraFreeMove`: while either key code is
held, `camPos` and `camTarget` are both changed by `f`. -/
def cameraKey (s : State) (lower upper : Fin 256) (f : Vec3 → Vec3) : State :=
  if s.keyDown lower || s.keyDown upper then
    { s with camPos := f s.camPos, camTarget := f s.camTarget }
  else s

/-- Source `updateCameraFreeMove`.  Key codes:
`i`=105 `I`=73, `k`=107 `K`=75, `j`=106 `J`=74, `l`=108 `L`=76, `u`=117 `U`=85,
`o`=111 `O`=79. -/
def updateCameraFreeMove (m : Libm) (s : State) (dt : ℚ) : State :=
  if s.camMode ≠ .CAM_FREE then s else
  let fwd0 : Vec3 := { sub s.camTarget s.camPos with y := 0 }
  let fl : ℚ := max (1 / 10000) (m.sqrt (fwd0.x * fwd0.x + fwd0.z * fwd0.z))
  let fwd := mul fwd0 (1 / fl)
  let right : Vec3 := ⟨fwd.z, 0, -fwd.x⟩
  let speed : ℚ := 25
  let s := cameraKey s 105 73 (fun p => add p (mul fwd (speed * dt)))
  let s := cameraKey s 107 75 (fun p => sub p (mul fwd (speed * dt)))
  let s := cameraKey s 106 74 (fun p => sub p (mul right (speed * dt)))
  let s := cameraKey s 108 76 (fun p => add p (mul right (speed * dt)))
  let s := cameraKey s 117 85 (fun p => { p with y := p.y - speed * dt })
  let s := cameraKey s 111 79 (fun p => { p with y := p.y + speed * dt })
  s

/-- The `move` vector that `updatePlayerMovement` reads from the held keys
(`w`=119, `s`=115, `a`=97, `d`=100 and the arrow keys). -/
def moveInput (s : State) : Vec3 :=
  let move : Vec3 := ⟨0, 0, 0⟩
  let move := if s.keyDown 119 || s.specialDown GLUT_KEY_UP then
    { move with z := move.z - 1 } else move
  let move := if s.keyDown 115 || s.specialDown GLUT_KEY_DOWN then
    { move with z := move.z + 1 } else move
  let move := if s.keyDown 97 || s.specialDown GLUT_KEY_LEFT then
    { move with x := move.x - 1 } else move
  let move := if s.keyDown 100 || s.specialDown GLUT_KEY_RIGHT then
    { move with x := move.x + 1 } else move
  move

/-- Horizontal part of `updatePlayerMovement`: normalise `move`, call
`tryMovePlayer`, face the movement direction. -/
def horizontalMove (m : Libm) (s : State) (dt : ℚ) : State :=
  let move := moveInput s
  let len := m.sqrt (move.x * move.x + move.z * move.z)
  if len > 1 / 10000 then
    let move := mul move (1 / len)
    let s1 := tryMovePlayer s (mul move (playerSpeed * dt))
    { s1 with playerYawDeg := m.atan2 move.x (-move.z) * 180 / (314159265 / 100000000) }
  else s

/-- The statements `playerOnGround = isPlayerOnSurface();` and the gravity
`if/else` of `updatePlayerMovement`. -/
def applyGravity (s : State) (dt : ℚ) : State :=
  let s : State := { s with playerOnGround := isPlayerOnSurface s }
  if !s.playerOnGround then
    { s with playerVelY := s.playerVelY + GRAVITY * dt }
  else if s.playerVelY < 0 then { s with playerVelY := 0 } else s

/-- The vertical position update of `updatePlayerMovement`, from `nextY` on. -/
def verticalMove (s : State) (dt : ℚ) : State :=
  let nextY := s.playerPos.y + s.playerVelY * dt
  let testBox : AABB := playerBox { s.playerPos with y := nextY }
  if !collidesWithWorld s testBox || decide (nextY < s.playerPos.y) then
    let s : State := { s with playerPos := { s.playerPos with y := nextY } }
    if s.playerPos.y < 1 then
      { s with playerPos := { s.playerPos with y := 1 }, playerVelY := 0, playerOnGround := true }
    else s
  else
    if s.playerVelY > 0 then { s with playerVelY := 0 } else s

/-- Source `updatePlayerMovement`. -/
def updatePlayerMovement (m : Libm) (s : State) (dt : ℚ) : State :=
  if s.gameState = .LOST then s else
  verticalMove (applyGravity (horizontalMove m s dt) dt) dt

/-- The countdown block of `idle`.  Not modelled: `playOnce(audioLose)` and
`initFlyingOracles()`. -/
def tickTimer (s : State) (dt : ℚ) : State :=
  if s.gameState = .PLAYING then
    let s : State := { s with gameTime := s.gameTime - dt }
    if s.gameTime ≤ 0 then { s with gameTime := 0, gameState := .LOST } else s
  else s

/-- Source `idle`, with the frame delta `dt` as an argument.  Not modelled:
`updateFlyingOracles(dt)` in the `LOST` branch, `updateSkyOracles(dt)` in the
other, and `glutPostRedisplay()`. -/
def idle (m : Libm) (s : State) (dt : ℚ) : State :=
  let s := tickTimer s dt
  if s.gameState = .LOST then s
  else
    let s := updateCameraFreeMove m s dt
    let s := updatePlayerMovement m s dt
    let s := updateCollectibles s
    let s := updateFeatures s dt
    updateObstacles m s dt

/-- The toggle statement of `keyboard` for feature `i`. -/
def toggleAnim (s : State) (i : Fin 4) : State :=
  let f := s.features i
  { s with features := Function.update s.features i { f with animEnabled := !f.animEnabled } }

/-- The camera statements of `keyboard` (`1`..`4` = 49..52, `v`=118 `V`=86);
they assign `camMode` only. -/
def cameraKeys (s : State) (key : Fin 256) : State :=
  let s : State := if key = 49 then { s with camMode := .CAM_FOLLOW } else s
  let s : State := if key = 50 then { s with camMode := .CAM_TOP } else s
  let s : State := if key = 51 then { s with camMode := .CAM_SIDE } else s
  let s : State := if key = 52 then { s with camMode := .CAM_FRONT } else s
  if key = 118 ∨ key = 86 then
    { s with camMode :=
        match s.camMode with
        | .CAM_FOLLOW => .CAM_TOP
        | .CAM_TOP => .CAM_SIDE
        | .CAM_SIDE => .CAM_FRONT
        | .CAM_FRONT => .CAM_FREE
        | .CAM_FREE => .CAM_FOLLOW }
  else s

/-- The jump statement of `keyboard` (space = 32). -/
def jumpKey (s : State) (key : Fin 256) : State :=
  if key = 32 ∧ s.playerOnGround = true ∧
      (s.gameState = .PLAYING ∨ s.gameState = .WON) then
    { s with playerVelY := JUMP_VELOCITY, playerOnGround := false }
  else s

/-- One of the four animation statements of `keyboard`: the key codes `lower`
and `upper` of a letter flip `features[i].animEnabled` when the latch is set. -/
def toggleKey (s : State) (key lower upper : Fin 256) (i : Fin 4) : State :=
  if (key = lower ∨ key = upper) ∧ (s.features i).allCollected = true then toggleAnim s i
  else s

/-- Source `keyboard` (the mouse position arguments are not read), statement
by statement: `keyDown[key] = true`, the camera keys, ESC = 27 resets, the
jump, and the animation keys `r`=114 `R`=82, `b`=98 `B`=66, `g`=103 `G`=71,
`y`=121 `Y`=89. -/
def keyboard (s : State) (key : Fin 256) : State :=
  let s : State := { s with keyDown := Function.update s.keyDown key true }
  let s : State := cameraKeys s key
  let s : State := if key = 27 then resetGame s else s
  let s : State := jumpKey s key
  let s : State := toggleKey s key 114 82 0
  let s : State := toggleKey s key 98 66 1
  let s : State := toggleKey s key 103 71 2
  let s : State := toggleKey s key 121 89 3
  s

/-- Source `keyboardUp`. -/
def keyboardUp (s : State) (key : Fin 256) : State :=
  { s with keyDown := Function.update s.keyDown key false }

/-- Source `special`. -/
def special (s : State) (key : Fin 512) : State :=
  { s with specialDown := Function.update s.specialDown key true }

/-- Source `specialUp`. -/
def specialUp (s : State) (key : Fin 512) : State :=
  { s with specialDown := Function.update s.specialDown key false }

/-- The callbacks that GLUT can invoke on the running game. -/
inductive Event where
  | idle (dt : ℚ)
  | keyboard (key : Fin 256)
  | keyboardUp (key : Fin 256)
  | special (key : Fin 512)
  | specialUp (key : Fin 512)

/-- One callback applied to the state. -/
def step (m : Libm) (s : State) : Event → State
  | .idle dt => idle m s dt
  | .keyboard key => keyboard s key
  | .keyboardUp key => keyboardUp s key
  | .special key => special s key
  | .specialUp key => specialUp s key

/-- The states the game can be in: a call of `resetGame` (as in `main`, from
any earlier state) followed by any finite sequence of callbacks. -/
inductive Reachable (m : Libm) : State → Prop where
  | init (s : State) : Reachable m (resetGame s)
  | step {s : State} (e : Event) : Reachable m s → Reachable m (step m s e)

/-- Inductive invariant behind the counter bound: the collectibles are the
twelve of the scene as far as their platforms go, and every counter is the
number of collected collectibles of its platform. -/
def CountersMatch (s : State) : Prop :=
  s.collectibles.map (fun c => c.platformIndex) = [0, 0, 0, 1, 1, 1, 2, 2, 2, 3, 3, 3] ∧
  ∀ i, s.collectedPerPlatform i =
    (s.collectibles.countP (fun c => c.collected && decide (c.platformIndex = i)) : Nat)

/-- The start scene with the player at floor height inside the first
collectible of the red platform (which sits at `(-22, 0.85, -21.5)`). -/
def pickupState : State := { startState with playerPos := ⟨-22, 1, -43 / 2⟩ }

/-- The start scene with all four counters already at the target. -/
def fullState : State := { startState with collectedPerPlatform := fun _ => 3 }

/-- The state that `updateCollectibles` leaves when all four counters are at
the target: every latch set, every animation running, the game won. -/
def unlockedState : State := updateCollectibles fullState

/-- The effect of one animation statement of `keyboard` on the feature array
(closed form of `toggleKey`, see `toggleKey_features`). -/
def toggleFeatures (fs : Fin 4 → FeatureObj) (key lower upper : Fin 256) (i : Fin 4) :
    Fin 4 → FeatureObj :=
  if (key = lower ∨ key = upper) ∧ (fs i).allCollected = true then
    Function.update fs i { fs i with animEnabled := !(fs i).animEnabled }
  else fs

/-- A run of idle ticks with the frame deltas `dts`, in order. -/
def idleRun (m : Libm) (s : State) (dts : List ℚ) : State := dts.foldl (idle m) s

/-- The start state after the key `w` (code 119) has been pressed. -/
def heldKeyState : State := keyboard startState 119

/-- What the claim on `updateObstacles` says of one obstacle `o` and its
successor `o'` for the frame delta `dt`: a resting obstacle is unchanged; a
moving one has its time advanced by `dt` and its x position set from the sine
of the new time, everything else kept. -/
def Oscillates (m : Libm) (dt : ℚ) (o o' : Obstacle) : Prop :=
  (o.isMoving = false → o' = o) ∧
  (o.isMoving = true →
    o'.moveTime = o.moveTime + dt ∧
    o'.box.center.x = o.basePos.x + m.sin (o'.moveTime * o.moveSpeed) * o.moveRange ∧
    o'.box.center.y = o.box.center.y ∧ o'.box.center.z = o.box.center.z ∧
    o'.box.half = o.box.half ∧ o'.basePos = o.basePos ∧ o'.moveSpeed = o.moveSpeed ∧
    o'.moveRange = o.moveRange ∧ o'.isMoving = true ∧ o'.color = o.color)

/-- The state after a single tick of 120 seconds from the start state (the
countdown has run out). -/
def lostState : State := idle sampleLibm startState 120

/-- Every collision box of the state has non-negative half-extents: the
player box, the ground box, and the box of every wall, platform, obstacle,
feature object and collectible. -/
def BoxesNonneg (s : State) : Prop :=
  (playerBox s.playerPos).halfNonneg ∧ s.groundBox.halfNonneg ∧
  (∀ w ∈ s.walls, w.halfNonneg) ∧ (∀ i, (s.platforms i).box.halfNonneg) ∧
  (∀ o ∈ s.obstacles, o.box.halfNonneg) ∧ (∀ i, (s.features i).box.halfNonneg) ∧
  (∀ c ∈ s.collectibles, c.box.halfNonneg)

/-- The animation gate of every feature: a running animation has its latch
set, a feature without latch has its time accumulator at 0, and a latch is
only set on a platform whose counter has reached the target. -/
def AnimGated (s : State) : Prop :=
  ∀ i, ((s.features i).animEnabled = true → (s.features i).allCollected = true) ∧
    ((s.features i).allCollected = false → (s.features i).t = 0) ∧
    ((s.features i).allCollected = true → 3 ≤ s.collectedPerPlatform i)

/-- The timer is between 0 and 120 and is 0 exactly in the lost state. -/
def TimerOk (s : State) : Prop :=
  0 ≤ s.gameTime ∧ s.gameTime ≤ 120 ∧ (s.gameTime = 0 ↔ s.gameState = .LOST)

/-- A callback whose frame delta, if it is an idle tick, is non-negative. -/
def Event.forward : Event → Prop
  | .idle dt => 0 ≤ dt
  | _ => True

/-- The states the game can be in when time does not run backwards: a call of
`resetGame` followed by any finite sequence of callbacks in which every idle
tick has a non-negative frame delta. -/
inductive ReachableForward (m : Libm) : State → Prop where
  | init (s : State) : ReachableForward m (resetGame s)
  | step {s : State} (e : Event) : e.forward → ReachableForward m s →
      ReachableForward m (step m s e)

end P01

/-! ## Program `PXX_YYYY.cpp` -/

namespace PXX

/-- Source `enum CameraPreset`. -/
inductive CameraPreset where
  | CAM_FREE | CAM_TOP | CAM_SIDE | CAM_FRONT
  deriving DecidableEq, Repr

/-- The global variables of the program that the simulation reads. -/
structure State where
  playerPos : Vec3
  playerDir : Vec3
  playerYawDeg : ℚ
  camPos : Vec3
  camTarget : Vec3
  camUp : Vec3
  camMode : CameraPreset
  gameTime : ℚ
  gameOver : Bool
  gameWin : Bool
  platforms : Fin 4 → Platform
  features : Fin 4 → FeatureObj
  collectibles : List Collectible
  collectedPerPlatform : Fin 4 → Int
  groundBox : AABB
  walls : List AABB
  keyDown : Fin 256 → Bool
  specialDown : Fin 512 → Bool

/-- Source local `ph = 0.3f` of `resetGame`. -/
def ph : ℚ := 3 / 10

/-- The four platforms that `resetGame` builds. -/
def scenePlatforms : Fin 4 → Platform :=
  ![⟨⟨⟨-20, ph, -20⟩, ⟨8, ph, 6⟩⟩, ⟨8 / 10, 2 / 10, 2 / 10⟩⟩,
    ⟨⟨⟨20, ph, -15⟩, ⟨6, ph, 8⟩⟩, ⟨2 / 10, 6 / 10, 9 / 10⟩⟩,
    ⟨⟨⟨-18, ph, 20⟩, ⟨7, ph, 7⟩⟩, ⟨2 / 10, 8 / 10, 3 / 10⟩⟩,
    ⟨⟨⟨18, ph, 18⟩, ⟨9, ph, 5⟩⟩, ⟨9 / 10, 8 / 10, 2 / 10⟩⟩]

/-- The four feature objects that `resetGame` builds. -/
def sceneFeatures : Fin 4 → FeatureObj :=
  ![⟨⟨⟨(scenePlatforms 0).box.center.x, 0, (scenePlatforms 0).box.center.z⟩,
        ⟨16 / 10, 26 / 10, 1⟩⟩, ⟨8 / 10, 15 / 100, 15 / 100⟩, .ANIM_ROTATE, false, false, 0⟩,
    ⟨⟨⟨(scenePlatforms 1).box.center.x, 0, (scenePlatforms 1).box.center.z⟩,
        ⟨16 / 10, 26 / 10, 16 / 10⟩⟩, ⟨7 / 10, 4 / 10, 9 / 10⟩, .ANIM_SCALE, false, false, 0⟩,
    ⟨⟨⟨(scenePlatforms 2).box.center.x, 0, (scenePlatforms 2).box.center.z⟩,
        ⟨16 / 10, 2, 16 / 10⟩⟩, ⟨9 / 10, 3 / 10, 3 / 10⟩, .ANIM_TRANSLATE, false, false, 0⟩,
    ⟨⟨⟨(scenePlatforms 3).box.center.x, 0, (scenePlatforms 3).box.center.z⟩,
        ⟨16 / 10, 22 / 10, 16 / 10⟩⟩, ⟨6 / 10, 6 / 10, 7 / 10⟩, .ANIM_COLOR, false, false, 0⟩]

/-- Source lambda `addCollectible` of `resetGame`: the collectible it pushes. -/
def addCollectible (pi : Fin 4) (offx offz r g b : ℚ) : Collectible :=
  let p := scenePlatforms pi
  let c : Vec3 := ⟨p.box.center.x + offx, 6 / 10, p.box.center.z + offz⟩
  { box := ⟨c, ⟨18 / 100, 35 / 100, 18 / 100⟩⟩
    color := ⟨r, g, b⟩
    collected := false
    platformIndex := pi }

/-- The twelve collectibles that `resetGame` pushes, in order. -/
def sceneCollectibles : List Collectible :=
  [ addCollectible 0 (-2) (-15 / 10) (9 / 10) (3 / 10) (3 / 10),
    addCollectible 0 (22 / 10) (-12 / 10) (9 / 10) (5 / 10) (3 / 10),
    addCollectible 0 0 2 (9 / 10) (3 / 10) (5 / 10),
    addCollectible 1 (-12 / 10) (22 / 10) (3 / 10) (7 / 10) (9 / 10),
    addCollectible 1 (18 / 10) 0 (3 / 10) (9 / 10) (7 / 10),
    addCollectible 1 0 (-22 / 10) (5 / 10) (8 / 10) (9 / 10),
    addCollectible 2 (-2) (14 / 10) (2 / 10) (9 / 10) (3 / 10),
    addCollectible 2 2 0 (2 / 10) (7 / 10) (4 / 10),
    addCollectible 2 0 (-18 / 10) (2 / 10) (9 / 10) (6 / 10),
    addCollectible 3 (-24 / 10) (4 / 10) (9 / 10) (9 / 10) (3 / 10),
    addCollectible 3 (24 / 10) (-4 / 10) (9 / 10) (8 / 10) (2 / 10),
    addCollectible 3 0 (-2) (9 / 10) (7 / 10) (2 / 10) ]

/-- Source `resetGame`: every modelled global except the two key arrays is
assigned. -/
def resetGame (s : State) : State :=
  { playerPos := ⟨0, 1, 0⟩
    playerDir := ⟨0, 0, -1⟩
    playerYawDeg := 0
    camPos := ⟨0, 18, 28⟩
    camTarget := ⟨0, 0, 0⟩
    camUp := ⟨0, 1, 0⟩
    camMode := .CAM_FREE
    gameTime := 120
    gameOver := false
    gameWin := false
    groundBox := ⟨⟨0, 0, 0⟩, ⟨WORLD_HALF, 2 / 10, WORLD_HALF⟩⟩
    walls := [ ⟨⟨0, 2, -WORLD_HALF + 1⟩, ⟨WORLD_HALF, 2, 1⟩⟩,
               ⟨⟨-WORLD_HALF + 1, 2, 0⟩, ⟨1, 2, WORLD_HALF⟩⟩,
               ⟨⟨WORLD_HALF - 1, 2, 0⟩, ⟨1, 2, WORLD_HALF⟩⟩ ]
    platforms := scenePlatforms
    features := sceneFeatures
    collectibles := sceneCollectibles
    collectedPerPlatform := fun _ => 0
    keyDown := s.keyDown
    specialDown := s.specialDown }

/-- The values of the globals before `main` runs: the initialisers of their
declarations, zero for the static arrays without one, empty vectors. -/
def staticInit : State :=
  { playerPos := ⟨0, 1, 0⟩
    playerDir := ⟨0, 0, -1⟩
    playerYawDeg := 0
    camPos := ⟨0, 18, 28⟩
    camTarget := ⟨0, 0, 0⟩
    camUp := ⟨0, 1, 0⟩
    camMode := .CAM_FREE
    gameTime := 120
    gameOver := false
    gameWin := false
    platforms := fun _ => ⟨⟨⟨0, 0, 0⟩, ⟨0, 0, 0⟩⟩, ⟨0, 0, 0⟩⟩
    features := fun _ => ⟨⟨⟨0, 0, 0⟩, ⟨0, 0, 0⟩⟩, ⟨0, 0, 0⟩, .ANIM_ROTATE, false, false, 0⟩
    collectibles := []
    collectedPerPlatform := fun _ => 0
    groundBox := ⟨⟨0, 0, 0⟩, ⟨0, 0, 0⟩⟩
    walls := []
    keyDown := fun _ => false
    specialDown := fun _ => false }

/-- The state in which `main` enters the GLUT loop: `resetGame()` on the
initial globals. -/
def startState : State := resetGame staticInit

/-- The collidable volume of a platform in `collidesWithWorld`:
`pb = p.box; pb.half.y = 2.0f; pb.center.y = 1.0f`. -/
def thickBox (b : AABB) : AABB :=
  { center := { b.center with y := 1 }, half := { b.half with y := 2 } }

/-- Source `collidesWithWorld`: the three loops with early `return true`, in
source order (walls, features, thickened platforms). -/
def collidesWithWorld (s : State) (box : AABB) : Bool :=
  s.walls.any (fun w => aabbIntersects box w) ||
  (List.ofFn s.features).any (fun f => aabbIntersects box f.box) ||
  (List.ofFn s.platforms).any (fun p => aabbIntersects box (thickBox p.box))

/-- Source `tryMovePlayer`: the X attempt, then the Z attempt from the
position the X attempt left; `delta.y` is not read. -/
def tryMovePlayer (s : State) (delta : Vec3) : State :=
  let attemptX : Vec3 := { s.playerPos with x := s.playerPos.x + delta.x }
  let s1 : State :=
    if !collidesWithWorld s (playerBox attemptX) then
      { s with playerPos := { s.playerPos with x := attemptX.x } }
    else s
  let attemptZ : Vec3 := { s1.playerPos with z := s1.playerPos.z + delta.z }
  if !collidesWithWorld s1 (playerBox attemptZ) then
    { s1 with playerPos := { s1.playerPos with z := attemptZ.z } }
  else s1

/-- The state after the first loop of `updateCollectibles` (the collection
pass). -/
def collectPass (s : State) : State :=
  let r := collectLoop (playerBox s.playerPos) s.collectibles s.collectedPerPlatform
  { s with collectibles := r.1, collectedPerPlatform := r.2 }

/-- Second loop of `updateCollectibles`, feature part: iteration `i` touches
only `features[i]` and sets only the latch. -/
def unlockFeature (f : FeatureObj) (count : Int) : FeatureObj :=
  if !f.allCollected && decide (count ≥ totalCollectiblesPerPlatform) then
    { f with allCollected := true }
  else f

/-- Source `updateCollectibles`: collection pass, completion loop, win flag. -/
def updateCollectibles (s : State) : State :=
  let s1 := collectPass s
  let s2 : State :=
    { s1 with features := fun i => unlockFeature (s1.features i) (s1.collectedPerPlatform i) }
  if completedCount s2.collectedPerPlatform = 4 then { s2 with gameWin := true } else s2

/-- Source `updateFeatures`: iteration `i` touches only `features[i]`. -/
def updateFeatures (s : State) (dt : ℚ) : State :=
  { s with features := fun i =>
      if (s.features i).animEnabled then { s.features i with t := (s.features i).t + dt }
      else s.features i }

/-- One key statement of `updateCameraFreeMove`: while either key code is
held, `camPos` and `camTarget` are both changed by `f`. -/
def cameraKey (s : State) (lower upper : Fin 256) (f : Vec3 → Vec3) : State :=
  if s.keyDown lower || s.keyDown upper then
    { s with camPos := f s.camPos, camTarget := f s.camTarget }
  else s

/-- Source `updateCameraFreeMove` (same text as in the first program).  Key codes:
`i`=105 `I`=73, `k`=107 `K`=75, `j`=106 `J`=74, `l`=108 `L`=76, `u`=117 `U`=85,
`o`=111 `O`=79. -/
def updateCameraFreeMove (m : Libm) (s : State) (dt : ℚ) : State :=
  if s.camMode ≠ .CAM_FREE then s else
  let fwd0 : Vec3 := { sub s.camTarget s.camPos with y := 0 }
  let fl : ℚ := max (1 / 10000) (m.sqrt (fwd0.x * fwd0.x + fwd0.z * fwd0.z))
  let fwd := mul fwd0 (1 / fl)
  let right : Vec3 := ⟨fwd.z, 0, -fwd.x⟩
  let speed : ℚ := 25
  let s := cameraKey s 105 73 (fun p => add p (mul fwd (speed * dt)))
  let s := cameraKey s 107 75 (fun p => sub p (mul fwd (speed * dt)))
  let s := cameraKey s 106 74 (fun p => sub p (mul right (speed * dt)))
  let s := cameraKey s 108 76 (fun p => add p (mul right (speed * dt)))
  let s := cameraKey s 117 85 (fun p => { p with y := p.y - speed * dt })
  let s := cameraKey s 111 79 (fun p => { p with y := p.y + speed * dt })
  s

/-- The `move` vector that `updatePlayerMovement` reads from the held keys
(`w`=119, `s`=115, `a`=97, `d`=100 and the arrow keys). -/
def moveInput (s : State) : Vec3 :=
  let move : Vec3 := ⟨0, 0, 0⟩
  let move := if s.keyDown 119 || s.specialDown GLUT_KEY_UP then
    { move with z := move.z - 1 } else move
  let move := if s.keyDown 115 || s.specialDown GLUT_KEY_DOWN then
    { move with z := move.z + 1 } else move
  let move := if s.keyDown 97 || s.specialDown GLUT_KEY_LEFT then
    { move with x := move.x - 1 } else move
  let move := if s.keyDown 100 || s.specialDown GLUT_KEY_RIGHT then
    { move with x := move.x + 1 } else move
  move

/-- Source `updatePlayerMovement`: horizontal movement only. -/
def updatePlayerMovement (m : Libm) (s : State) (dt : ℚ) : State :=
  if s.gameOver then s else
  let move := moveInput s
  let len := m.sqrt (move.x * move.x + move.z * move.z)
  if len > 1 / 10000 then
    let move := mul move (1 / len)
    let s1 := tryMovePlayer s (mul move (playerSpeed * dt))
    { s1 with playerYawDeg := m.atan2 move.x (-move.z) * 180 / (314159265 / 100000000) }
  else s

/-- The countdown statement of `idle`. -/
def tickTimer (s : State) (dt : ℚ) : State :=
  if !s.gameOver then
    let s : State := { s with gameTime := s.gameTime - dt }
    if s.gameTime ≤ 0 then { s with gameTime := 0, gameOver := true } else s
  else s

/-- Source `idle`, with the frame delta `dt` as an argument
(`glutPostRedisplay()` is not modelled). -/
def idle (m : Libm) (s : State) (dt : ℚ) : State :=
  let s := tickTimer s dt
  let s := updateCameraFreeMove m s dt
  let s := updatePlayerMovement m s dt
  let s := updateCollectibles s
  updateFeatures s dt

/-- The toggle statement of `keyboard` for feature `i`. -/
def toggleAnim (s : State) (i : Fin 4) : State :=
  let f := s.features i
  { s with features := Function.update s.features i { f with animEnabled := !f.animEnabled } }

/-- The camera statements of `keyboard` (`1`..`3` = 49..51, `v`=118 `V`=86);
they assign `camMode` only. -/
def cameraKeys (s : State) (key : Fin 256) : State :=
  let s : State := if key = 49 then { s with camMode := .CAM_TOP } else s
  let s : State := if key = 50 then { s with camMode := .CAM_SIDE } else s
  let s : State := if key = 51 then { s with camMode := .CAM_FRONT } else s
  if key = 118 ∨ key = 86 then
    { s with camMode :=
        match s.camMode with
        | .CAM_FREE => .CAM_TOP
        | .CAM_TOP => .CAM_SIDE
        | .CAM_SIDE => .CAM_FRONT
        | .CAM_FRONT => .CAM_FREE }
  else s

/-- One of the four animation statements of `keyboard`: the digit key `code`
flips `features[i].animEnabled` when the latch is set. -/
def toggleKey (s : State) (key code : Fin 256) (i : Fin 4) : State :=
  if key = code ∧ (s.features i).allCollected = true then toggleAnim s i else s

/-- Source `keyboard` (the mouse position arguments are not read), statement
by statement: `keyDown[key] = true`, the camera keys, `r`=114 `R`=82 resets,
and the animation keys `5`..`8` = 53..56. -/
def keyboard (s : State) (key : Fin 256) : State :=
  let s : State := { s with keyDown := Function.update s.keyDown key true }
  let s : State := cameraKeys s key
  let s : State := if key = 114 ∨ key = 82 then resetGame s else s
  let s : State := toggleKey s key 53 0
  let s : State := toggleKey s key 54 1
  let s : State := toggleKey s key 55 2
  let s : State := toggleKey s key 56 3
  s

/-- Source `keyboardUp`. -/
def keyboardUp (s : State) (key : Fin 256) : State :=
  { s with keyDown := Function.update s.keyDown key false }

/-- Source `special`. -/
def special (s : State) (key : Fin 512) : State :=
  { s with specialDown := Function.update s.specialDown key true }

/-- Source `specialUp`. -/
def specialUp (s : State) (key : Fin 512) : State :=
  { s with specialDown := Function.update s.specialDown key false }

/-- The callbacks that GLUT can invoke on the running game. -/
inductive Event where
  | idle (dt : ℚ)
  | keyboard (key : Fin 256)
  | keyboardUp (key : Fin 256)
  | special (key : Fin 512)
  | specialUp (key : Fin 512)

/-- One callback applied to the state. -/
def step (m : Libm) (s : State) : Event → State
  | .idle dt => idle m s dt
  | .keyboard key => keyboard s key
  | .keyboardUp key => keyboardUp s key
  | .special key => special s key
  | .specialUp key => specialUp s key

/-- The states the game can be in: a call of `resetGame` (as in `main`, from
any earlier state) followed by any finite sequence of callbacks. -/
inductive Reachable (m : Libm) : State → Prop where
  | init (s : State) : Reachable m (resetGame s)
  | step {s : State} (e : Event) : Reachable m s → Reachable m (step m s e)

/-- Nothing has been collected and the player stands free on the floor: the
world is the scene of `resetGame`, every collectible, counter, latch and the
win flag are as `resetGame` left them, the player is at height 1 and its box
does not collide with the world. -/
def Untouched (s : State) : Prop :=
  s.walls = (resetGame s).walls ∧ s.platforms = scenePlatforms ∧ s.features = sceneFeatures ∧
  s.collectibles = sceneCollectibles ∧ s.collectedPerPlatform = (fun _ => 0) ∧
  s.gameWin = false ∧ s.playerPos.y = 1 ∧
  collidesWithWorld s (playerBox s.playerPos) = false

end PXX

/-! ## Theorems -/

/-! ### Box intersection (C1, C2) -/

theorem abs_sub_le_iff_spansMeet (ca ha cb hb : ℚ) (hha : 0 ≤ ha) (hhb : 0 ≤ hb) :
    abs (ca - cb) ≤ ha + hb ↔ spansMeet ca ha cb hb := by
  constructor
  · intro h
    rw [abs_le] at h
    obtain ⟨h1, h2⟩ := h
    refine ⟨max (ca - ha) (cb - hb), ⟨le_max_left _ _, ?_⟩, ⟨le_max_right _ _, ?_⟩⟩
    · apply max_le <;> linarith
    · apply max_le <;> linarith
  · rintro ⟨p, ⟨h1, h2⟩, ⟨h3, h4⟩⟩
    rw [abs_le]
    constructor <;> linarith

/-- C1: `aabbIntersects` is symmetric in its two boxes, for all centers and
half-extents. -/
theorem aabbIntersects_symm (a b : AABB) : aabbIntersects a b = aabbIntersects b a := by
  unfold aabbIntersects
  rw [abs_sub_comm a.center.x, abs_sub_comm a.center.y, abs_sub_comm a.center.z,
    add_comm a.half.x, add_comm a.half.y, add_comm a.half.z]

/-- In exact arithmetic, for boxes with non-negative half-extents,
`aabbIntersects a b` is true
exactly when, on each of the three axes, the closed intervals
`[center - half, center + half]` of the two boxes share a point; and boxes that
only touch on one axis (center distance equal to the sum of the half-extents
there) while overlapping on the other two are reported as intersecting. -/
theorem aabbIntersects_iff_spansMeet (a b : AABB) (ha : a.halfNonneg) (hb : b.halfNonneg) :
    (aabbIntersects a b = true ↔
      spansMeet a.center.x a.half.x b.center.x b.half.x ∧
      spansMeet a.center.y a.half.y b.center.y b.half.y ∧
      spansMeet a.center.z a.half.z b.center.z b.half.z) ∧
    (abs (a.center.x - b.center.x) = a.half.x + b.half.x →
      spansMeet a.center.y a.half.y b.center.y b.half.y →
      spansMeet a.center.z a.half.z b.center.z b.half.z →
      aabbIntersects a b = true) ∧
    (abs (a.center.y - b.center.y) = a.half.y + b.half.y →
      spansMeet a.center.x a.half.x b.center.x b.half.x →
      spansMeet a.center.z a.half.z b.center.z b.half.z →
      aabbIntersects a b = true) ∧
    (abs (a.center.z - b.center.z) = a.half.z + b.half.z →
      spansMeet a.center.x a.half.x b.center.x b.half.x →
      spansMeet a.center.y a.half.y b.center.y b.half.y →
      aabbIntersects a b = true) := by
  obtain ⟨hax, hay, haz⟩ := ha
  obtain ⟨hbx, hby, hbz⟩ := hb
  have key : aabbIntersects a b = true ↔
      spansMeet a.center.x a.half.x b.center.x b.half.x ∧
      spansMeet a.center.y a.half.y b.center.y b.half.y ∧
      spansMeet a.center.z a.half.z b.center.z b.half.z := by
    unfold aabbIntersects
    simp only [Bool.and_eq_true, decide_eq_true_eq]
    rw [abs_sub_le_iff_spansMeet _ _ _ _ hax hbx, abs_sub_le_iff_spansMeet _ _ _ _ hay hby,
      abs_sub_le_iff_spansMeet _ _ _ _ haz hbz, and_assoc]
  refine ⟨key, fun hx hy hz => key.mpr ⟨?_, hy, hz⟩, fun hy hx hz => key.mpr ⟨hx, ?_, hz⟩,
    fun hz hx hy => key.mpr ⟨hx, hy, ?_⟩⟩
  · exact (abs_sub_le_iff_spansMeet _ _ _ _ hax hbx).mp (le_of_eq hx)
  · exact (abs_sub_le_iff_spansMeet _ _ _ _ hay hby).mp (le_of_eq hy)
  · exact (abs_sub_le_iff_spansMeet _ _ _ _ haz hbz).mp (le_of_eq hz)

/-- The exact box test at two unit cubes whose faces touch at `x = 1`. -/
theorem aabbIntersects_iff_spansMeet_witness :
    aabbIntersects ⟨⟨0, 0, 0⟩, ⟨1, 1, 1⟩⟩ ⟨⟨2, 0, 0⟩, ⟨1, 1, 1⟩⟩ = true :=
  (aabbIntersects_iff_spansMeet ⟨⟨0, 0, 0⟩, ⟨1, 1, 1⟩⟩ ⟨⟨2, 0, 0⟩, ⟨1, 1, 1⟩⟩
    ⟨by norm_num, by norm_num, by norm_num⟩ ⟨by norm_num, by norm_num, by norm_num⟩).2.1
    (by norm_num) ⟨0, by norm_num [inSpan], by norm_num [inSpan]⟩
    ⟨0, by norm_num [inSpan], by norm_num [inSpan]⟩

/-! ### The box test in binary32 (C2) -/

theorem roundHalfEven_bounds (t : ℚ) :
    ⌊t⌋ ≤ roundHalfEven t ∧ roundHalfEven t ≤ ⌊t⌋ + 1 := by
  unfold roundHalfEven
  split_ifs <;> constructor <;> omega

theorem roundHalfEven_intCast (n : ℤ) : roundHalfEven (n : ℚ) = n := by
  unfold roundHalfEven
  rw [Int.floor_intCast, sub_self, if_pos (by norm_num)]

theorem roundHalfEven_mono {t u : ℚ} (h : t ≤ u) : roundHalfEven t ≤ roundHalfEven u := by
  rcases (Int.floor_mono h).lt_or_eq with hlt | heq
  · have h1 := (roundHalfEven_bounds t).2
    have h2 := (roundHalfEven_bounds u).1
    omega
  · unfold roundHalfEven
    rw [← heq]
    split_ifs <;> first | omega | (exfalso; linarith)

theorem quantum32_pos (t : ℚ) : 0 < quantum32 t := zpow_pos (by norm_num) _

theorem two_zpow_log_le {t : ℚ} (ht : 0 < t) : (2 : ℚ) ^ Int.log 2 t ≤ t := by
  have h := Int.zpow_log_le_self (b := 2) (by norm_num) ht
  simpa using h

theorem lt_two_zpow_log (t : ℚ) : t < (2 : ℚ) ^ (Int.log 2 t + 1) := by
  have h := Int.lt_zpow_succ_log_self (b := 2) (by norm_num) t
  simpa using h

theorem exponent32_mono {t u : ℚ} (ht : 0 < t) (h : t ≤ u) : exponent32 t ≤ exponent32 u :=
  max_le_max (Int.log_mono_right ht h) le_rfl

theorem two_zpow_split (e : ℤ) : (2 : ℚ) ^ (e + 1) = 2 ^ (24 : ℤ) * 2 ^ (e - 23) := by
  rw [← zpow_add₀ (by norm_num : (2 : ℚ) ≠ 0)]
  congr 1
  ring

theorem two_zpow_split_low (e : ℤ) : (2 : ℚ) ^ e = 2 ^ (23 : ℤ) * 2 ^ (e - 23) := by
  rw [← zpow_add₀ (by norm_num : (2 : ℚ) ≠ 0)]
  congr 1
  ring

/-- The rounded magnitude does not leave the binade upwards. -/
theorem roundScaled_le (t : ℚ) :
    (roundHalfEven (t / quantum32 t) : ℚ) * quantum32 t ≤ 2 ^ (exponent32 t + 1) := by
  have hq := quantum32_pos t
  have h1 : t ≤ 2 ^ (exponent32 t + 1) :=
    le_trans (lt_two_zpow_log t).le
      (zpow_le_zpow_right₀ (by norm_num) (add_le_add_right (le_max_left _ _) 1))
  have h2 : t / quantum32 t ≤ (((2 : ℤ) ^ 24 : ℤ) : ℚ) := by
    rw [div_le_iff₀ hq]
    refine le_trans h1 (le_of_eq ?_)
    rw [two_zpow_split]
    unfold quantum32
    norm_num
  have h3 := roundHalfEven_mono h2
  rw [roundHalfEven_intCast] at h3
  have h4 : (roundHalfEven (t / quantum32 t) : ℚ) ≤ 2 ^ (24 : ℤ) := by
    have : (roundHalfEven (t / quantum32 t) : ℚ) ≤ (((2 : ℤ) ^ 24 : ℤ) : ℚ) := by exact_mod_cast h3
    refine le_trans this (le_of_eq ?_)
    norm_num
  rw [two_zpow_split]
  exact mul_le_mul_of_nonneg_right h4 hq.le

/-- The rounded magnitude does not leave the binade downwards. -/
theorem le_roundScaled (t : ℚ) (h : (2 : ℚ) ^ exponent32 t ≤ t) :
    (2 : ℚ) ^ exponent32 t ≤ (roundHalfEven (t / quantum32 t) : ℚ) * quantum32 t := by
  have hq := quantum32_pos t
  have h2 : (((2 : ℤ) ^ 23 : ℤ) : ℚ) ≤ t / quantum32 t := by
    rw [le_div_iff₀ hq]
    refine le_trans (le_of_eq ?_) h
    rw [two_zpow_split_low (exponent32 t)]
    unfold quantum32
    norm_num
  have h3 := roundHalfEven_mono h2
  rw [roundHalfEven_intCast] at h3
  have h4 : (2 : ℚ) ^ (23 : ℤ) ≤ (roundHalfEven (t / quantum32 t) : ℚ) := by
    have : (((2 : ℤ) ^ 23 : ℤ) : ℚ) ≤ (roundHalfEven (t / quantum32 t) : ℚ) := by exact_mod_cast h3
    refine le_trans (le_of_eq ?_) this
    norm_num
  rw [two_zpow_split_low (exponent32 t)]
  exact mul_le_mul_of_nonneg_right h4 hq.le

theorem roundScaled_mono {t u : ℚ} (ht : 0 < t) (h : t ≤ u) :
    (roundHalfEven (t / quantum32 t) : ℚ) * quantum32 t ≤
      (roundHalfEven (u / quantum32 u) : ℚ) * quantum32 u := by
  rcases (exponent32_mono ht h).lt_or_eq with hlt | heq
  · have hu : exponent32 u = Int.log 2 u := by
      unfold exponent32 at hlt ⊢
      apply max_eq_left
      by_contra hc
      rw [max_eq_right (not_le.mp hc).le] at hlt
      exact absurd (le_max_right (Int.log 2 t) (-126)) (not_le.mpr hlt)
    have h1 := roundScaled_le t
    have h2 := le_roundScaled u (by rw [hu]; exact two_zpow_log_le (lt_of_lt_of_le ht h))
    have h3 : (2 : ℚ) ^ (exponent32 t + 1) ≤ 2 ^ exponent32 u :=
      zpow_le_zpow_right₀ (by norm_num) hlt
    exact le_trans h1 (le_trans h3 h2)
  · have hq : quantum32 t = quantum32 u := by
      unfold quantum32
      rw [heq]
    rw [hq]
    have hqu := quantum32_pos u
    apply mul_le_mul_of_nonneg_right _ hqu.le
    exact_mod_cast roundHalfEven_mono (div_le_div_of_nonneg_right h hqu.le)

theorem roundMag32_zero : roundMag32 0 = 0 := by
  unfold roundMag32
  rw [zero_div]
  have : roundHalfEven 0 = 0 := by
    have := roundHalfEven_intCast 0
    simpa using this
  rw [this]
  norm_num

theorem roundMag32_nonneg {t : ℚ} (h : 0 ≤ t) : 0 ≤ roundMag32 t := by
  unfold roundMag32
  apply le_min _ (by positivity)
  apply mul_nonneg _ (quantum32_pos t).le
  have h1 := (roundHalfEven_bounds (t / quantum32 t)).1
  have h2 : 0 ≤ ⌊t / quantum32 t⌋ := Int.floor_nonneg.mpr (div_nonneg h (quantum32_pos t).le)
  exact_mod_cast le_trans h2 h1

theorem roundMag32_mono {t u : ℚ} (ht : 0 ≤ t) (h : t ≤ u) : roundMag32 t ≤ roundMag32 u := by
  rcases ht.lt_or_eq with hpos | hz
  · unfold roundMag32
    exact min_le_min (roundScaled_mono hpos h) le_rfl
  · rw [← hz, roundMag32_zero]
    exact roundMag32_nonneg (le_trans ht h)

/-- Binary32 rounding is monotone. -/
theorem fl32_mono {x y : ℚ} (h : x ≤ y) : fl32 x ≤ fl32 y := by
  unfold fl32
  split_ifs with hx hy hy
  · exact neg_le_neg (roundMag32_mono (by linarith) (by linarith))
  · have h1 := roundMag32_nonneg (t := -x) (by linarith)
    have h2 := roundMag32_nonneg (t := y) (by linarith)
    linarith
  · exact absurd (lt_of_le_of_lt h hy) hx
  · exact roundMag32_mono (not_lt.mp hx) h

theorem collectLoop_fst (pb : AABB) (cs : List Collectible) (cnt : Fin 4 → Int) :
    (collectLoop pb cs cnt).1 = cs.map (collectOne pb) := by
  induction cs generalizing cnt with
  | nil => rfl
  | cons c cs ih =>
    unfold collectLoop
    by_cases h : (!c.collected && aabbIntersects pb c.box) = true
    · rw [if_pos h]
      simp only [Bool.and_eq_true, Bool.not_eq_true'] at h
      simp only [ih, List.map_cons, collectOne, h.1, h.2, Bool.or_true]
    · rw [if_neg h]
      simp only [ih, List.map_cons, collectOne]
      congr 1
      cases hc : c.collected
      · simp [hc] at h
        simp [h]
        cases c; simp_all
      · simp
        cases c; simp_all

theorem collectLoop_snd (pb : AABB) (cs : List Collectible) (cnt : Fin 4 → Int) (i : Fin 4) :
    (collectLoop pb cs cnt).2 i =
      cnt i + (cs.countP (fun c =>
        !c.collected && aabbIntersects pb c.box && decide (c.platformIndex = i)) : Nat) := by
  induction cs generalizing cnt with
  | nil => simp [collectLoop]
  | cons c cs ih =>
    unfold collectLoop
    by_cases h : (!c.collected && aabbIntersects pb c.box) = true
    · rw [if_pos h]
      simp only [ih, List.countP_cons, h, Bool.true_and]
      by_cases hi : c.platformIndex = i
      · subst hi
        simp
        ring
      · have hi' : i ≠ c.platformIndex := fun e => hi e.symm
        simp [hi, Function.update_noteq hi']
    · rw [if_neg h]
      simp only [ih, List.countP_cons]
      simp only [Bool.not_eq_true] at h
      simp [h]

theorem flagsKept_refl (cs : List Collectible) : FlagsKept cs cs := by
  unfold FlagsKept
  induction cs with
  | nil => exact List.Forall₂.nil
  | cons c cs ih => exact List.Forall₂.cons ⟨rfl, rfl, rfl, id⟩ ih

theorem flips_self (cs : List Collectible) (i : Fin 4) : flips cs cs i = 0 := by
  unfold flips
  induction cs with
  | nil => rfl
  | cons c cs ih =>
    rw [List.zip_cons_cons, List.countP_cons, ih]
    cases c.collected <;> simp

theorem flagsKept_collect (pb : AABB) (cs : List Collectible) :
    FlagsKept cs (cs.map (collectOne pb)) := by
  unfold FlagsKept
  induction cs with
  | nil => exact List.Forall₂.nil
  | cons c cs ih =>
    refine List.Forall₂.cons ⟨rfl, rfl, rfl, fun h => ?_⟩ ih
    simp [collectOne, h]

theorem flips_collect (pb : AABB) (cs : List Collectible) (i : Fin 4) :
    flips cs (cs.map (collectOne pb)) i =
      cs.countP (fun c => !c.collected && aabbIntersects pb c.box && decide (c.platformIndex = i)) := by
  unfold flips
  induction cs with
  | nil => rfl
  | cons c cs ih =>
    rw [List.map_cons, List.zip_cons_cons, List.countP_cons, List.countP_cons, ih]
    congr 1
    cases hc : c.collected <;> simp [collectOne, hc]

/-! ### Frame lemmas for the first program -/

namespace P01

theorem collidesWithWorld_setPlayerPos (s : State) (p : Vec3) (box : AABB) :
    collidesWithWorld { s with playerPos := p } box = collidesWithWorld s box := rfl

theorem tryMovePlayer_eq (s : State) (delta : Vec3) :
    tryMovePlayer s delta =
      { s with playerPos :=
          ⟨if collidesWithWorld s (playerBox ⟨s.playerPos.x + delta.x, s.playerPos.y, s.playerPos.z⟩)
             then s.playerPos.x else s.playerPos.x + delta.x,
           s.playerPos.y,
           if collidesWithWorld s (playerBox
               ⟨if collidesWithWorld s (playerBox ⟨s.playerPos.x + delta.x, s.playerPos.y, s.playerPos.z⟩)
                  then s.playerPos.x else s.playerPos.x + delta.x,
                s.playerPos.y, s.playerPos.z + delta.z⟩)
             then s.playerPos.z else s.playerPos.z + delta.z⟩ } := by
  unfold tryMovePlayer
  cases h1 : collidesWithWorld s (playerBox ⟨s.playerPos.x + delta.x, s.playerPos.y, s.playerPos.z⟩)
  · simp only [h1, Bool.not_false, if_true, collidesWithWorld_setPlayerPos]
    cases h2 : collidesWithWorld s (playerBox ⟨s.playerPos.x + delta.x, s.playerPos.y, s.playerPos.z + delta.z⟩)
    · simp [h2]
    · simp [h2]
  · simp only [h1, Bool.not_true, if_false]
    cases h2 : collidesWithWorld s (playerBox ⟨s.playerPos.x, s.playerPos.y, s.playerPos.z + delta.z⟩)
    · simp [h2]
    · simp [h2]

theorem cameraKeys_frame (s : State) (key : Fin 256) :
    ∃ c, cameraKeys s key = { s with camMode := c } := by
  unfold cameraKeys
  dsimp only
  split_ifs <;> exact ⟨_, rfl⟩

theorem jumpKey_frame (s : State) (key : Fin 256) :
    ∃ v g, jumpKey s key = { s with playerVelY := v, playerOnGround := g } := by
  unfold jumpKey
  split_ifs <;> exact ⟨_, _, rfl⟩

theorem toggleKey_frame (s : State) (key lower upper : Fin 256) (i : Fin 4) :
    ∃ b, toggleKey s key lower upper i =
      { s with features :=
          Function.update s.features i { s.features i with animEnabled := b } } := by
  unfold toggleKey toggleAnim
  split_ifs
  · exact ⟨_, rfl⟩
  · exact ⟨(s.features i).animEnabled, by simp⟩

theorem cameraKey_frame (s0 s : State) (lower upper : Fin 256) (f : Vec3 → Vec3)
    (h : ∃ p t, s = { s0 with camPos := p, camTarget := t }) :
    ∃ p t, cameraKey s lower upper f = { s0 with camPos := p, camTarget := t } := by
  obtain ⟨p, t, rfl⟩ := h
  unfold cameraKey
  split_ifs <;> exact ⟨_, _, rfl⟩

theorem updateCameraFreeMove_frame (m : Libm) (s : State) (dt : ℚ) :
    ∃ p t, updateCameraFreeMove m s dt = { s with camPos := p, camTarget := t } := by
  unfold updateCameraFreeMove
  split_ifs
  · exact ⟨_, _, rfl⟩
  · dsimp only
    iterate 6 apply cameraKey_frame
    exact ⟨_, _, rfl⟩

theorem tickTimer_frame (s : State) (dt : ℚ) :
    ∃ t g, tickTimer s dt = { s with gameTime := t, gameState := g } := by
  unfold tickTimer
  dsimp only
  split_ifs <;> exact ⟨_, _, rfl⟩

theorem horizontalMove_frame (m : Libm) (s : State) (dt : ℚ) :
    ∃ x z y, horizontalMove m s dt =
      { s with playerPos := ⟨x, s.playerPos.y, z⟩, playerYawDeg := y } := by
  unfold horizontalMove
  dsimp only
  split_ifs
  · rw [tryMovePlayer_eq]
    exact ⟨_, _, _, rfl⟩
  · exact ⟨_, _, _, rfl⟩

theorem applyGravity_frame (s : State) (dt : ℚ) :
    ∃ v g, applyGravity s dt = { s with playerVelY := v, playerOnGround := g } := by
  unfold applyGravity
  dsimp only
  split_ifs <;> exact ⟨_, _, rfl⟩

theorem verticalMove_frame (s : State) (dt : ℚ) :
    ∃ y v g, verticalMove s dt =
      { s with playerPos := { s.playerPos with y := y }, playerVelY := v, playerOnGround := g } ∧
      (1 ≤ s.playerPos.y → 1 ≤ y) := by
  unfold verticalMove
  dsimp only
  split_ifs with h1 h2 h3
  · exact ⟨_, _, _, rfl, fun _ => le_refl _⟩
  · exact ⟨_, _, _, rfl, fun _ => not_lt.mp h2⟩
  · exact ⟨s.playerPos.y, _, _, rfl, id⟩
  · exact ⟨s.playerPos.y, _, _, rfl, id⟩

/-- The state on which `idle` calls `updateCollectibles` differs from the
state before the tick only in the timer, the camera and the player. -/
theorem preCollect_frame (m : Libm) (s : State) (dt : ℚ) :
    ∃ t g cp ct x y z yaw v og,
      updatePlayerMovement m (updateCameraFreeMove m (tickTimer s dt) dt) dt =
        { s with gameTime := t, gameState := g, camPos := cp, camTarget := ct,
                 playerPos := ⟨x, y, z⟩, playerYawDeg := yaw, playerVelY := v,
                 playerOnGround := og } ∧
      (1 ≤ s.playerPos.y → 1 ≤ y) := by
  obtain ⟨t, g, h1⟩ := tickTimer_frame s dt
  obtain ⟨cp, ct, h2⟩ := updateCameraFreeMove_frame m (tickTimer s dt) dt
  rw [h2, h1]
  unfold updatePlayerMovement
  split_ifs
  · exact ⟨t, g, cp, ct, s.playerPos.x, s.playerPos.y, s.playerPos.z, s.playerYawDeg, s.playerVelY, s.playerOnGround, rfl, id⟩
  · generalize hs1 : ({ s with gameTime := t, gameState := g, camPos := cp, camTarget := ct } : State) = s1
    obtain ⟨x, z, yaw, h3⟩ := horizontalMove_frame m s1 dt
    obtain ⟨v, og, h4⟩ := applyGravity_frame (horizontalMove m s1 dt) dt
    obtain ⟨y, v', og', h5, h6⟩ := verticalMove_frame (applyGravity (horizontalMove m s1 dt) dt) dt
    rw [h5, h4, h3]
    rw [h4, h3] at h6
    subst hs1
    exact ⟨t, g, cp, ct, x, y, z, yaw, v', og', rfl, h6⟩

end P01
namespace P01

theorem updateCollectibles_frame (s : State) :
    ∃ g, updateCollectibles s =
      { s with
        collectibles := s.collectibles.map (collectOne (playerBox s.playerPos))
        collectedPerPlatform :=
          (collectLoop (playerBox s.playerPos) s.collectibles s.collectedPerPlatform).2
        features := fun i => unlockFeature (s.features i)
          ((collectLoop (playerBox s.playerPos) s.collectibles s.collectedPerPlatform).2 i)
        gameState := g } := by
  unfold updateCollectibles collectPass
  dsimp only
  rw [collectLoop_fst]
  split_ifs <;> exact ⟨_, rfl⟩

theorem idle_eq (m : Libm) (s : State) (dt : ℚ) :
    idle m s dt =
      if (tickTimer s dt).gameState = .LOST then tickTimer s dt
      else updateObstacles m (updateFeatures (updateCollectibles
        (updatePlayerMovement m (updateCameraFreeMove m (tickTimer s dt) dt) dt)) dt) dt := rfl

/-- What an idle tick does to the player height, the collectibles and the
counters: either nothing, or the collection pass at the player position `p`
that the movement code has produced. -/
theorem idle_collect (m : Libm) (s : State) (dt : ℚ) :
    ((idle m s dt).playerPos = s.playerPos ∧
      (idle m s dt).collectibles = s.collectibles ∧
      (idle m s dt).collectedPerPlatform = s.collectedPerPlatform) ∨
    ∃ p : Vec3, (idle m s dt).playerPos = p ∧ (1 ≤ s.playerPos.y → 1 ≤ p.y) ∧
      (idle m s dt).collectibles = s.collectibles.map (collectOne (playerBox p)) ∧
      (idle m s dt).collectedPerPlatform =
        (collectLoop (playerBox p) s.collectibles s.collectedPerPlatform).2 := by
  rw [idle_eq]
  split_ifs with h
  · left
    obtain ⟨t, g, h1⟩ := tickTimer_frame s dt
    rw [h1]
    exact ⟨rfl, rfl, rfl⟩
  · right
    obtain ⟨t, g, cp, ct, x, y, z, yaw, v, og, h1, h2⟩ := preCollect_frame m s dt
    obtain ⟨g', h3⟩ := updateCollectibles_frame
      (updatePlayerMovement m (updateCameraFreeMove m (tickTimer s dt) dt) dt)
    rw [h3, h1]
    exact ⟨⟨x, y, z⟩, rfl, h2, rfl, rfl⟩

theorem keyboard_esc (s : State) :
    keyboard s 27 = { resetGame s with keyDown := Function.update s.keyDown 27 true } := by
  unfold keyboard
  dsimp only
  rw [if_pos rfl]
  have hj : ∀ t : State, jumpKey t 27 = t := by
    intro t; unfold jumpKey; rw [if_neg]; rintro ⟨h, -⟩; exact absurd h (by decide)
  have ht : ∀ (t : State) (l u : Fin 256) (i : Fin 4), l ≠ 27 → u ≠ 27 →
      toggleKey t 27 l u i = t := by
    intro t l u i hl hu
    unfold toggleKey
    rw [if_neg]
    rintro ⟨h | h, -⟩
    · exact hl h.symm
    · exact hu h.symm
  rw [hj, ht _ _ _ _ (by decide) (by decide), ht _ _ _ _ (by decide) (by decide),
    ht _ _ _ _ (by decide) (by decide), ht _ _ _ _ (by decide) (by decide)]
  obtain ⟨c, hc⟩ := cameraKeys_frame { s with keyDown := Function.update s.keyDown 27 true } 27
  rw [hc]
  rfl

theorem toggleKey_pointwise (s0 s : State) (key lower upper : Fin 256) (i : Fin 4)
    (kd : Fin 256 → Bool) (cm : CameraPreset) (v : ℚ) (og : Bool)
    (h : ∃ b : Fin 4 → Bool, s =
      { s0 with keyDown := kd, camMode := cm, playerVelY := v, playerOnGround := og,
                features := fun j => { s0.features j with animEnabled := b j } }) :
    ∃ b : Fin 4 → Bool, toggleKey s key lower upper i =
      { s0 with keyDown := kd, camMode := cm, playerVelY := v, playerOnGround := og,
                features := fun j => { s0.features j with animEnabled := b j } } := by
  obtain ⟨b, rfl⟩ := h
  unfold toggleKey toggleAnim
  split_ifs
  · refine ⟨Function.update b i (!b i), ?_⟩
    dsimp only
    congr 1
    funext j
    by_cases hj : j = i
    · subst hj; simp
    · simp [Function.update_noteq hj]
  · exact ⟨b, rfl⟩

/-- A key other than ESC changes only `keyDown`, `camMode`, the jump
variables and the `animEnabled` flags. -/
theorem keyboard_frame (s : State) (key : Fin 256) (hk : key ≠ 27) :
    ∃ (cm : CameraPreset) (v : ℚ) (og : Bool) (b : Fin 4 → Bool),
      keyboard s key =
        { s with keyDown := Function.update s.keyDown key true, camMode := cm, playerVelY := v,
                 playerOnGround := og,
                 features := fun j => { s.features j with animEnabled := b j } } := by
  unfold keyboard
  dsimp only
  rw [if_neg hk]
  obtain ⟨cm, h1⟩ := cameraKeys_frame { s with keyDown := Function.update s.keyDown key true } key
  obtain ⟨v, og, h2⟩ := jumpKey_frame
    (cameraKeys { s with keyDown := Function.update s.keyDown key true } key) key
  rw [h2, h1]
  refine ⟨cm, v, og, ?_⟩
  iterate 4 apply toggleKey_pointwise
  exact ⟨fun j => (s.features j).animEnabled, rfl⟩

end P01
/-! ### Horizontal movement (C3, C4) -/

namespace PXX

theorem collidesWithWorld_setPlayerPos_pxx (s : State) (p : Vec3) (box : AABB) :
    collidesWithWorld { s with playerPos := p } box = collidesWithWorld s box := rfl

theorem tryMovePlayer_eq_pxx (s : State) (delta : Vec3) :
    tryMovePlayer s delta =
      { s with playerPos :=
          ⟨if collidesWithWorld s (playerBox ⟨s.playerPos.x + delta.x, s.playerPos.y, s.playerPos.z⟩)
             then s.playerPos.x else s.playerPos.x + delta.x,
           s.playerPos.y,
           if collidesWithWorld s (playerBox
               ⟨if collidesWithWorld s (playerBox ⟨s.playerPos.x + delta.x, s.playerPos.y, s.playerPos.z⟩)
                  then s.playerPos.x else s.playerPos.x + delta.x,
                s.playerPos.y, s.playerPos.z + delta.z⟩)
             then s.playerPos.z else s.playerPos.z + delta.z⟩ } := by
  unfold tryMovePlayer
  cases h1 : collidesWithWorld s (playerBox ⟨s.playerPos.x + delta.x, s.playerPos.y, s.playerPos.z⟩)
  · simp only [h1, Bool.not_false, if_true, collidesWithWorld_setPlayerPos_pxx]
    cases h2 : collidesWithWorld s (playerBox ⟨s.playerPos.x + delta.x, s.playerPos.y, s.playerPos.z + delta.z⟩)
    · simp [h2]
    · simp [h2]
  · simp only [h1, Bool.not_true, if_false]
    cases h2 : collidesWithWorld s (playerBox ⟨s.playerPos.x, s.playerPos.y, s.playerPos.z + delta.z⟩)
    · simp [h2]
    · simp [h2]

end PXX

/-- C3: in both programs `tryMovePlayer` commits the X displacement exactly
when the player box moved in x does not collide with the world, then commits
the Z displacement exactly when the box at the new x moved in z does not
collide; a blocked axis keeps its coordinate, and y is never changed. -/
theorem tryMovePlayer_commits_free_axes (s : P01.State) (q : PXX.State) (delta : Vec3) :
    ((P01.tryMovePlayer s delta).playerPos.x =
        (if P01.collidesWithWorld s
            (playerBox ⟨s.playerPos.x + delta.x, s.playerPos.y, s.playerPos.z⟩) = true
          then s.playerPos.x else s.playerPos.x + delta.x) ∧
      (P01.tryMovePlayer s delta).playerPos.z =
        (if P01.collidesWithWorld s
            (playerBox ⟨(P01.tryMovePlayer s delta).playerPos.x, s.playerPos.y,
              s.playerPos.z + delta.z⟩) = true
          then s.playerPos.z else s.playerPos.z + delta.z) ∧
      (P01.tryMovePlayer s delta).playerPos.y = s.playerPos.y) ∧
    ((PXX.tryMovePlayer q delta).playerPos.x =
        (if PXX.collidesWithWorld q
            (playerBox ⟨q.playerPos.x + delta.x, q.playerPos.y, q.playerPos.z⟩) = true
          then q.playerPos.x else q.playerPos.x + delta.x) ∧
      (PXX.tryMovePlayer q delta).playerPos.z =
        (if PXX.collidesWithWorld q
            (playerBox ⟨(PXX.tryMovePlayer q delta).playerPos.x, q.playerPos.y,
              q.playerPos.z + delta.z⟩) = true
          then q.playerPos.z else q.playerPos.z + delta.z) ∧
      (PXX.tryMovePlayer q delta).playerPos.y = q.playerPos.y) := by
  refine ⟨?_, ?_⟩
  · rw [P01.tryMovePlayer_eq]
    exact ⟨rfl, rfl, rfl⟩
  · rw [PXX.tryMovePlayer_eq_pxx]
    exact ⟨rfl, rfl, rfl⟩

theorem P01.collidesWithWorld_startState (box : AABB) :
    P01.collidesWithWorld P01.startState box =
      ((P01.resetGame P01.staticInit).walls.any (fun w => aabbIntersects box w) ||
      [P01.scenePlatforms 0, P01.scenePlatforms 1, P01.scenePlatforms 2,
        P01.scenePlatforms 3].any (fun p => P01.blocksBox box p.box) ||
      P01.sceneObstacles.any (fun o => P01.blocksBox box o.box) ||
      [P01.sceneFeatures 0, P01.sceneFeatures 1, P01.sceneFeatures 2,
        P01.sceneFeatures 3].any (fun f => P01.blocksBox box f.box)) := rfl

theorem P01.collidesWithWorld_cornerState (box : AABB) :
    P01.collidesWithWorld P01.cornerState box = P01.collidesWithWorld P01.startState box := rfl

theorem P01.cornerState_playerPos : P01.cornerState.playerPos = ⟨-11, 1, -13⟩ := rfl

theorem P01.startState_free_a :
    P01.collidesWithWorld P01.startState (playerBox ⟨-11 + -1 / 2, 1, -13⟩) = false := by
  rw [P01.collidesWithWorld_startState]
  simp only [P01.resetGame, P01.scenePlatforms, P01.sceneObstacles, P01.sceneFeatures,
    P01.staticObstacle, WORLD_HALF, List.any_cons, List.any_nil, P01.blocksBox, aabbIntersects,
    playerBox, playerHalf, Matrix.cons_val_zero, Matrix.cons_val_one, Matrix.head_cons,
    Matrix.cons_val_two, Matrix.cons_val_three, Matrix.tail_cons]
  norm_num [abs_le]

theorem P01.startState_blocked_b :
    P01.collidesWithWorld P01.startState (playerBox ⟨-11 + -1 / 2, 1, -13 + -1 / 2⟩) = true := by
  rw [P01.collidesWithWorld_startState]
  simp only [P01.resetGame, P01.scenePlatforms, P01.sceneObstacles, P01.sceneFeatures,
    P01.staticObstacle, WORLD_HALF, List.any_cons, List.any_nil, P01.blocksBox, aabbIntersects,
    playerBox, playerHalf, Matrix.cons_val_zero, Matrix.cons_val_one, Matrix.head_cons,
    Matrix.cons_val_two, Matrix.cons_val_three, Matrix.tail_cons]
  norm_num [abs_le]

theorem P01.startState_free_c :
    P01.collidesWithWorld P01.startState (playerBox ⟨-11 + 0, 1, -13⟩) = false := by
  rw [P01.collidesWithWorld_startState]
  simp only [P01.resetGame, P01.scenePlatforms, P01.sceneObstacles, P01.sceneFeatures,
    P01.staticObstacle, WORLD_HALF, List.any_cons, List.any_nil, P01.blocksBox, aabbIntersects,
    playerBox, playerHalf, Matrix.cons_val_zero, Matrix.cons_val_one, Matrix.head_cons,
    Matrix.cons_val_two, Matrix.cons_val_three, Matrix.tail_cons]
  norm_num [abs_le]

theorem P01.startState_free_d :
    P01.collidesWithWorld P01.startState (playerBox ⟨-11 + 0, 1, -13 + -1 / 2⟩) = false := by
  rw [P01.collidesWithWorld_startState]
  simp only [P01.resetGame, P01.scenePlatforms, P01.sceneObstacles, P01.sceneFeatures,
    P01.staticObstacle, WORLD_HALF, List.any_cons, List.any_nil, P01.blocksBox, aabbIntersects,
    playerBox, playerHalf, Matrix.cons_val_zero, Matrix.cons_val_one, Matrix.head_cons,
    Matrix.cons_val_two, Matrix.cons_val_three, Matrix.tail_cons]
  norm_num [abs_le]

/-- C4, the claim as stated fails: from the corner of the red platform the
diagonal move `(-1/2, -1/2)` commits x and is then blocked in z (z stays
`-13`), while the move `(0, -1/2)` from the same state commits z
(z becomes `-27/2`). -/
theorem tryMovePlayer_z_depends_on_dx :
    (P01.tryMovePlayer P01.cornerState ⟨-1 / 2, 0, -1 / 2⟩).playerPos.z = -13 ∧
    (P01.tryMovePlayer P01.cornerState ⟨0, 0, -1 / 2⟩).playerPos.z = -27 / 2 ∧
    (P01.tryMovePlayer P01.cornerState ⟨-1 / 2, 0, -1 / 2⟩).playerPos.z ≠
      (P01.tryMovePlayer P01.cornerState ⟨0, 0, -1 / 2⟩).playerPos.z := by
  have h1 : (P01.tryMovePlayer P01.cornerState ⟨-1 / 2, 0, -1 / 2⟩).playerPos.z = -13 := by
    rw [P01.tryMovePlayer_eq]
    simp only [P01.collidesWithWorld_cornerState, P01.cornerState_playerPos, P01.startState_free_a,
      P01.startState_blocked_b, Bool.false_eq_true, if_false, if_true]
  have h2 : (P01.tryMovePlayer P01.cornerState ⟨0, 0, -1 / 2⟩).playerPos.z = -27 / 2 := by
    rw [P01.tryMovePlayer_eq]
    simp only [P01.collidesWithWorld_cornerState, P01.cornerState_playerPos, P01.startState_free_c,
      P01.startState_free_d, Bool.false_eq_true, if_false]
    norm_num
  refine ⟨h1, h2, ?_⟩
  rw [h1, h2]
  norm_num

/-- C4 as amended: the x coordinate produced for `(dx, dz)` is the one
produced for `(dx, 0)`; the whole result for `(dx, dz)` is the result of the
move `(0, dz)` applied to the state that the move `(dx, 0)` produces; hence
the z coordinate equals the one produced for `(0, dz)` whenever the X step
left x unchanged. -/
theorem tryMovePlayer_x_then_z (s : P01.State) (delta : Vec3) :
    (P01.tryMovePlayer s delta).playerPos.x =
      (P01.tryMovePlayer s ⟨delta.x, delta.y, 0⟩).playerPos.x ∧
    P01.tryMovePlayer s delta =
      P01.tryMovePlayer (P01.tryMovePlayer s ⟨delta.x, delta.y, 0⟩) ⟨0, delta.y, delta.z⟩ ∧
    ((P01.tryMovePlayer s delta).playerPos.x = s.playerPos.x →
      (P01.tryMovePlayer s delta).playerPos.z =
        (P01.tryMovePlayer s ⟨0, delta.y, delta.z⟩).playerPos.z) := by
  refine ⟨?_, ?_, ?_⟩
  · rw [P01.tryMovePlayer_eq, P01.tryMovePlayer_eq]
  · rw [P01.tryMovePlayer_eq s ⟨delta.x, delta.y, 0⟩, P01.tryMovePlayer_eq _ ⟨0, delta.y, delta.z⟩,
      P01.tryMovePlayer_eq s delta]
    simp only [P01.collidesWithWorld_setPlayerPos, add_zero, ite_self]
  · intro hx
    rw [P01.tryMovePlayer_eq] at hx ⊢
    rw [P01.tryMovePlayer_eq]
    simp only [add_zero, ite_self] at hx ⊢
    rw [hx]

/-- C4 amended, evaluated: in the corner state the pure X move `(-1/2, 0)`
is committed, and the diagonal move equals the Z move from that state. -/
theorem tryMovePlayer_x_then_z_witness :
    (P01.tryMovePlayer P01.cornerState ⟨-1 / 2, 0, -1 / 2⟩).playerPos.x =
      (P01.tryMovePlayer P01.cornerState ⟨-1 / 2, 0, 0⟩).playerPos.x :=
  (tryMovePlayer_x_then_z P01.cornerState ⟨-1 / 2, 0, -1 / 2⟩).1


/-! ### Collision with the world (C5) -/

theorem P01.blocksBox_eq_true (box obj : AABB) :
    P01.blocksBox box obj = true ↔
      aabbIntersects box obj = true ∧
        obj.center.y + obj.half.y - 1 / 2 > box.center.y - box.half.y := by
  unfold P01.blocksBox
  by_cases h : box.center.y - box.half.y ≥ obj.center.y + obj.half.y - 1 / 2
  · simp only [h, if_true]
    constructor
    · intro h'; cases h'
    · rintro ⟨_, h2⟩; exact absurd h (not_le.mpr h2)
  · simp only [h, if_false]
    exact ⟨fun h' => ⟨h', not_le.mp h⟩, fun h' => h'.1⟩

theorem P01.collidesWithWorld_iff (s : P01.State) (box : AABB) :
    P01.collidesWithWorld s box = true ↔
      (∃ w ∈ s.walls, aabbIntersects box w = true) ∨
      (∃ i : Fin 4, aabbIntersects box (s.platforms i).box = true ∧
        (s.platforms i).box.center.y + (s.platforms i).box.half.y - 1 / 2 >
          box.center.y - box.half.y) ∨
      (∃ o ∈ s.obstacles, aabbIntersects box o.box = true ∧
        o.box.center.y + o.box.half.y - 1 / 2 > box.center.y - box.half.y) ∨
      (∃ i : Fin 4, aabbIntersects box (s.features i).box = true ∧
        (s.features i).box.center.y + (s.features i).box.half.y - 1 / 2 >
          box.center.y - box.half.y) := by
  unfold P01.collidesWithWorld
  simp only [Bool.or_eq_true, List.any_eq_true, List.mem_ofFn, Set.mem_range,
    P01.blocksBox_eq_true, or_assoc]
  constructor
  · rintro (h | ⟨p, ⟨i, rfl⟩, h⟩ | h | ⟨f, ⟨i, rfl⟩, h⟩)
    · exact Or.inl h
    · exact Or.inr (Or.inl ⟨i, h⟩)
    · exact Or.inr (Or.inr (Or.inl h))
    · exact Or.inr (Or.inr (Or.inr ⟨i, h⟩))
  · rintro (h | ⟨i, h⟩ | h | ⟨i, h⟩)
    · exact Or.inl h
    · exact Or.inr (Or.inl ⟨_, ⟨i, rfl⟩, h⟩)
    · exact Or.inr (Or.inr (Or.inl h))
    · exact Or.inr (Or.inr (Or.inr ⟨_, ⟨i, rfl⟩, h⟩))

/-- C5: in the first program `collidesWithWorld s box` is true exactly when
`box` intersects a wall, or intersects a platform, obstacle or feature object
whose top minus 0.5 is strictly above the bottom of `box`.  Hence an object
whose top minus 0.5 is at or below the bottom of `box` is skipped by its loop
even when the boxes overlap, and a box that overlaps a platform and has its
bottom below the platform top minus 0.5 collides. -/
theorem collidesWithWorld_stand_on_top (s : P01.State) (box : AABB) :
    (P01.collidesWithWorld s box = true ↔
      (∃ w ∈ s.walls, aabbIntersects box w = true) ∨
      (∃ i : Fin 4, aabbIntersects box (s.platforms i).box = true ∧
        (s.platforms i).box.center.y + (s.platforms i).box.half.y - 1 / 2 >
          box.center.y - box.half.y) ∨
      (∃ o ∈ s.obstacles, aabbIntersects box o.box = true ∧
        o.box.center.y + o.box.half.y - 1 / 2 > box.center.y - box.half.y) ∨
      (∃ i : Fin 4, aabbIntersects box (s.features i).box = true ∧
        (s.features i).box.center.y + (s.features i).box.half.y - 1 / 2 >
          box.center.y - box.half.y)) ∧
    (∀ obj : AABB, obj.center.y + obj.half.y - 1 / 2 ≤ box.center.y - box.half.y →
      P01.blocksBox box obj = false) ∧
    ((∀ w ∈ s.walls, aabbIntersects box w = false) →
      (∀ i : Fin 4, (s.platforms i).box.center.y + (s.platforms i).box.half.y - 1 / 2 ≤
        box.center.y - box.half.y) →
      (∀ o ∈ s.obstacles, o.box.center.y + o.box.half.y - 1 / 2 ≤ box.center.y - box.half.y) →
      (∀ i : Fin 4, (s.features i).box.center.y + (s.features i).box.half.y - 1 / 2 ≤
        box.center.y - box.half.y) →
      P01.collidesWithWorld s box = false) ∧
    (∀ i : Fin 4, box.center.y - box.half.y <
        (s.platforms i).box.center.y + (s.platforms i).box.half.y - 1 / 2 →
      aabbIntersects box (s.platforms i).box = true → P01.collidesWithWorld s box = true) := by
  refine ⟨P01.collidesWithWorld_iff s box, ?_, ?_, ?_⟩
  · intro obj h
    cases hb : P01.blocksBox box obj
    · rfl
    · exact absurd h (not_le.mpr ((P01.blocksBox_eq_true box obj).mp hb).2)
  · intro hw hp ho hf
    cases hc : P01.collidesWithWorld s box
    · rfl
    · rcases (P01.collidesWithWorld_iff s box).mp hc with
        ⟨w, hm, h⟩ | ⟨i, -, h⟩ | ⟨o, hm, -, h⟩ | ⟨i, -, h⟩
      · rw [hw w hm] at h; cases h
      · exact absurd (hp i) (not_le.mpr h)
      · exact absurd (ho o hm) (not_le.mpr h)
      · exact absurd (hf i) (not_le.mpr h)
  · intro i hlt hint
    exact (P01.collidesWithWorld_iff s box).mpr (Or.inr (Or.inl ⟨i, hint, hlt⟩))

/-! ### Floor clamp and jump (C6, C7) -/

theorem P01.idle_floor (m : Libm) (s : P01.State) (dt : ℚ) (h : 1 ≤ s.playerPos.y) :
    1 ≤ (P01.idle m s dt).playerPos.y := by
  rcases P01.idle_collect m s dt with ⟨h1, -, -⟩ | ⟨p, h1, h2, -, -⟩
  · rw [h1]; exact h
  · rw [h1]; exact h2 h

theorem P01.keyboard_floor (s : P01.State) (key : Fin 256) (h : 1 ≤ s.playerPos.y) :
    1 ≤ (P01.keyboard s key).playerPos.y := by
  by_cases hk : key = 27
  · subst hk
    rw [P01.keyboard_esc]
    show (1 : ℚ) ≤ 1
    exact le_refl _
  · obtain ⟨cm, v, og, b, e⟩ := P01.keyboard_frame s key hk
    rw [e]
    exact h

/-- C6: in every state reachable from `resetGame` by idle ticks (any frame
delta, any held keys) and keyboard events, the player's y coordinate is at
least 1. -/
theorem floor_invariant (m : Libm) (s : P01.State) (h : P01.Reachable m s) :
    1 ≤ s.playerPos.y := by
  induction h with
  | init s0 => exact le_refl _
  | step e _ ih =>
    cases e with
    | idle dt => exact P01.idle_floor m _ dt ih
    | keyboard key => exact P01.keyboard_floor _ key ih
    | keyboardUp key => exact ih
    | special key => exact ih
    | specialUp key => exact ih

/-- C6 at a concrete run: start, press space, one tick of a tenth of a
second. -/
theorem floor_invariant_witness :
    1 ≤ (P01.step sampleLibm (P01.step sampleLibm P01.startState (.keyboard 32))
      (.idle (1 / 10))).playerPos.y :=
  floor_invariant sampleLibm _ (.step _ (.step _ (.init P01.staticInit)))

/-- C7: the keyboard handler called with the space key sets `playerVelY` to
`JUMP_VELOCITY` = 12 and `playerOnGround` to false when the player is on the
ground and the game state is `PLAYING` or `WON`; when the player is not on the
ground or the game state is `LOST`, both are left unchanged. -/
theorem keyboard_space_jump (s : P01.State) :
    (s.playerOnGround = true ∧ (s.gameState = .PLAYING ∨ s.gameState = .WON) →
      (P01.keyboard s 32).playerVelY = P01.JUMP_VELOCITY ∧ P01.JUMP_VELOCITY = 12 ∧
      (P01.keyboard s 32).playerOnGround = false) ∧
    (s.playerOnGround = false ∨ s.gameState = .LOST →
      (P01.keyboard s 32).playerVelY = s.playerVelY ∧
      (P01.keyboard s 32).playerOnGround = s.playerOnGround) := by
  have ht : ∀ (t : P01.State) (l u : Fin 256) (i : Fin 4), l ≠ 32 → u ≠ 32 →
      P01.toggleKey t 32 l u i = t := by
    intro t l u i hl hu
    unfold P01.toggleKey
    rw [if_neg]
    rintro ⟨h | h, -⟩
    · exact hl h.symm
    · exact hu h.symm
  have hk : P01.keyboard s 32 =
      P01.jumpKey (P01.cameraKeys { s with keyDown := Function.update s.keyDown 32 true } 32) 32 := by
    unfold P01.keyboard
    dsimp only
    rw [if_neg (by decide), ht _ _ _ _ (by decide) (by decide), ht _ _ _ _ (by decide) (by decide),
      ht _ _ _ _ (by decide) (by decide), ht _ _ _ _ (by decide) (by decide)]
  obtain ⟨c, hc⟩ := P01.cameraKeys_frame { s with keyDown := Function.update s.keyDown 32 true } 32
  rw [hk, hc]
  unfold P01.jumpKey
  constructor
  · rintro ⟨h1, h2⟩
    rw [if_pos ⟨rfl, h1, h2⟩]
    exact ⟨rfl, rfl, rfl⟩
  · intro h
    rw [if_neg]
    · exact ⟨rfl, rfl⟩
    · rintro ⟨-, h1, h2⟩
      rcases h with h | h
      · rw [h] at h1; cases h1
      · rw [h] at h2; rcases h2 with h2 | h2 <;> cases h2


/-- C7 at a concrete input: space pressed in the start state. -/
theorem keyboard_space_jump_witness :
    (P01.keyboard P01.startState 32).playerVelY = P01.JUMP_VELOCITY ∧
    (P01.keyboard P01.startState 32).playerOnGround = false :=
  ⟨((keyboard_space_jump P01.startState).1 ⟨rfl, Or.inl rfl⟩).1,
    ((keyboard_space_jump P01.startState).1 ⟨rfl, Or.inl rfl⟩).2.2⟩

/-! ### Collectibles and counters (C8, C9, C10) -/

theorem countedOnce_of_collect (pb : AABB) (cs : List Collectible) (cnt : Fin 4 → Int) :
    FlagsKept cs (cs.map (collectOne pb)) ∧
    ∀ i, (collectLoop pb cs cnt).2 i = cnt i + flips cs (cs.map (collectOne pb)) i := by
  refine ⟨flagsKept_collect pb cs, fun i => ?_⟩
  rw [collectLoop_snd, flips_collect]

theorem flips_eq_zero_of_collected (cs cs' : List Collectible) (i : Fin 4)
    (h : ∀ c ∈ cs, c.platformIndex = i → c.collected = true) : flips cs cs' i = 0 := by
  unfold flips
  rw [List.countP_eq_zero]
  rintro ⟨c, c'⟩ hm
  have hc := h c (List.of_mem_zip hm).1
  by_cases hi : c.platformIndex = i
  · simp [hc hi]
  · simp [hi]

theorem P01.idle_countedOnce (m : Libm) (s : P01.State) (dt : ℚ) :
    FlagsKept s.collectibles (P01.idle m s dt).collectibles ∧
    ∀ i, (P01.idle m s dt).collectedPerPlatform i =
      s.collectedPerPlatform i + flips s.collectibles (P01.idle m s dt).collectibles i := by
  rcases P01.idle_collect m s dt with ⟨-, h2, h3⟩ | ⟨p, -, -, h2, h3⟩
  · rw [h2, h3]
    exact ⟨flagsKept_refl _, fun i => by rw [flips_self]; simp⟩
  · rw [h2, h3]
    exact countedOnce_of_collect _ _ _

theorem P01.updateCollectibles_countedOnce (s : P01.State) :
    FlagsKept s.collectibles (P01.updateCollectibles s).collectibles ∧
    ∀ i, (P01.updateCollectibles s).collectedPerPlatform i =
      s.collectedPerPlatform i +
        flips s.collectibles (P01.updateCollectibles s).collectibles i := by
  obtain ⟨g, h⟩ := P01.updateCollectibles_frame s
  rw [h]
  exact countedOnce_of_collect _ _ _

theorem P01.keyboard_collectibles (s : P01.State) (key : Fin 256) (hk : key ≠ 27) :
    (P01.keyboard s key).collectibles = s.collectibles ∧
    (P01.keyboard s key).collectedPerPlatform = s.collectedPerPlatform := by
  obtain ⟨cm, v, og, b, e⟩ := P01.keyboard_frame s key hk
  rw [e]
  exact ⟨rfl, rfl⟩

theorem P01.step_countedOnce (m : Libm) (s : P01.State) (e : P01.Event)
    (he : e ≠ .keyboard 27) :
    FlagsKept s.collectibles (P01.step m s e).collectibles ∧
    ∀ i, (P01.step m s e).collectedPerPlatform i =
      s.collectedPerPlatform i + flips s.collectibles (P01.step m s e).collectibles i := by
  have hrefl : ∀ t : P01.State, t.collectibles = s.collectibles →
      t.collectedPerPlatform = s.collectedPerPlatform →
      FlagsKept s.collectibles t.collectibles ∧
      ∀ i, t.collectedPerPlatform i =
        s.collectedPerPlatform i + flips s.collectibles t.collectibles i := by
    intro t h1 h2
    rw [h1, h2]
    exact ⟨flagsKept_refl _, fun i => by rw [flips_self]; simp⟩
  cases e with
  | idle dt => exact P01.idle_countedOnce m s dt
  | keyboard key =>
    have hk : key ≠ 27 := fun h => he (by rw [h])
    exact hrefl _ (P01.keyboard_collectibles s key hk).1 (P01.keyboard_collectibles s key hk).2
  | keyboardUp key => exact hrefl _ rfl rfl
  | special key => exact hrefl _ rfl rfl
  | specialUp key => exact hrefl _ rfl rfl

/-- C8: across every operation other than `resetGame` (every callback except
the ESC key, and `updateCollectibles` itself) no collectible is lost, moved or
un-collected, and each platform counter grows by exactly the number of that
platform's collectibles whose flag flips from false to true in the operation;
so a platform all of whose collectibles are already collected keeps its
counter, whether or not they overlap the player. -/
theorem collected_flag_counted_once (m : Libm) (s : P01.State) (e : P01.Event)
    (he : e ≠ .keyboard 27) :
    (FlagsKept s.collectibles (P01.step m s e).collectibles ∧
      (∀ i, (P01.step m s e).collectedPerPlatform i =
        s.collectedPerPlatform i + flips s.collectibles (P01.step m s e).collectibles i) ∧
      (∀ i, (∀ c ∈ s.collectibles, c.platformIndex = i → c.collected = true) →
        (P01.step m s e).collectedPerPlatform i = s.collectedPerPlatform i)) ∧
    (FlagsKept s.collectibles (P01.updateCollectibles s).collectibles ∧
      (∀ i, (P01.updateCollectibles s).collectedPerPlatform i =
        s.collectedPerPlatform i +
          flips s.collectibles (P01.updateCollectibles s).collectibles i) ∧
      (∀ i, (∀ c ∈ s.collectibles, c.platformIndex = i → c.collected = true) →
        (P01.updateCollectibles s).collectedPerPlatform i = s.collectedPerPlatform i)) := by
  refine ⟨⟨(P01.step_countedOnce m s e he).1, (P01.step_countedOnce m s e he).2, ?_⟩,
    ⟨(P01.updateCollectibles_countedOnce s).1, (P01.updateCollectibles_countedOnce s).2, ?_⟩⟩
  · intro i h
    rw [(P01.step_countedOnce m s e he).2 i, flips_eq_zero_of_collected _ _ i h]
    simp
  · intro i h
    rw [(P01.updateCollectibles_countedOnce s).2 i, flips_eq_zero_of_collected _ _ i h]
    simp

theorem P01.pickupState_counter :
    (P01.updateCollectibles P01.pickupState).collectedPerPlatform 0 = 1 := by
  obtain ⟨g, h⟩ := P01.updateCollectibles_frame P01.pickupState
  rw [h]
  show (collectLoop (playerBox ⟨-22, 1, -43 / 2⟩) P01.sceneCollectibles (fun _ => 0)).2 0 = _
  rw [collectLoop_snd]
  simp only [P01.sceneCollectibles, P01.addCollectible, P01.platformSurfaceY,
    P01.scenePlatforms, List.countP_cons, List.countP_nil, aabbIntersects, playerBox, playerHalf,
    Matrix.cons_val_zero, Matrix.cons_val_one, Matrix.head_cons,
    Matrix.cons_val_two, Matrix.cons_val_three, Matrix.tail_cons]
  norm_num [abs_le]

theorem P01.pickupState_counter_twice :
    (P01.updateCollectibles (P01.updateCollectibles P01.pickupState)).collectedPerPlatform 0 =
      1 := by
  obtain ⟨g', h'⟩ := P01.updateCollectibles_frame (P01.updateCollectibles P01.pickupState)
  rw [h']
  dsimp only
  rw [collectLoop_snd, P01.pickupState_counter]
  obtain ⟨g, h⟩ := P01.updateCollectibles_frame P01.pickupState
  rw [h]
  show (1 : Int) + ((List.map (collectOne (playerBox ⟨-22, 1, -43 / 2⟩))
    P01.sceneCollectibles).countP (fun c => !c.collected &&
      aabbIntersects (playerBox ⟨-22, 1, -43 / 2⟩) c.box && decide (c.platformIndex = 0)) : Nat)
    = 1
  simp only [P01.sceneCollectibles, P01.addCollectible, P01.platformSurfaceY, collectOne,
    P01.scenePlatforms, List.countP_cons, List.countP_nil, List.map_cons, List.map_nil,
    aabbIntersects, playerBox, playerHalf,
    Matrix.cons_val_zero, Matrix.cons_val_one, Matrix.head_cons,
    Matrix.cons_val_two, Matrix.cons_val_three, Matrix.tail_cons]
  norm_num [abs_le]

/-- C8 at a concrete input: with the player inside the first collectible of
the red platform, `updateCollectibles` counts it (the counter becomes 1), and
a second call, with the collectible still overlapping the player, flips no flag
of the platform and leaves the counter at 1. -/
theorem collected_flag_counted_once_witness :
    (P01.updateCollectibles P01.pickupState).collectedPerPlatform 0 = 1 ∧
    (P01.updateCollectibles (P01.updateCollectibles P01.pickupState)).collectedPerPlatform 0 =
      1 ∧
    flips (P01.updateCollectibles P01.pickupState).collectibles
      (P01.updateCollectibles (P01.updateCollectibles P01.pickupState)).collectibles 0 = 0 := by
  have h := (collected_flag_counted_once sampleLibm (P01.updateCollectibles P01.pickupState)
    (.keyboardUp 0) (fun h => P01.Event.noConfusion h)).2.2.1 0
  rw [P01.pickupState_counter, P01.pickupState_counter_twice] at h
  refine ⟨P01.pickupState_counter, P01.pickupState_counter_twice, ?_⟩
  omega

theorem countP_collected_collect (pb : AABB) (cs : List Collectible) (i : Fin 4) :
    (cs.map (collectOne pb)).countP (fun c => c.collected && decide (c.platformIndex = i)) =
      cs.countP (fun c => c.collected && decide (c.platformIndex = i)) +
      cs.countP (fun c =>
        !c.collected && aabbIntersects pb c.box && decide (c.platformIndex = i)) := by
  induction cs with
  | nil => rfl
  | cons c cs ih =>
    rw [List.map_cons, List.countP_cons, List.countP_cons, List.countP_cons, ih]
    cases hc : c.collected <;> cases hx : aabbIntersects pb c.box <;>
      by_cases hi : c.platformIndex = i <;> simp [collectOne, hc, hx, hi] <;> omega

theorem countP_collected_le (cs : List Collectible) (i : Fin 4) :
    cs.countP (fun c => c.collected && decide (c.platformIndex = i)) ≤
      (cs.map (fun c => c.platformIndex)).count i := by
  induction cs with
  | nil => simp
  | cons c cs ih =>
    rw [List.map_cons, List.countP_cons, List.count_cons]
    cases hc : c.collected <;> by_cases hi : c.platformIndex = i <;> simp [hi] <;> omega

namespace P01

/-- The platform indices of the twelve collectibles of the scene, in order. -/
theorem sceneCollectibles_index :
    sceneCollectibles.map (fun c => c.platformIndex) = [0, 0, 0, 1, 1, 1, 2, 2, 2, 3, 3, 3] := rfl

theorem countersMatch_resetGame (s : State) : CountersMatch (resetGame s) := by
  refine ⟨sceneCollectibles_index, fun i => ?_⟩
  show (0 : Int) = (sceneCollectibles.countP _ : Nat)
  rw [List.countP_eq_zero.mpr]
  · rfl
  · intro c hc
    simp only [sceneCollectibles, addCollectible, List.mem_cons, List.mem_singleton,
      List.mem_nil_iff, or_false] at hc
    rcases hc with h | h | h | h | h | h | h | h | h | h | h | h <;> simp [h]

theorem countersMatch_collect (s : State) (hs : CountersMatch s) (t : State) (p : Vec3)
    (h1 : t.collectibles = s.collectibles.map (collectOne (playerBox p)))
    (h2 : t.collectedPerPlatform =
      (collectLoop (playerBox p) s.collectibles s.collectedPerPlatform).2) :
    CountersMatch t := by
  refine ⟨?_, fun i => ?_⟩
  · rw [h1, List.map_map]
    exact hs.1
  · rw [h1, h2, collectLoop_snd, countP_collected_collect, hs.2 i]
    push_cast
    rfl

theorem countersMatch_same (s : State) (hs : CountersMatch s) (t : State)
    (h1 : t.collectibles = s.collectibles)
    (h2 : t.collectedPerPlatform = s.collectedPerPlatform) : CountersMatch t := by
  unfold CountersMatch
  rw [h1, h2]
  exact hs

theorem countersMatch_step (m : Libm) (s : State) (e : Event) (hs : CountersMatch s) :
    CountersMatch (step m s e) := by
  cases e with
  | idle dt =>
    rcases idle_collect m s dt with ⟨-, h2, h3⟩ | ⟨p, -, -, h2, h3⟩
    · exact countersMatch_same s hs _ h2 h3
    · exact countersMatch_collect s hs _ p h2 h3
  | keyboard key =>
    by_cases hk : key = 27
    · subst hk
      show CountersMatch (keyboard s 27)
      rw [keyboard_esc]
      exact countersMatch_resetGame s
    · exact countersMatch_same s hs _ (keyboard_collectibles s key hk).1
        (keyboard_collectibles s key hk).2
  | keyboardUp key => exact countersMatch_same s hs _ rfl rfl
  | special key => exact countersMatch_same s hs _ rfl rfl
  | specialUp key => exact countersMatch_same s hs _ rfl rfl

theorem countersMatch_reachable (m : Libm) (s : State) (h : Reachable m s) :
    CountersMatch s := by
  induction h with
  | init s0 => exact countersMatch_resetGame s0
  | step e _ ih => exact countersMatch_step m _ e ih

theorem countersMatch_bound (s : State) (hs : CountersMatch s) (i : Fin 4) :
    0 ≤ s.collectedPerPlatform i ∧ s.collectedPerPlatform i ≤ 3 := by
  rw [hs.2 i]
  refine ⟨Int.natCast_nonneg _, ?_⟩
  have h3 : ∀ j : Fin 4, List.count j [0, 0, 0, 1, 1, 1, 2, 2, 2, 3, 3, 3] = 3 := by decide
  have h := countP_collected_le s.collectibles i
  rw [hs.1, h3 i] at h
  exact_mod_cast h

end P01

/-- C9: in every state reachable from `resetGame` by idle ticks and keyboard
events each of the four per-platform counters lies between 0 and the
per-platform target 3; and no callback other than the ESC key (which calls
`resetGame`), nor `updateCollectibles` itself, decreases a counter, from any
state whatever. -/
theorem counters_bounded_and_monotone (m : Libm) :
    (∀ s : P01.State, P01.Reachable m s → ∀ i : Fin 4,
      0 ≤ s.collectedPerPlatform i ∧ s.collectedPerPlatform i ≤ totalCollectiblesPerPlatform ∧
      totalCollectiblesPerPlatform = 3) ∧
    (∀ (s : P01.State) (e : P01.Event), e ≠ .keyboard 27 → ∀ i : Fin 4,
      s.collectedPerPlatform i ≤ (P01.step m s e).collectedPerPlatform i) ∧
    (∀ (s : P01.State) (i : Fin 4),
      s.collectedPerPlatform i ≤ (P01.updateCollectibles s).collectedPerPlatform i) := by
  refine ⟨fun s hs i => ?_, fun s e he i => ?_, fun s i => ?_⟩
  · have h := P01.countersMatch_bound s (P01.countersMatch_reachable m s hs) i
    exact ⟨h.1, h.2, rfl⟩
  · rw [(P01.step_countedOnce m s e he).2 i]
    exact le_add_of_nonneg_right (Int.natCast_nonneg _)
  · rw [(P01.updateCollectibles_countedOnce s).2 i]
    exact le_add_of_nonneg_right (Int.natCast_nonneg _)

/-- C9 at a concrete input: the counters after one tick from the start state
are within bounds. -/
theorem counters_bounded_and_monotone_witness :
    ∀ i : Fin 4,
      0 ≤ (P01.step sampleLibm P01.startState (.idle (1 / 60))).collectedPerPlatform i ∧
      (P01.step sampleLibm P01.startState (.idle (1 / 60))).collectedPerPlatform i ≤ 3 :=
  fun i =>
    ⟨((counters_bounded_and_monotone sampleLibm).1 _ (.step _ (.init P01.staticInit)) i).1,
      ((counters_bounded_and_monotone sampleLibm).1 _ (.step _ (.init P01.staticInit)) i).2.1⟩

/-- C10: for every state and platform index `i`, if after the collection pass
of `updateCollectibles` the counter of platform `i` is at least 3 and
`features[i].allCollected` was false, then `updateCollectibles` sets both
`allCollected` and `animEnabled` of feature `i` to true; if the counter is
below 3, both flags are left unchanged. -/
theorem unlock_on_completion (s : P01.State) (i : Fin 4) :
    (3 ≤ (P01.collectPass s).collectedPerPlatform i ∧ (s.features i).allCollected = false →
      ((P01.updateCollectibles s).features i).allCollected = true ∧
      ((P01.updateCollectibles s).features i).animEnabled = true) ∧
    ((P01.collectPass s).collectedPerPlatform i < 3 →
      ((P01.updateCollectibles s).features i).allCollected = (s.features i).allCollected ∧
      ((P01.updateCollectibles s).features i).animEnabled = (s.features i).animEnabled) := by
  have hf : (P01.updateCollectibles s).features i =
      P01.unlockFeature (s.features i) ((P01.collectPass s).collectedPerPlatform i) := by
    obtain ⟨g, h⟩ := P01.updateCollectibles_frame s
    rw [h]
    rfl
  rw [hf]
  generalize (P01.collectPass s).collectedPerPlatform i = c
  unfold P01.unlockFeature totalCollectiblesPerPlatform
  constructor
  · rintro ⟨h1, h2⟩
    simp [h1, h2]
  · intro h1
    have h2 : ¬ (c ≥ 3) := not_le.mpr h1
    simp [h2]

theorem P01.fullState_counter (i : Fin 4) :
    3 ≤ (P01.collectPass P01.fullState).collectedPerPlatform i := by
  show 3 ≤ (collectLoop _ _ (fun _ => 3)).2 i
  rw [collectLoop_snd]
  exact le_add_of_nonneg_right (Int.natCast_nonneg _)

/-- C10 at a concrete input: with the counters at the target and the latches
still clear, `updateCollectibles` sets the latch and starts the animation of
feature 0. -/
theorem unlock_on_completion_witness :
    ((P01.updateCollectibles P01.fullState).features 0).allCollected = true ∧
    ((P01.updateCollectibles P01.fullState).features 0).animEnabled = true :=
  (unlock_on_completion P01.fullState 0).1 ⟨P01.fullState_counter 0, rfl⟩

/-! ### Game state, timer and latches across a tick (C11, C13, C14, C15, C16) -/

theorem completedCount_eq_four (cnt : Fin 4 → Int) :
    completedCount cnt = 4 ↔ ∀ i : Fin 4, 3 ≤ cnt i := by
  unfold completedCount totalCollectiblesPerPlatform
  constructor
  · intro h i
    have h' := List.countP_eq_length.mp (h.trans (List.length_finRange 4).symm) i
      (List.mem_finRange i)
    exact of_decide_eq_true h'
  · intro h
    rw [List.countP_eq_length.mpr (fun i _ => decide_eq_true (h i))]
    exact List.length_finRange 4

namespace P01

/-- The camera and player updates of a tick change only the camera and the
player variables. -/
theorem movement_frame (m : Libm) (s : State) (dt : ℚ) :
    ∃ cp ct p yaw v og,
      updatePlayerMovement m (updateCameraFreeMove m s dt) dt =
        { s with camPos := cp, camTarget := ct, playerPos := p, playerYawDeg := yaw,
                 playerVelY := v, playerOnGround := og } := by
  obtain ⟨cp, ct, h2⟩ := updateCameraFreeMove_frame m s dt
  rw [h2]
  unfold updatePlayerMovement
  split_ifs
  · exact ⟨cp, ct, s.playerPos, s.playerYawDeg, s.playerVelY, s.playerOnGround, rfl⟩
  · generalize hs1 : ({ s with camPos := cp, camTarget := ct } : State) = s1
    obtain ⟨x, z, yaw, h3⟩ := horizontalMove_frame m s1 dt
    obtain ⟨v, og, h4⟩ := applyGravity_frame (horizontalMove m s1 dt) dt
    obtain ⟨y, v', og', h5, -⟩ := verticalMove_frame (applyGravity (horizontalMove m s1 dt) dt) dt
    rw [h5, h4, h3]
    subst hs1
    exact ⟨cp, ct, _, yaw, v', og', rfl⟩

theorem updateCollectibles_gameState (s : State) :
    (updateCollectibles s).gameState =
      if s.gameState = .PLAYING ∧ ∀ i : Fin 4, 3 ≤ (collectPass s).collectedPerPlatform i
      then .WON else s.gameState := by
  unfold updateCollectibles
  dsimp only
  by_cases h4 : completedCount (collectPass s).collectedPerPlatform = 4
  · rw [if_pos h4]
    have hall := (completedCount_eq_four _).mp h4
    by_cases hp : (collectPass s).gameState = .PLAYING
    · rw [if_pos hp, if_pos ⟨hp, hall⟩]
    · rw [if_neg hp, if_neg (fun h => hp h.1)]
      rfl
  · rw [if_neg h4, if_neg (fun h => h4 ((completedCount_eq_four _).mpr h.2))]
    rfl

theorem updateCollectibles_gameTime (s : State) :
    (updateCollectibles s).gameTime = s.gameTime := by
  obtain ⟨g, h⟩ := updateCollectibles_frame s
  rw [h]

theorem updateCollectibles_features (s : State) (i : Fin 4) :
    (updateCollectibles s).features i =
      unlockFeature (s.features i) ((collectPass s).collectedPerPlatform i) := by
  obtain ⟨g, h⟩ := updateCollectibles_frame s
  rw [h]
  rfl

theorem updateObstacles_gameState (m : Libm) (s : State) (dt : ℚ) :
    (updateObstacles m s dt).gameState = s.gameState := rfl

theorem updateObstacles_gameTime (m : Libm) (s : State) (dt : ℚ) :
    (updateObstacles m s dt).gameTime = s.gameTime := rfl

theorem updateObstacles_features (m : Libm) (s : State) (dt : ℚ) :
    (updateObstacles m s dt).features = s.features := rfl

theorem updateFeatures_gameState (s : State) (dt : ℚ) :
    (updateFeatures s dt).gameState = s.gameState := rfl

theorem updateFeatures_gameTime (s : State) (dt : ℚ) :
    (updateFeatures s dt).gameTime = s.gameTime := rfl

/-- The timer and the game state after a tick, in terms of the countdown
block: the timer is the one the countdown left, and the game state is the one
the countdown left unless that is `PLAYING` and the tick ends in `WON`. -/
theorem idle_game (m : Libm) (s : State) (dt : ℚ) :
    (idle m s dt).gameTime = (tickTimer s dt).gameTime ∧
    ((idle m s dt).gameState = (tickTimer s dt).gameState ∨
      ((tickTimer s dt).gameState = .PLAYING ∧ (idle m s dt).gameState = .WON)) := by
  rw [idle_eq]
  split_ifs with h
  · exact ⟨rfl, Or.inl rfl⟩
  · obtain ⟨cp, ct, p, yaw, v, og, hm⟩ := movement_frame m (tickTimer s dt) dt
    rw [updateObstacles_gameState, updateObstacles_gameTime, updateFeatures_gameState,
      updateFeatures_gameTime, updateCollectibles_gameTime, updateCollectibles_gameState, hm]
    refine ⟨rfl, ?_⟩
    dsimp only
    split_ifs with hc
    · exact Or.inr ⟨hc.1, rfl⟩
    · exact Or.inl rfl

theorem tickTimer_playing (s : State) (dt : ℚ) (hp : s.gameState = .PLAYING) :
    (s.gameTime - dt ≤ 0 → (tickTimer s dt).gameState = .LOST ∧ (tickTimer s dt).gameTime = 0) ∧
    (¬ s.gameTime - dt ≤ 0 →
      (tickTimer s dt).gameState = .PLAYING ∧ (tickTimer s dt).gameTime = s.gameTime - dt) := by
  unfold tickTimer
  dsimp only
  rw [if_pos hp]
  constructor
  · intro h
    rw [if_pos h]
    exact ⟨rfl, rfl⟩
  · intro h
    rw [if_neg h]
    exact ⟨hp, rfl⟩

theorem tickTimer_not_playing (s : State) (dt : ℚ) (hp : s.gameState ≠ .PLAYING) :
    tickTimer s dt = s := by
  unfold tickTimer
  rw [if_neg hp]

end P01

namespace P01

theorem unlockFeature_allCollected (f : FeatureObj) (c : Int) (h : f.allCollected = true) :
    unlockFeature f c = f := by
  unfold unlockFeature
  rw [h]
  rfl

theorem updateFeatures_features (s : State) (dt : ℚ) (i : Fin 4) :
    (updateFeatures s dt).features i =
      if (s.features i).animEnabled = true then
        { s.features i with t := (s.features i).t + dt }
      else s.features i := rfl

/-- The features after a tick: untouched when the tick ends in `LOST`,
otherwise each one goes through the completion loop and the time advance. -/
theorem idle_features (m : Libm) (s : State) (dt : ℚ) (i : Fin 4) :
    (idle m s dt).features i = s.features i ∨
    ∃ c : Int, (idle m s dt).features i =
      if (unlockFeature (s.features i) c).animEnabled = true then
        { unlockFeature (s.features i) c with t := (unlockFeature (s.features i) c).t + dt }
      else unlockFeature (s.features i) c := by
  rw [idle_eq]
  split_ifs with h
  · left
    obtain ⟨t, g, h1⟩ := tickTimer_frame s dt
    rw [h1]
  · right
    obtain ⟨t, g, cp, ct, x, y, z, yaw, v, og, h1, -⟩ := preCollect_frame m s dt
    rw [updateObstacles_features, updateFeatures_features, updateCollectibles_features, h1]
    exact ⟨_, rfl⟩

theorem idle_latch (m : Libm) (s : State) (dt : ℚ) (i : Fin 4)
    (h : (s.features i).allCollected = true) : ((idle m s dt).features i).allCollected = true := by
  rcases idle_features m s dt i with e | ⟨c, e⟩
  · rw [e]; exact h
  · rw [e, unlockFeature_allCollected _ _ h]
    split_ifs <;> exact h

theorem keyboard_latch (s : State) (key : Fin 256) (hk : key ≠ 27) (i : Fin 4) :
    ((keyboard s key).features i).allCollected = (s.features i).allCollected := by
  obtain ⟨cm, v, og, b, e⟩ := keyboard_frame s key hk
  rw [e]

theorem keyboard_gameState (s : State) (key : Fin 256) (hk : key ≠ 27) :
    (keyboard s key).gameState = s.gameState ∧ (keyboard s key).gameTime = s.gameTime := by
  obtain ⟨cm, v, og, b, e⟩ := keyboard_frame s key hk
  rw [e]
  exact ⟨rfl, rfl⟩

end P01

theorem P01.unlockedState_latch (i : Fin 4) :
    (P01.unlockedState.features i).allCollected = true := by
  unfold P01.unlockedState
  rw [P01.updateCollectibles_features]
  unfold P01.unlockFeature totalCollectiblesPerPlatform
  have h := P01.fullState_counter i
  have hf : (P01.fullState.features i).allCollected = false := by
    show (P01.sceneFeatures i).allCollected = false
    fin_cases i <;> rfl
  simp [h, hf]

theorem P01.unlockedState_won : P01.unlockedState.gameState = .WON := by
  unfold P01.unlockedState
  rw [P01.updateCollectibles_gameState, if_pos ⟨rfl, P01.fullState_counter⟩]

/-- C11: once `features[i].allCollected` is true it stays true under every
callback other than the ESC key (which calls `resetGame`): every idle tick,
with any frame delta, held keys and game state, every keyboard event with
another key, every key release and special-key event; and under
`updateCollectibles` itself. -/
theorem latch_persists (m : Libm) (s : P01.State) (e : P01.Event) (i : Fin 4)
    (he : e ≠ .keyboard 27) (h : (s.features i).allCollected = true) :
    ((P01.step m s e).features i).allCollected = true ∧
    ((P01.updateCollectibles s).features i).allCollected = true := by
  constructor
  · cases e with
    | idle dt => exact P01.idle_latch m s dt i h
    | keyboard key =>
      have hk : key ≠ 27 := fun hk => he (by rw [hk])
      exact (P01.keyboard_latch s key hk i).trans h
    | keyboardUp key => exact h
    | special key => exact h
    | specialUp key => exact h
  · rw [P01.updateCollectibles_features, P01.unlockFeature_allCollected _ _ h]
    exact h

/-- C11 at a concrete input: the latch of feature 0, set in the won state,
survives an idle tick. -/
theorem latch_persists_witness :
    ((P01.step sampleLibm P01.unlockedState (.idle (1 / 60))).features 0).allCollected = true :=
  (latch_persists sampleLibm P01.unlockedState (.idle (1 / 60)) 0
    (fun h => P01.Event.noConfusion h) (P01.unlockedState_latch 0)).1

/-- C13: `updateCollectibles` turns the game state from `PLAYING` into `WON`
exactly when, after its collection pass, all four per-platform counters are at
least 3; in every other case (some counter below 3, or the state already `WON`
or `LOST`) it leaves the game state unchanged. -/
theorem win_transition (s : P01.State) :
    ((s.gameState = .PLAYING ∧ (P01.updateCollectibles s).gameState = .WON) ↔
      (s.gameState = .PLAYING ∧
        ∀ i : Fin 4, 3 ≤ (P01.collectPass s).collectedPerPlatform i)) ∧
    (¬ (s.gameState = .PLAYING ∧
        ∀ i : Fin 4, 3 ≤ (P01.collectPass s).collectedPerPlatform i) →
      (P01.updateCollectibles s).gameState = s.gameState) := by
  rw [P01.updateCollectibles_gameState]
  constructor
  · constructor
    · rintro ⟨hp, hw⟩
      by_contra hc
      rw [if_neg hc, hp] at hw
      cases hw
    · intro hc
      rw [if_pos hc]
      exact ⟨hc.1, rfl⟩
  · intro hc
    rw [if_neg hc]

/-- C14: from a `PLAYING` state an idle tick with frame delta `dt` ends in
`LOST` exactly when `gameTime - dt <= 0`, and then `gameTime` is exactly 0 (the
tick cannot end in `WON`); when `gameTime - dt > 0` the timer becomes
`gameTime - dt`.  A keyboard event (ESC included) and `updateCollectibles`
never turn a state that is not `LOST` into `LOST`. -/
theorem lose_transition (m : Libm) (s : P01.State) (dt : ℚ) (hp : s.gameState = .PLAYING) :
    ((P01.idle m s dt).gameState = .LOST ↔ s.gameTime - dt ≤ 0) ∧
    (s.gameTime - dt ≤ 0 →
      (P01.idle m s dt).gameTime = 0 ∧ (P01.idle m s dt).gameState ≠ .WON) ∧
    (¬ s.gameTime - dt ≤ 0 → (P01.idle m s dt).gameTime = s.gameTime - dt) ∧
    (∀ (t : P01.State) (key : Fin 256), t.gameState ≠ .LOST →
      (P01.keyboard t key).gameState ≠ .LOST) ∧
    (∀ t : P01.State, t.gameState ≠ .LOST → (P01.updateCollectibles t).gameState ≠ .LOST) := by
  obtain ⟨hl, hn⟩ := P01.tickTimer_playing s dt hp
  obtain ⟨ht, hg⟩ := P01.idle_game m s dt
  have hlost : s.gameTime - dt ≤ 0 → (P01.idle m s dt).gameState = .LOST := by
    intro h
    rcases hg with e | ⟨e, -⟩
    · rw [e]; exact (hl h).1
    · rw [(hl h).1] at e; cases e
  refine ⟨⟨fun h => ?_, hlost⟩, fun h => ⟨?_, ?_⟩, fun h => ?_, fun t key h => ?_, fun t h => ?_⟩
  · by_contra hc
    rcases hg with e | ⟨-, e⟩
    · rw [e, (hn hc).1] at h; cases h
    · rw [e] at h; cases h
  · rw [ht]; exact (hl h).2
  · rw [hlost h]; intro hc; cases hc
  · rw [ht]; exact (hn h).2
  · by_cases hk : key = 27
    · subst hk
      rw [P01.keyboard_esc]
      intro hc; cases hc
    · rw [(P01.keyboard_gameState t key hk).1]; exact h
  · rw [P01.updateCollectibles_gameState]
    split_ifs
    · intro hc; cases hc
    · exact h

/-- C14 at a concrete input: one tick of 120 seconds from the start state. -/
theorem lose_transition_witness :
    (P01.idle sampleLibm P01.startState 120).gameState = .LOST ∧
    (P01.idle sampleLibm P01.startState 120).gameTime = 0 :=
  ⟨(lose_transition sampleLibm P01.startState 120 rfl).1.mpr
      (show (120 : ℚ) - 120 ≤ 0 by norm_num),
    ((lose_transition sampleLibm P01.startState 120 rfl).2.1
      (show (120 : ℚ) - 120 ≤ 0 by norm_num)).1⟩

/-- C15: `WON` and `LOST` are absorbing in the first program: from a state
whose game state is `WON` (respectively `LOST`), every callback other than the
ESC key (every idle tick with any frame delta and held keys, every keyboard
event with another key, every key release and special-key event) leaves the
game state `WON` (respectively `LOST`). -/
theorem terminal_states_absorbing (m : Libm) (s : P01.State) (e : P01.Event)
    (he : e ≠ .keyboard 27) (h : s.gameState = .WON ∨ s.gameState = .LOST) :
    (P01.step m s e).gameState = s.gameState := by
  have hnp : s.gameState ≠ .PLAYING := by
    rcases h with h | h <;> rw [h] <;> intro hc <;> cases hc
  cases e with
  | idle dt =>
    obtain ⟨-, hg⟩ := P01.idle_game m s dt
    rw [P01.tickTimer_not_playing s dt hnp] at hg
    rcases hg with e | ⟨e, -⟩
    · exact e
    · exact absurd e hnp
  | keyboard key =>
    have hk : key ≠ 27 := fun hk => he (by rw [hk])
    exact (P01.keyboard_gameState s key hk).1
  | keyboardUp key => rfl
  | special key => rfl
  | specialUp key => rfl

/-- C15 at a concrete input: the won state stays won over an idle tick. -/
theorem terminal_states_absorbing_witness :
    (P01.step sampleLibm P01.unlockedState (.idle (1 / 60))).gameState = .WON :=
  (terminal_states_absorbing sampleLibm P01.unlockedState (.idle (1 / 60))
    (fun h => P01.Event.noConfusion h) (Or.inl P01.unlockedState_won)).trans
    P01.unlockedState_won

/-! ### Animation keys (C12) -/

namespace P01

theorem toggleKey_features (s : State) (key lower upper : Fin 256) (i : Fin 4) :
    (toggleKey s key lower upper i).features =
      toggleFeatures s.features key lower upper i := by
  unfold toggleKey toggleAnim toggleFeatures
  split_ifs <;> rfl

/-- The feature array after a key other than ESC: the four animation
statements applied in order to the array before the key. -/
theorem keyboard_features (s : State) (key : Fin 256) (hk : key ≠ 27) :
    (keyboard s key).features =
      toggleFeatures (toggleFeatures (toggleFeatures (toggleFeatures s.features key 114 82 0)
        key 98 66 1) key 103 71 2) key 121 89 3 := by
  unfold keyboard
  dsimp only
  rw [if_neg hk]
  obtain ⟨cm, h1⟩ := cameraKeys_frame { s with keyDown := Function.update s.keyDown key true } key
  obtain ⟨v, og, h2⟩ := jumpKey_frame
    (cameraKeys { s with keyDown := Function.update s.keyDown key true } key) key
  rw [toggleKey_features, toggleKey_features, toggleKey_features, toggleKey_features, h2, h1]

/-- The feature array after the animation key of feature `i`. -/
theorem keyboard_toggle_features (s : State) (i : Fin 4) (lower upper key : Fin 256)
    (h : (i, lower, upper) ∈
      [((0 : Fin 4), (114 : Fin 256), (82 : Fin 256)), (1, 98, 66), (2, 103, 71), (3, 121, 89)])
    (hk : key = lower ∨ key = upper) :
    (keyboard s key).features = toggleFeatures s.features key lower upper i := by
  simp only [List.mem_cons, List.mem_singleton, List.mem_nil_iff, or_false, Prod.mk.injEq] at h
  rcases h with ⟨rfl, rfl, rfl⟩ | ⟨rfl, rfl, rfl⟩ | ⟨rfl, rfl, rfl⟩ | ⟨rfl, rfl, rfl⟩ <;>
    rcases hk with rfl | rfl <;>
    rw [keyboard_features _ _ (by decide)] <;>
    simp [toggleFeatures]

end P01

/-- C12: for each feature index `i` and its animation key (`r`/`R` = 114/82
for 0, `b`/`B` = 98/66 for 1, `g`/`G` = 103/71 for 2, `y`/`Y` = 121/89 for 3),
the keyboard handler flips `features[i].animEnabled` when
`features[i].allCollected` is true and leaves it unchanged when it is false;
it changes no `allCollected` flag, and it leaves every other feature (its
`animEnabled` flag included) as it was. -/
theorem toggle_gating (s : P01.State) (i : Fin 4) (lower upper key : Fin 256)
    (h : (i, lower, upper) ∈
      [((0 : Fin 4), (114 : Fin 256), (82 : Fin 256)), (1, 98, 66), (2, 103, 71), (3, 121, 89)])
    (hk : key = lower ∨ key = upper) :
    ((s.features i).allCollected = true →
      ((P01.keyboard s key).features i).animEnabled = !(s.features i).animEnabled) ∧
    ((s.features i).allCollected = false →
      ((P01.keyboard s key).features i).animEnabled = (s.features i).animEnabled) ∧
    (∀ j : Fin 4, ((P01.keyboard s key).features j).allCollected = (s.features j).allCollected) ∧
    (∀ j : Fin 4, j ≠ i → (P01.keyboard s key).features j = s.features j) := by
  rw [P01.keyboard_toggle_features s i lower upper key h hk]
  unfold P01.toggleFeatures
  refine ⟨fun ha => ?_, fun ha => ?_, fun j => ?_, fun j hj => ?_⟩
  · rw [if_pos ⟨hk, ha⟩, Function.update_same]
  · rw [if_neg (fun hc => by rw [ha] at hc; cases hc.2)]
  · split_ifs
    · by_cases hj : j = i
      · subst hj; rw [Function.update_same]
      · rw [Function.update_noteq hj]
    · rfl
  · split_ifs
    · rw [Function.update_noteq hj]
    · rfl

/-- C12 at a concrete input: in the won state the key `r` stops the
animation of feature 0, which `updateCollectibles` had started. -/
theorem toggle_gating_witness :
    ((P01.keyboard P01.unlockedState 114).features 0).animEnabled =
      !(P01.unlockedState.features 0).animEnabled :=
  (toggle_gating P01.unlockedState 0 114 82 114 (List.mem_cons_self _ _) (Or.inl rfl)).1
    (P01.unlockedState_latch 0)

/-! ### Countdown (C16) -/

namespace P01

theorem idle_lost (m : Libm) (s : State) (dt : ℚ) (h : s.gameState = .LOST) :
    idle m s dt = s := by
  have hnp : s.gameState ≠ .PLAYING := by rw [h]; intro hc; cases hc
  rw [idle_eq, tickTimer_not_playing s dt hnp, if_pos h]

theorem idleRun_lost (m : Libm) (dts : List ℚ) (s : State) (h : s.gameState = .LOST) :
    idleRun m s dts = s := by
  induction dts with
  | nil => rfl
  | cons dt dts ih =>
    show idleRun m (idle m s dt) dts = s
    rw [idle_lost m s dt h]
    exact ih

theorem idleRun_cons (m : Libm) (s : State) (dt : ℚ) (dts : List ℚ) :
    idleRun m s (dt :: dts) = idleRun m (idle m s dt) dts := rfl

/-- The countdown over a run of ticks that starts in `PLAYING` with a positive
timer and never shows `WON`. -/
theorem idleRun_countdown (m : Libm) (dts : List ℚ) :
    ∀ s : State, s.gameState = .PLAYING → 0 < s.gameTime → (∀ dt ∈ dts, 0 ≤ dt) →
      (∀ k : Nat, (idleRun m s (dts.take k)).gameState ≠ .WON) →
      (s.gameTime ≤ dts.sum →
        (idleRun m s dts).gameState = .LOST ∧ (idleRun m s dts).gameTime = 0) ∧
      (dts.sum < s.gameTime →
        (idleRun m s dts).gameState = .PLAYING ∧
        (idleRun m s dts).gameTime = s.gameTime - dts.sum) := by
  induction dts with
  | nil =>
    intro s hp hT _ _
    constructor
    · intro h
      rw [List.sum_nil] at h
      exact absurd hT (not_lt.mpr h)
    · intro _
      rw [List.sum_nil, sub_zero]
      exact ⟨hp, rfl⟩
  | cons dt dts ih =>
    intro s hp hT hnn hw
    have hdt : 0 ≤ dt := hnn dt (List.mem_cons_self dt dts)
    have hrest : 0 ≤ dts.sum := List.sum_nonneg (fun x hx => hnn x (List.mem_cons_of_mem dt hx))
    obtain ⟨hl, hn⟩ := tickTimer_playing s dt hp
    obtain ⟨ht, hg⟩ := idle_game m s dt
    have hw1 : (idle m s dt).gameState ≠ .WON := hw 1
    rw [idleRun_cons, List.sum_cons]
    by_cases hc : s.gameTime - dt ≤ 0
    · have hs : (idle m s dt).gameState = .LOST := by
        rcases hg with e | ⟨e, -⟩
        · rw [e]; exact (hl hc).1
        · rw [(hl hc).1] at e; cases e
      have h0 : (idle m s dt).gameTime = 0 := by rw [ht]; exact (hl hc).2
      rw [idleRun_lost m dts _ hs]
      constructor
      · intro _; exact ⟨hs, h0⟩
      · intro h; linarith
    · have hs : (idle m s dt).gameState = .PLAYING := by
        rcases hg with e | ⟨-, e⟩
        · rw [e]; exact (hn hc).1
        · exact absurd e hw1
      have h1 : (idle m s dt).gameTime = s.gameTime - dt := by rw [ht]; exact (hn hc).2
      have hpos : 0 < (idle m s dt).gameTime := by rw [h1]; exact not_le.mp hc
      have hw' : ∀ k : Nat, (idleRun m (idle m s dt) (dts.take k)).gameState ≠ .WON := by
        intro k
        have := hw (k + 1)
        rw [List.take_succ_cons, idleRun_cons] at this
        exact this
      obtain ⟨ih1, ih2⟩ := ih (idle m s dt) hs hpos
        (fun x hx => hnn x (List.mem_cons_of_mem dt hx)) hw'
      rw [h1] at ih1 ih2
      constructor
      · intro h
        exact ih1 (by linarith)
      · intro h
        obtain ⟨e1, e2⟩ := ih2 (by linarith)
        exact ⟨e1, by rw [e2]; ring⟩

end P01

/-- C16: start from the state produced by `resetGame` (timer 120, `PLAYING`)
and run any finite sequence of idle ticks with non-negative frame deltas during
which the game state never shows `WON`.  Then the game state after the run is
`LOST` (with the timer at exactly 0) if the deltas sum to at least 120, and
`PLAYING` (with the timer at 120 minus the sum) if they sum to less; and once
`LOST`, every further idle tick leaves the state `LOST` with the timer at 0. -/
theorem countdown_from_reset (m : Libm) (s0 : P01.State) (dts : List ℚ)
    (hnn : ∀ dt ∈ dts, 0 ≤ dt)
    (hw : ∀ k : Nat, (P01.idleRun m (P01.resetGame s0) (dts.take k)).gameState ≠ .WON) :
    ((P01.resetGame s0).gameTime = 120 ∧ (P01.resetGame s0).gameState = .PLAYING) ∧
    (120 ≤ dts.sum →
      (P01.idleRun m (P01.resetGame s0) dts).gameState = .LOST ∧
      (P01.idleRun m (P01.resetGame s0) dts).gameTime = 0) ∧
    (dts.sum < 120 →
      (P01.idleRun m (P01.resetGame s0) dts).gameState = .PLAYING ∧
      (P01.idleRun m (P01.resetGame s0) dts).gameTime = 120 - dts.sum) ∧
    ((P01.idleRun m (P01.resetGame s0) dts).gameState = .LOST →
      ∀ more : List ℚ,
        (P01.idleRun m (P01.idleRun m (P01.resetGame s0) dts) more).gameState = .LOST ∧
        (P01.idleRun m (P01.idleRun m (P01.resetGame s0) dts) more).gameTime = 0) := by
  have hp : (P01.resetGame s0).gameState = .PLAYING := rfl
  have hT : (P01.resetGame s0).gameTime = 120 := rfl
  obtain ⟨h1, h2⟩ := P01.idleRun_countdown m dts (P01.resetGame s0) hp
    (by rw [hT]; norm_num) hnn hw
  rw [hT] at h1 h2
  refine ⟨⟨hT, hp⟩, h1, h2, fun hl more => ?_⟩
  rw [P01.idleRun_lost m more _ hl]
  refine ⟨hl, ?_⟩
  by_cases hc : (120 : ℚ) ≤ dts.sum
  · exact (h1 hc).2
  · have := (h2 (not_le.mp hc)).1
    rw [hl] at this
    cases this

theorem P01.idle_timeout (m : Libm) (s : P01.State) (dt : ℚ) (hp : s.gameState = .PLAYING)
    (h : s.gameTime - dt ≤ 0) : (P01.idle m s dt).gameState = .LOST := by
  obtain ⟨hl, -⟩ := P01.tickTimer_playing s dt hp
  obtain ⟨-, hg⟩ := P01.idle_game m s dt
  rcases hg with e | ⟨e, -⟩
  · rw [e]; exact (hl h).1
  · rw [(hl h).1] at e; cases e

theorem P01.startState_timeout_run (k : Nat) :
    (P01.idleRun sampleLibm P01.startState (List.take k [120, 5])).gameState ≠ .WON := by
  have h1 : (P01.idle sampleLibm P01.startState 120).gameState = .LOST :=
    P01.idle_timeout sampleLibm P01.startState 120 rfl (show (120 : ℚ) - 120 ≤ 0 by norm_num)
  rcases k with _ | _ | k
  · intro hc; cases hc
  · show (P01.idle sampleLibm P01.startState 120).gameState ≠ .WON
    rw [h1]; intro hc; cases hc
  · rw [List.take_succ_cons, List.take_succ_cons, List.take_nil]
    show (P01.idle sampleLibm (P01.idle sampleLibm P01.startState 120) 5).gameState ≠ .WON
    rw [P01.idle_lost _ _ _ h1, h1]; intro hc; cases hc

/-- C16 at a concrete input: a tick of 120 seconds followed by one of 5
seconds from the start state ends in `LOST` with the timer at 0. -/
theorem countdown_from_reset_witness :
    (P01.idleRun sampleLibm P01.startState [120, 5]).gameState = .LOST ∧
    (P01.idleRun sampleLibm P01.startState [120, 5]).gameTime = 0 :=
  (countdown_from_reset sampleLibm P01.staticInit [120, 5]
    (by intro dt hdt
        simp only [List.mem_cons, List.mem_singleton, List.mem_nil_iff, or_false] at hdt
        rcases hdt with rfl | rfl <;> norm_num)
    P01.startState_timeout_run).2.1 (by norm_num)

/-! ### Reset (C17) -/

theorem P01.heldKeyState_keyDown : P01.heldKeyState.keyDown 119 = true := by
  obtain ⟨cm, v, og, b, e⟩ := P01.keyboard_frame P01.startState 119 (by decide)
  unfold P01.heldKeyState
  rw [e]
  exact Function.update_same (119 : Fin 256) true P01.startState.keyDown

/-- Remark on the input arrays: `resetGame` does not assign `keyDown` and
`specialDown`.  With `w` held before the reset, `keyDown['w']` is still set
after it; from the start state it is clear. -/
theorem resetGame_keeps_held_keys :
    (P01.resetGame P01.heldKeyState).keyDown 119 = true ∧
    (P01.resetGame P01.startState).keyDown 119 = false ∧
    P01.resetGame P01.heldKeyState ≠ P01.resetGame P01.startState := by
  have h1 : (P01.resetGame P01.heldKeyState).keyDown 119 = true := P01.heldKeyState_keyDown
  have h2 : (P01.resetGame P01.startState).keyDown 119 = false := rfl
  refine ⟨h1, h2, fun hc => ?_⟩
  rw [hc, h2] at h1
  cases h1

/-- C17: from every state (whatever its game state) `resetGame` yields
`gameState = PLAYING`, `gameTime = 120`, the player at `(0, 1, 0)` with
`playerVelY = 0` and `playerOnGround = true`, all four counters 0, exactly 12
collectibles, all uncollected, three for each platform index, and for every
feature `allCollected = false`, `animEnabled = false` and `t = 0`.  The
resulting game state does not depend on the state before the reset: every
global of the model is the same after a reset from `s` as after a reset from
any other state `s'`, the two input arrays `keyDown` and `specialDown` apart,
which `resetGame` does not assign. -/
theorem resetGame_postcondition (s : P01.State) :
    (P01.resetGame s).gameState = .PLAYING ∧ (P01.resetGame s).gameTime = 120 ∧
    (P01.resetGame s).playerPos = ⟨0, 1, 0⟩ ∧ (P01.resetGame s).playerVelY = 0 ∧
    (P01.resetGame s).playerOnGround = true ∧
    (∀ i : Fin 4, (P01.resetGame s).collectedPerPlatform i = 0) ∧
    (P01.resetGame s).collectibles.length = 12 ∧
    (∀ c ∈ (P01.resetGame s).collectibles, c.collected = false) ∧
    (∀ i : Fin 4,
      (P01.resetGame s).collectibles.countP (fun c => decide (c.platformIndex = i)) = 3) ∧
    (∀ i : Fin 4, ((P01.resetGame s).features i).allCollected = false ∧
      ((P01.resetGame s).features i).animEnabled = false ∧
      ((P01.resetGame s).features i).t = 0) ∧
    (∀ s' : P01.State, P01.resetGame s =
      { P01.resetGame s' with keyDown := s.keyDown, specialDown := s.specialDown }) ∧
    (P01.resetGame s).keyDown = s.keyDown ∧ (P01.resetGame s).specialDown = s.specialDown := by
  refine ⟨rfl, rfl, rfl, rfl, rfl, fun _ => rfl, rfl, ?_, ?_, ?_, fun _ => rfl, rfl, rfl⟩
  · intro c hc
    have hc' : c ∈ P01.sceneCollectibles := hc
    simp only [P01.sceneCollectibles, P01.addCollectible, List.mem_cons, List.mem_singleton,
      List.mem_nil_iff, or_false] at hc'
    rcases hc' with h | h | h | h | h | h | h | h | h | h | h | h <;> rw [h]
  · intro i
    show P01.sceneCollectibles.countP (fun c => decide (c.platformIndex = i)) = 3
    have h : ∀ j : Fin 4, List.count j [0, 0, 0, 1, 1, 1, 2, 2, 2, 3, 3, 3] = 3 := by decide
    rw [← h i, ← P01.sceneCollectibles_index, List.count, List.countP_map]
    congr 1
  · intro i
    show (P01.sceneFeatures i).allCollected = false ∧ (P01.sceneFeatures i).animEnabled = false ∧
      (P01.sceneFeatures i).t = 0
    fin_cases i <;> exact ⟨rfl, rfl, rfl⟩

/-- C17 at a concrete input: a reset out of the won state. -/
theorem resetGame_postcondition_witness :
    P01.unlockedState.gameState = .WON ∧
    (P01.resetGame P01.unlockedState).gameState = .PLAYING ∧
    (P01.resetGame P01.unlockedState).gameTime = 120 :=
  ⟨by
      unfold P01.unlockedState
      rw [P01.updateCollectibles_gameState, if_pos ⟨rfl, P01.fullState_counter⟩],
    (resetGame_postcondition P01.unlockedState).1, (resetGame_postcondition P01.unlockedState).2.1⟩

/-! ### Obstacles, grounding and gravity (C18, C19, C20) -/

theorem P01.moveObstacle_oscillates (m : Libm) (dt : ℚ) (o : P01.Obstacle) :
    P01.Oscillates m dt o (P01.moveObstacle m dt o) := by
  unfold P01.Oscillates P01.moveObstacle
  constructor
  · intro h
    rw [h]
    rfl
  · intro h
    rw [h]
    exact ⟨rfl, rfl, rfl, rfl, rfl, rfl, rfl, rfl, rfl, rfl⟩

/-- C18: for every obstacle list and frame delta `dt`, `updateObstacles`
returns a list of the same length in which, position by position, an obstacle
with `isMoving = false` is unchanged, and an obstacle with `isMoving = true`
has `moveTime' = moveTime + dt` and
`box.center.x' = basePos.x + sin(moveTime' * moveSpeed) * moveRange`, its
`center.y`, `center.z`, half-extents, `basePos`, `moveSpeed`, `moveRange`,
`isMoving` and colour unchanged; nothing but the obstacles is changed. -/
theorem obstacle_oscillation (m : Libm) (s : P01.State) (dt : ℚ) :
    List.Forall₂ (P01.Oscillates m dt) s.obstacles (P01.updateObstacles m s dt).obstacles ∧
    P01.updateObstacles m s dt = { s with obstacles := (P01.updateObstacles m s dt).obstacles } := by
  refine ⟨?_, rfl⟩
  show List.Forall₂ (P01.Oscillates m dt) s.obstacles (s.obstacles.map (P01.moveObstacle m dt))
  generalize s.obstacles = os
  induction os with
  | nil => exact List.Forall₂.nil
  | cons o os ih => exact List.Forall₂.cons (P01.moveObstacle_oscillates m dt o) ih

/-- C19: `isPlayerOnSurface` is true exactly when the player box lowered by
0.1 in y (same half-extents) intersects the ground box, or some platform box,
or some obstacle box; replacing the walls and the feature objects by any
others does not change the result. -/
theorem grounded_test (s : P01.State) :
    (P01.isPlayerOnSurface s = true ↔
      aabbIntersects ⟨⟨s.playerPos.x, s.playerPos.y - 1 / 10, s.playerPos.z⟩, playerHalf⟩
          s.groundBox = true ∨
      (∃ i : Fin 4,
        aabbIntersects ⟨⟨s.playerPos.x, s.playerPos.y - 1 / 10, s.playerPos.z⟩, playerHalf⟩
          (s.platforms i).box = true) ∨
      (∃ o ∈ s.obstacles,
        aabbIntersects ⟨⟨s.playerPos.x, s.playerPos.y - 1 / 10, s.playerPos.z⟩, playerHalf⟩
          o.box = true)) ∧
    (∀ (walls : List AABB) (features : Fin 4 → FeatureObj),
      P01.isPlayerOnSurface { s with walls := walls, features := features } =
        P01.isPlayerOnSurface s) := by
  refine ⟨?_, fun _ _ => rfl⟩
  unfold P01.isPlayerOnSurface playerBox
  simp only [Bool.or_eq_true, List.any_eq_true, List.mem_ofFn, Set.mem_range, or_assoc]
  constructor
  · rintro (h | ⟨p, ⟨i, rfl⟩, h⟩ | h)
    · exact Or.inl h
    · exact Or.inr (Or.inl ⟨i, h⟩)
    · exact Or.inr (Or.inr h)
  · rintro (h | ⟨i, h⟩ | h)
    · exact Or.inl h
    · exact Or.inr (Or.inl ⟨_, ⟨i, rfl⟩, h⟩)
    · exact Or.inr (Or.inr h)

theorem P01.horizontalMove_velY (m : Libm) (s : P01.State) (dt : ℚ) :
    (P01.horizontalMove m s dt).playerVelY = s.playerVelY := by
  obtain ⟨x, z, yaw, h⟩ := P01.horizontalMove_frame m s dt
  rw [h]

theorem P01.applyGravity_eq (s : P01.State) (dt : ℚ) :
    P01.applyGravity s dt =
      { s with playerOnGround := P01.isPlayerOnSurface s,
               playerVelY := if P01.isPlayerOnSurface s = true then max s.playerVelY 0
                 else s.playerVelY + P01.GRAVITY * dt } := by
  unfold P01.applyGravity
  dsimp only
  cases hg : P01.isPlayerOnSurface s
  · simp
  · by_cases hv : s.playerVelY < 0
    · simp [hv, max_eq_right (le_of_lt hv)]
    · simp [hv, max_eq_left (not_lt.mp hv)]

theorem P01.verticalMove_height (s : P01.State) (dt : ℚ) :
    (P01.verticalMove s dt).playerPos.y = s.playerPos.y ∨
    (P01.verticalMove s dt).playerPos.y = max (s.playerPos.y + s.playerVelY * dt) 1 := by
  unfold P01.verticalMove
  dsimp only
  split_ifs with h1 h2 h3
  · right
    exact (max_eq_right (le_of_lt h2)).symm
  · right
    exact (max_eq_left (not_lt.mp h2)).symm
  · left; rfl
  · left; rfl

/-- C20: in `updatePlayerMovement` with the game state not `LOST`, let `g` be
`isPlayerOnSurface` evaluated after the horizontal move.  The vertical
velocity `v` that enters the position update (whose candidate height is
`nextY = y + v * dt`) is `playerVelY + GRAVITY * dt`, with `GRAVITY = -25`,
when `g` is false, and `max(playerVelY, 0)` when `g` is true; so a grounded
player carries no negative velocity into the integration step. -/
theorem vertical_velocity_rule (m : Libm) (s : P01.State) (dt : ℚ) (g : Bool) (v : ℚ)
    (hs : s.gameState ≠ .LOST)
    (hg : g = P01.isPlayerOnSurface (P01.horizontalMove m s dt))
    (hv : v = if g = true then max s.playerVelY 0 else s.playerVelY + P01.GRAVITY * dt) :
    P01.GRAVITY = -25 ∧
    P01.updatePlayerMovement m s dt =
      P01.verticalMove { P01.horizontalMove m s dt with playerOnGround := g, playerVelY := v } dt ∧
    ((P01.updatePlayerMovement m s dt).playerPos.y = (P01.horizontalMove m s dt).playerPos.y ∨
      (P01.updatePlayerMovement m s dt).playerPos.y =
        max ((P01.horizontalMove m s dt).playerPos.y + v * dt) 1) ∧
    (g = true → 0 ≤ v) := by
  have he : P01.updatePlayerMovement m s dt =
      P01.verticalMove { P01.horizontalMove m s dt with playerOnGround := g, playerVelY := v }
        dt := by
    unfold P01.updatePlayerMovement
    rw [if_neg hs, P01.applyGravity_eq, P01.horizontalMove_velY, ← hg, ← hv]
  refine ⟨rfl, he, ?_, fun h => ?_⟩
  · rw [he]
    exact P01.verticalMove_height _ dt
  · rw [hv, if_pos h]
    exact le_max_right _ _

theorem P01.startState_horizontalMove (dt : ℚ) :
    P01.horizontalMove sampleLibm P01.startState dt = P01.startState := by
  unfold P01.horizontalMove
  have hm : P01.moveInput P01.startState = ⟨0, 0, 0⟩ := by
    simp [P01.moveInput, P01.startState, P01.resetGame, P01.staticInit]
  rw [hm]
  norm_num [sampleLibm]

theorem P01.startState_grounded : P01.isPlayerOnSurface P01.startState = true := by
  unfold P01.isPlayerOnSurface
  have hg : aabbIntersects (playerBox { P01.startState.playerPos with
      y := P01.startState.playerPos.y - 1 / 10 }) P01.startState.groundBox = true := by
    simp only [P01.startState, P01.resetGame, aabbIntersects, playerBox, playerHalf, WORLD_HALF]
    norm_num [abs_le]
  dsimp only
  rw [hg]
  rfl

/-- C20 at a concrete input: in the start state no movement key is held and
the player stands on the ground, so `g` is true and the velocity that enters
the position update is `max(0, 0) = 0`. -/
theorem vertical_velocity_rule_witness :
    P01.updatePlayerMovement sampleLibm P01.startState (1 / 10) =
      P01.verticalMove { P01.startState with playerOnGround := true, playerVelY := 0 }
        (1 / 10) := by
  have h := (vertical_velocity_rule sampleLibm P01.startState (1 / 10) true 0
    (fun h => P01.GameState.noConfusion h)
    (by rw [P01.startState_horizontalMove, P01.startState_grounded])
    (by norm_num [P01.startState, P01.resetGame])).2.1
  rw [P01.startState_horizontalMove] at h
  exact h

/-! ### Vertical position update (C21) -/

namespace P01

/-- The horizontal move and the gravity block leave the world alone. -/
theorem gravity_frame (m : Libm) (s : State) (dt : ℚ) :
    ∃ p yaw v og, applyGravity (horizontalMove m s dt) dt =
      { s with playerPos := p, playerYawDeg := yaw, playerVelY := v, playerOnGround := og } := by
  obtain ⟨x, z, yaw, h3⟩ := horizontalMove_frame m s dt
  obtain ⟨v, og, h4⟩ := applyGravity_frame (horizontalMove m s dt) dt
  rw [h4, h3]
  exact ⟨_, _, _, _, rfl⟩

theorem gravity_collides (m : Libm) (s : State) (dt : ℚ) (box : AABB) :
    collidesWithWorld (applyGravity (horizontalMove m s dt) dt) box = collidesWithWorld s box := by
  obtain ⟨p, yaw, v, og, h⟩ := gravity_frame m s dt
  rw [h]
  rfl

/-- The position update when the candidate height is accepted. -/
theorem verticalMove_accepted (a : State) (dt : ℚ)
    (h : collidesWithWorld a (playerBox ⟨a.playerPos.x, a.playerPos.y + a.playerVelY * dt,
      a.playerPos.z⟩) = false ∨ a.playerPos.y + a.playerVelY * dt < a.playerPos.y) :
    verticalMove a dt =
      { a with
        playerPos := ⟨a.playerPos.x, max (a.playerPos.y + a.playerVelY * dt) 1, a.playerPos.z⟩
        playerVelY := if a.playerPos.y + a.playerVelY * dt < 1 then 0 else a.playerVelY
        playerOnGround :=
          if a.playerPos.y + a.playerVelY * dt < 1 then true else a.playerOnGround } := by
  unfold verticalMove
  dsimp only
  have hc : (!collidesWithWorld a (playerBox ⟨a.playerPos.x, a.playerPos.y + a.playerVelY * dt,
      a.playerPos.z⟩) || decide (a.playerPos.y + a.playerVelY * dt < a.playerPos.y)) = true := by
    rcases h with h | h
    · rw [h]; rfl
    · rw [decide_eq_true h, Bool.or_true]
  rw [if_pos hc]
  by_cases h1 : a.playerPos.y + a.playerVelY * dt < 1
  · rw [if_pos h1, if_pos h1, if_pos h1, max_eq_right (le_of_lt h1)]
  · rw [if_neg h1, if_neg h1, if_neg h1, max_eq_left (not_lt.mp h1)]

/-- The position update when the candidate height is rejected. -/
theorem verticalMove_rejected (a : State) (dt : ℚ)
    (h : ¬ (collidesWithWorld a (playerBox ⟨a.playerPos.x, a.playerPos.y + a.playerVelY * dt,
      a.playerPos.z⟩) = false ∨ a.playerPos.y + a.playerVelY * dt < a.playerPos.y)) :
    verticalMove a dt = { a with playerVelY := min a.playerVelY 0 } := by
  unfold verticalMove
  dsimp only
  have hc : ¬ (!collidesWithWorld a (playerBox ⟨a.playerPos.x, a.playerPos.y + a.playerVelY * dt,
      a.playerPos.z⟩) || decide (a.playerPos.y + a.playerVelY * dt < a.playerPos.y)) = true := by
    intro hc
    rw [Bool.or_eq_true, Bool.not_eq_true', decide_eq_true_eq] at hc
    exact h hc
  rw [if_neg hc]
  by_cases h1 : a.playerVelY > 0
  · rw [if_pos h1, min_eq_right (le_of_lt h1)]
  · rw [if_neg h1, min_eq_left (not_lt.mp h1)]

end P01

/-- C21: in `updatePlayerMovement` with the game state not `LOST`, let `a` be
the state after the horizontal move and the gravity block, `y` and `v` its
height and vertical velocity, and `nextY = y + v * dt`.  The candidate is
accepted exactly when the player box centered at height `nextY` does not
collide with the world or `nextY < y`.  If accepted, the new y is
`max(nextY, 1)`, and `playerVelY` becomes 0 and `playerOnGround` true when
`nextY < 1` (both are kept otherwise).  If not accepted, y is unchanged and
`playerVelY` becomes `min(v, 0)`.  Nothing else is changed by the update. -/
theorem vertical_acceptance_rule (m : Libm) (s a : P01.State) (dt nextY : ℚ)
    (hs : s.gameState ≠ .LOST)
    (ha : a = P01.applyGravity (P01.horizontalMove m s dt) dt)
    (hn : nextY = a.playerPos.y + a.playerVelY * dt) :
    ((P01.collidesWithWorld s (playerBox ⟨a.playerPos.x, nextY, a.playerPos.z⟩) = false ∨
        nextY < a.playerPos.y) →
      P01.updatePlayerMovement m s dt =
        { a with
          playerPos := ⟨a.playerPos.x, max nextY 1, a.playerPos.z⟩
          playerVelY := if nextY < 1 then 0 else a.playerVelY
          playerOnGround := if nextY < 1 then true else a.playerOnGround }) ∧
    (¬ (P01.collidesWithWorld s (playerBox ⟨a.playerPos.x, nextY, a.playerPos.z⟩) = false ∨
        nextY < a.playerPos.y) →
      P01.updatePlayerMovement m s dt = { a with playerVelY := min a.playerVelY 0 }) := by
  have he : P01.updatePlayerMovement m s dt = P01.verticalMove a dt := by
    unfold P01.updatePlayerMovement
    rw [if_neg hs, ha]
  have hw : ∀ box, P01.collidesWithWorld a box = P01.collidesWithWorld s box := by
    intro box
    rw [ha]
    exact P01.gravity_collides m s dt box
  rw [he, hn, ← hw]
  exact ⟨P01.verticalMove_accepted a dt, P01.verticalMove_rejected a dt⟩

theorem P01.startState_gravity (dt : ℚ) :
    P01.applyGravity (P01.horizontalMove sampleLibm P01.startState dt) dt =
      { P01.startState with playerOnGround := true, playerVelY := 0 } := by
  rw [P01.startState_horizontalMove, P01.applyGravity_eq, P01.startState_grounded]
  norm_num [P01.startState, P01.resetGame]

theorem P01.startState_free :
    P01.collidesWithWorld P01.startState (playerBox ⟨0, 1, 0⟩) = false := by
  rw [P01.collidesWithWorld_startState]
  simp only [P01.resetGame, P01.scenePlatforms, P01.sceneObstacles, P01.sceneFeatures,
    P01.staticObstacle, WORLD_HALF, List.any_cons, List.any_nil, P01.blocksBox, aabbIntersects,
    playerBox, playerHalf, Matrix.cons_val_zero, Matrix.cons_val_one, Matrix.head_cons,
    Matrix.cons_val_two, Matrix.cons_val_three, Matrix.tail_cons]
  norm_num [abs_le]

/-- C21 at a concrete input: at rest in the start state the candidate height
is 1, it is accepted, and the player stays at `(0, 1, 0)`. -/
theorem vertical_acceptance_rule_witness :
    (P01.updatePlayerMovement sampleLibm P01.startState (1 / 10)).playerPos = ⟨0, 1, 0⟩ := by
  have h := (vertical_acceptance_rule sampleLibm P01.startState
    { P01.startState with playerOnGround := true, playerVelY := 0 } (1 / 10) 1
    (fun h => P01.GameState.noConfusion h) (P01.startState_gravity (1 / 10)).symm
    (by norm_num [P01.startState, P01.resetGame])).1 (Or.inl P01.startState_free)
  rw [h]
  show (⟨(0 : ℚ), max 1 1, 0⟩ : Vec3) = ⟨0, 1, 0⟩
  rw [max_self]

/-! ### Collection step and the frozen lost state (C22, C23) -/

/-- C22: after `updateCollectibles` every collectible `c` has
`collected' = collected || aabbIntersects(playerBox, c.box)`, where
`playerBox` is the box centered at `playerPos` with half-extents
`(0.7, 1, 0.7)`, and is otherwise unchanged; and for each platform index `i`
the counter `collectedPerPlatform[i]` grows by exactly the number of
collectibles with `platformIndex = i` whose flag flipped from false to true
in this call. -/
theorem collection_step (s : P01.State) :
    (P01.updateCollectibles s).collectibles =
      s.collectibles.map (fun c =>
        { c with collected :=
            c.collected || aabbIntersects ⟨s.playerPos, ⟨7 / 10, 1, 7 / 10⟩⟩ c.box }) ∧
    (∀ i : Fin 4, (P01.updateCollectibles s).collectedPerPlatform i =
      s.collectedPerPlatform i +
        flips s.collectibles (P01.updateCollectibles s).collectibles i) ∧
    (∀ i : Fin 4, flips s.collectibles (P01.updateCollectibles s).collectibles i =
      s.collectibles.countP (fun c => !c.collected &&
        aabbIntersects ⟨s.playerPos, ⟨7 / 10, 1, 7 / 10⟩⟩ c.box &&
        decide (c.platformIndex = i))) := by
  obtain ⟨g, h⟩ := P01.updateCollectibles_frame s
  refine ⟨?_, (P01.updateCollectibles_countedOnce s).2, fun i => ?_⟩
  · rw [h]
    rfl
  · rw [h]
    exact flips_collect (playerBox s.playerPos) s.collectibles i

theorem P01.lostState_lost : P01.lostState.gameState = .LOST :=
  P01.idle_timeout sampleLibm P01.startState 120 rfl (show (120 : ℚ) - 120 ≤ 0 by norm_num)

/-- C23: in a state whose game state is `LOST`, an idle tick with any frame
delta and any held keys leaves every modelled global unchanged (player
position, velocity, grounded flag and yaw, every collectible, counter, feature
and obstacle, the timer and the game state among them), and
`updatePlayerMovement` called directly changes nothing. -/
theorem lost_freezes (m : Libm) (s : P01.State) (dt : ℚ) (h : s.gameState = .LOST) :
    P01.idle m s dt = s ∧ P01.updatePlayerMovement m s dt = s := by
  refine ⟨P01.idle_lost m s dt h, ?_⟩
  unfold P01.updatePlayerMovement
  rw [if_pos h]

/-- C23 at a concrete input: after the countdown has run out, a further tick
changes nothing. -/
theorem lost_freezes_witness :
    P01.idle sampleLibm P01.lostState (1 / 60) = P01.lostState :=
  (lost_freezes sampleLibm P01.lostState (1 / 60) P01.lostState_lost).1

/-! ### Collision-free moves (C26, C28) -/

theorem P01.tryMovePlayer_free (s : P01.State) (delta : Vec3)
    (h : P01.collidesWithWorld s (playerBox s.playerPos) = false) :
    P01.collidesWithWorld s (playerBox (P01.tryMovePlayer s delta).playerPos) = false := by
  rw [P01.tryMovePlayer_eq]
  dsimp only
  cases h1 : P01.collidesWithWorld s
      (playerBox ⟨s.playerPos.x + delta.x, s.playerPos.y, s.playerPos.z⟩)
  · simp only [Bool.false_eq_true, if_false]
    cases h2 : P01.collidesWithWorld s
        (playerBox ⟨s.playerPos.x + delta.x, s.playerPos.y, s.playerPos.z + delta.z⟩)
    · simp only [Bool.false_eq_true, if_false]
      exact h2
    · simp only [if_true]
      exact h1
  · simp only [if_true]
    cases h2 : P01.collidesWithWorld s
        (playerBox ⟨s.playerPos.x, s.playerPos.y, s.playerPos.z + delta.z⟩)
    · simp only [Bool.false_eq_true, if_false]
      exact h2
    · simp only [if_true]
      exact h

theorem PXX.tryMovePlayer_free_pxx (s : PXX.State) (delta : Vec3)
    (h : PXX.collidesWithWorld s (playerBox s.playerPos) = false) :
    PXX.collidesWithWorld s (playerBox (PXX.tryMovePlayer s delta).playerPos) = false := by
  rw [PXX.tryMovePlayer_eq_pxx]
  dsimp only
  cases h1 : PXX.collidesWithWorld s
      (playerBox ⟨s.playerPos.x + delta.x, s.playerPos.y, s.playerPos.z⟩)
  · simp only [Bool.false_eq_true, if_false]
    cases h2 : PXX.collidesWithWorld s
        (playerBox ⟨s.playerPos.x + delta.x, s.playerPos.y, s.playerPos.z + delta.z⟩)
    · simp only [Bool.false_eq_true, if_false]
      exact h2
    · simp only [if_true]
      exact h1
  · simp only [if_true]
    cases h2 : PXX.collidesWithWorld s
        (playerBox ⟨s.playerPos.x, s.playerPos.y, s.playerPos.z + delta.z⟩)
    · simp only [Bool.false_eq_true, if_false]
      exact h2
    · simp only [if_true]
      exact h

theorem P01.tryMovePlayer_collides (s : P01.State) (delta : Vec3) (box : AABB) :
    P01.collidesWithWorld (P01.tryMovePlayer s delta) box = P01.collidesWithWorld s box := by
  rw [P01.tryMovePlayer_eq]
  rfl

theorem PXX.tryMovePlayer_collides_pxx (s : PXX.State) (delta : Vec3) (box : AABB) :
    PXX.collidesWithWorld (PXX.tryMovePlayer s delta) box = PXX.collidesWithWorld s box := by
  rw [PXX.tryMovePlayer_eq_pxx]
  rfl

/-- C26: in both programs `tryMovePlayer` preserves collision-freedom: for
every state and delta, if the player box at the current position does not
collide with the world, then after `tryMovePlayer` the player box at the new
position does not collide with the world either (the world itself is not
changed by the move). -/
theorem tryMovePlayer_preserves_free (s : P01.State) (q : PXX.State) (delta : Vec3) :
    (P01.collidesWithWorld s (playerBox s.playerPos) = false →
      P01.collidesWithWorld (P01.tryMovePlayer s delta)
        (playerBox (P01.tryMovePlayer s delta).playerPos) = false) ∧
    (PXX.collidesWithWorld q (playerBox q.playerPos) = false →
      PXX.collidesWithWorld (PXX.tryMovePlayer q delta)
        (playerBox (PXX.tryMovePlayer q delta).playerPos) = false) := by
  constructor
  · intro h
    rw [P01.tryMovePlayer_collides]
    exact P01.tryMovePlayer_free s delta h
  · intro h
    rw [PXX.tryMovePlayer_collides_pxx]
    exact PXX.tryMovePlayer_free_pxx q delta h

/-- C26 at a concrete input: the diagonal move out of the start position. -/
theorem tryMovePlayer_preserves_free_witness :
    P01.collidesWithWorld (P01.tryMovePlayer P01.startState ⟨1, 0, 1⟩)
      (playerBox (P01.tryMovePlayer P01.startState ⟨1, 0, 1⟩).playerPos) = false :=
  (tryMovePlayer_preserves_free P01.startState PXX.startState ⟨1, 0, 1⟩).1 P01.startState_free

theorem P01.scenePlatform_top (i : Fin 4) :
    (P01.scenePlatforms i).box.center.y + (P01.scenePlatforms i).box.half.y - 1 / 2 > 0 := by
  fin_cases i <;> norm_num [P01.scenePlatforms]

/-- C28: in a state of the first program whose platforms are those built by
`resetGame`, every player box at floor height (center y = 1, half-extents
`(0.7, 1, 0.7)`) that intersects one of the four platform boxes collides with
the world, its bottom 0 being below every platform top minus 0.5; so from a
collision-free position at floor height `tryMovePlayer` never moves the player
box into overlap with a platform. -/
theorem floor_player_blocked_by_platforms (s : P01.State)
    (hs : s.platforms = P01.scenePlatforms) :
    (∀ (x z : ℚ) (i : Fin 4),
      aabbIntersects ⟨⟨x, 1, z⟩, ⟨7 / 10, 1, 7 / 10⟩⟩ (P01.scenePlatforms i).box = true →
      P01.collidesWithWorld s ⟨⟨x, 1, z⟩, ⟨7 / 10, 1, 7 / 10⟩⟩ = true) ∧
    (∀ i : Fin 4, (1 : ℚ) - 1 <
      (P01.scenePlatforms i).box.center.y + (P01.scenePlatforms i).box.half.y - 1 / 2) ∧
    (s.playerPos.y = 1 → P01.collidesWithWorld s (playerBox s.playerPos) = false →
      ∀ (delta : Vec3) (i : Fin 4),
        (P01.tryMovePlayer s delta).playerPos.y = 1 ∧
        aabbIntersects (playerBox (P01.tryMovePlayer s delta).playerPos)
          (P01.scenePlatforms i).box = false) := by
  have hblock : ∀ (x z : ℚ) (i : Fin 4),
      aabbIntersects ⟨⟨x, 1, z⟩, ⟨7 / 10, 1, 7 / 10⟩⟩ (P01.scenePlatforms i).box = true →
      P01.collidesWithWorld s ⟨⟨x, 1, z⟩, ⟨7 / 10, 1, 7 / 10⟩⟩ = true := by
    intro x z i h
    refine (P01.collidesWithWorld_iff s _).mpr (Or.inr (Or.inl ⟨i, ?_, ?_⟩))
    · rw [hs]; exact h
    · rw [hs]
      show _ > (1 : ℚ) - 1
      rw [sub_self]
      exact P01.scenePlatform_top i
  refine ⟨hblock, fun i => ?_, fun hy hfree delta i => ?_⟩
  · rw [sub_self]
    exact P01.scenePlatform_top i
  · have hy' : (P01.tryMovePlayer s delta).playerPos.y = 1 := by
      rw [P01.tryMovePlayer_eq]
      exact hy
    refine ⟨hy', ?_⟩
    have hf := P01.tryMovePlayer_free s delta hfree
    generalize (P01.tryMovePlayer s delta).playerPos = q at hy' hf
    obtain ⟨px, py, pz⟩ := q
    have hpy : py = 1 := hy'
    subst hpy
    cases hint : aabbIntersects (playerBox ⟨px, 1, pz⟩) (P01.scenePlatforms i).box
    · rfl
    · have hb : P01.collidesWithWorld s (playerBox ⟨px, 1, pz⟩) = true := hblock px pz i hint
      rw [hf] at hb
      cases hb

theorem P01.startState_free_corner :
    P01.collidesWithWorld P01.startState (playerBox ⟨-11, 1, -13⟩) = false := by
  rw [P01.collidesWithWorld_startState]
  simp only [P01.resetGame, P01.scenePlatforms, P01.sceneObstacles, P01.sceneFeatures,
    P01.staticObstacle, WORLD_HALF, List.any_cons, List.any_nil, P01.blocksBox, aabbIntersects,
    playerBox, playerHalf, Matrix.cons_val_zero, Matrix.cons_val_one, Matrix.head_cons,
    Matrix.cons_val_two, Matrix.cons_val_three, Matrix.tail_cons]
  norm_num [abs_le]

/-- C28 at a concrete input: the diagonal move at the corner of the red
platform ends outside the red platform. -/
theorem floor_player_blocked_by_platforms_witness :
    aabbIntersects (playerBox (P01.tryMovePlayer P01.cornerState ⟨-1 / 2, 0, -1 / 2⟩).playerPos)
      (P01.scenePlatforms 0).box = false :=
  ((floor_player_blocked_by_platforms P01.cornerState rfl).2.2 rfl
    (by rw [P01.collidesWithWorld_cornerState, P01.cornerState_playerPos]
        exact P01.startState_free_corner) ⟨-1 / 2, 0, -1 / 2⟩ 0).2

/-! ### Half-extents (C24) -/

namespace P01

theorem moveObstacle_half (m : Libm) (dt : ℚ) (o : Obstacle) :
    (moveObstacle m dt o).box.half = o.box.half := by
  unfold moveObstacle
  split_ifs <;> rfl

theorem unlockFeature_box (f : FeatureObj) (c : Int) : (unlockFeature f c).box = f.box := by
  unfold unlockFeature
  split_ifs <;> rfl

/-- The world after a tick: walls, platforms and ground as before, the
obstacles either as before or each one moved by the loop body. -/
theorem idle_world (m : Libm) (s : State) (dt : ℚ) :
    (idle m s dt).walls = s.walls ∧ (idle m s dt).platforms = s.platforms ∧
    (idle m s dt).groundBox = s.groundBox ∧
    ((idle m s dt).obstacles = s.obstacles ∨
      (idle m s dt).obstacles = s.obstacles.map (moveObstacle m dt)) := by
  rw [idle_eq]
  split_ifs with h
  · obtain ⟨t, g, h1⟩ := tickTimer_frame s dt
    rw [h1]
    exact ⟨rfl, rfl, rfl, Or.inl rfl⟩
  · obtain ⟨t, g, cp, ct, x, y, z, yaw, v, og, h1, -⟩ := preCollect_frame m s dt
    obtain ⟨g', h3⟩ := updateCollectibles_frame
      (updatePlayerMovement m (updateCameraFreeMove m (tickTimer s dt) dt) dt)
    rw [h3, h1]
    exact ⟨rfl, rfl, rfl, Or.inr rfl⟩

theorem idle_features_box (m : Libm) (s : State) (dt : ℚ) (i : Fin 4) :
    ((idle m s dt).features i).box = (s.features i).box := by
  rcases idle_features m s dt i with e | ⟨c, e⟩
  · rw [e]
  · rw [e]
    split_ifs
    · exact unlockFeature_box _ _
    · exact unlockFeature_box _ _

theorem boxesNonneg_resetGame (s : State) : BoxesNonneg (resetGame s) := by
  refine ⟨?_, ?_, ?_, ?_, ?_, ?_, ?_⟩
  · norm_num [AABB.halfNonneg, playerBox, playerHalf]
  · norm_num [AABB.halfNonneg, resetGame, WORLD_HALF]
  · intro w hw
    simp only [resetGame, List.mem_cons, List.mem_singleton, List.mem_nil_iff, or_false] at hw
    rcases hw with h | h | h <;> rw [h] <;> norm_num [AABB.halfNonneg, WORLD_HALF]
  · intro i
    show (scenePlatforms i).box.halfNonneg
    fin_cases i <;> norm_num [AABB.halfNonneg, scenePlatforms]
  · intro o ho
    have ho' : o ∈ sceneObstacles := ho
    simp only [sceneObstacles, List.mem_cons, List.mem_singleton, List.mem_nil_iff,
      or_false] at ho'
    rcases ho' with h | h | h | h | h | h | h | h | h | h | h <;> rw [h] <;>
      norm_num [AABB.halfNonneg, staticObstacle]
  · intro i
    show (sceneFeatures i).box.halfNonneg
    fin_cases i <;> norm_num [AABB.halfNonneg, sceneFeatures]
  · intro c hc
    have hc' : c ∈ sceneCollectibles := hc
    simp only [sceneCollectibles, List.mem_cons, List.mem_singleton, List.mem_nil_iff,
      or_false] at hc'
    rcases hc' with h | h | h | h | h | h | h | h | h | h | h | h <;> rw [h] <;>
      norm_num [AABB.halfNonneg, addCollectible]

/-- A state whose boxes are those of `s`, up to moved obstacles and collected
collectibles, inherits the non-negative half-extents of `s`. -/
theorem boxesNonneg_of_same (s t : State) (hs : BoxesNonneg s)
    (hw : t.walls = s.walls) (hp : t.platforms = s.platforms) (hg : t.groundBox = s.groundBox)
    (ho : t.obstacles = s.obstacles ∨ ∃ (m : Libm) (dt : ℚ),
      t.obstacles = s.obstacles.map (moveObstacle m dt))
    (hf : ∀ i, (t.features i).box = (s.features i).box)
    (hc : t.collectibles = s.collectibles ∨ ∃ pb : AABB,
      t.collectibles = s.collectibles.map (collectOne pb)) : BoxesNonneg t := by
  obtain ⟨h1, h2, h3, h4, h5, h6, h7⟩ := hs
  refine ⟨?_, ?_, ?_, ?_, ?_, ?_, ?_⟩
  · norm_num [AABB.halfNonneg, playerBox, playerHalf]
  · rw [hg]; exact h2
  · rw [hw]; exact h3
  · rw [hp]; exact h4
  · rcases ho with e | ⟨m, dt, e⟩
    · rw [e]; exact h5
    · rw [e]
      intro o ho
      obtain ⟨o0, hm, rfl⟩ := List.mem_map.mp ho
      unfold AABB.halfNonneg
      rw [moveObstacle_half]
      exact h5 o0 hm
  · intro i
    rw [hf i]; exact h6 i
  · rcases hc with e | ⟨pb, e⟩
    · rw [e]; exact h7
    · rw [e]
      intro c hc
      obtain ⟨c0, hm, rfl⟩ := List.mem_map.mp hc
      exact h7 c0 hm

theorem boxesNonneg_step (m : Libm) (s : State) (e : Event) (hs : BoxesNonneg s) :
    BoxesNonneg (step m s e) := by
  cases e with
  | idle dt =>
    obtain ⟨hw, hp, hg, ho⟩ := idle_world m s dt
    refine boxesNonneg_of_same s _ hs hw hp hg ?_ (idle_features_box m s dt) ?_
    · rcases ho with e | e
      · exact Or.inl e
      · exact Or.inr ⟨m, dt, e⟩
    · rcases idle_collect m s dt with ⟨-, e, -⟩ | ⟨p, -, -, e, -⟩
      · exact Or.inl e
      · exact Or.inr ⟨_, e⟩
  | keyboard key =>
    by_cases hk : key = 27
    · subst hk
      show BoxesNonneg (keyboard s 27)
      rw [keyboard_esc]
      exact boxesNonneg_resetGame s
    · obtain ⟨cm, v, og, b, e⟩ := keyboard_frame s key hk
      show BoxesNonneg (keyboard s key)
      rw [e]
      exact boxesNonneg_of_same s _ hs rfl rfl rfl (Or.inl rfl) (fun _ => rfl) (Or.inl rfl)
  | keyboardUp key => exact hs
  | special key => exact hs
  | specialUp key => exact hs

end P01

/-- C24: in the state produced by `resetGame` and in every state reachable
from it by idle ticks and keyboard events, every collision box (the player
box, the ground box, every wall, platform, obstacle, feature object and
collectible) has non-negative half-extents on all three axes. -/
theorem half_extent_invariant (m : Libm) (s : P01.State) (h : P01.Reachable m s) :
    (0 ≤ (playerBox s.playerPos).half.x ∧ 0 ≤ (playerBox s.playerPos).half.y ∧
      0 ≤ (playerBox s.playerPos).half.z) ∧
    (0 ≤ s.groundBox.half.x ∧ 0 ≤ s.groundBox.half.y ∧ 0 ≤ s.groundBox.half.z) ∧
    (∀ w ∈ s.walls, 0 ≤ w.half.x ∧ 0 ≤ w.half.y ∧ 0 ≤ w.half.z) ∧
    (∀ i, 0 ≤ (s.platforms i).box.half.x ∧ 0 ≤ (s.platforms i).box.half.y ∧
      0 ≤ (s.platforms i).box.half.z) ∧
    (∀ o ∈ s.obstacles, 0 ≤ o.box.half.x ∧ 0 ≤ o.box.half.y ∧ 0 ≤ o.box.half.z) ∧
    (∀ i, 0 ≤ (s.features i).box.half.x ∧ 0 ≤ (s.features i).box.half.y ∧
      0 ≤ (s.features i).box.half.z) ∧
    (∀ c ∈ s.collectibles, 0 ≤ c.box.half.x ∧ 0 ≤ c.box.half.y ∧ 0 ≤ c.box.half.z) := by
  have hb : P01.BoxesNonneg s := by
    induction h with
    | init s0 => exact P01.boxesNonneg_resetGame s0
    | step e _ ih => exact P01.boxesNonneg_step m _ e ih
  exact hb

/-- C24 at a concrete input: the box of feature 0 after a tick from the start
state. -/
theorem half_extent_invariant_witness :
    0 ≤ ((P01.step sampleLibm P01.startState (.idle (1 / 60))).features 0).box.half.x ∧
    0 ≤ ((P01.step sampleLibm P01.startState (.idle (1 / 60))).features 0).box.half.y ∧
    0 ≤ ((P01.step sampleLibm P01.startState (.idle (1 / 60))).features 0).box.half.z :=
  (half_extent_invariant sampleLibm _ (.step _ (.init P01.staticInit))).2.2.2.2.2.1 0

/-! ### Animation gate (C29) -/

namespace P01

/-- The features after a tick that does not end in `LOST` by timeout: each one
goes through the completion loop with the counter the tick ends with, then
through the time advance; and no counter has decreased. -/
theorem idle_features_counter (m : Libm) (s : State) (dt : ℚ) :
    ((idle m s dt).features = s.features ∧
      (idle m s dt).collectedPerPlatform = s.collectedPerPlatform) ∨
    ((∀ i, (idle m s dt).features i =
        if (unlockFeature (s.features i) ((idle m s dt).collectedPerPlatform i)).animEnabled = true
        then
          { unlockFeature (s.features i) ((idle m s dt).collectedPerPlatform i) with
            t := (unlockFeature (s.features i) ((idle m s dt).collectedPerPlatform i)).t + dt }
        else unlockFeature (s.features i) ((idle m s dt).collectedPerPlatform i)) ∧
      ∀ i, s.collectedPerPlatform i ≤ (idle m s dt).collectedPerPlatform i) := by
  have hmono : ∀ i, s.collectedPerPlatform i ≤ (idle m s dt).collectedPerPlatform i := by
    intro i
    rw [(idle_countedOnce m s dt).2 i]
    exact le_add_of_nonneg_right (Int.natCast_nonneg _)
  rw [idle_eq] at hmono ⊢
  split_ifs at hmono ⊢ with h
  · left
    obtain ⟨t, g, h1⟩ := tickTimer_frame s dt
    rw [h1]
    exact ⟨rfl, rfl⟩
  · right
    refine ⟨fun i => ?_, hmono⟩
    obtain ⟨t, g, cp, ct, x, y, z, yaw, v, og, h1, -⟩ := preCollect_frame m s dt
    obtain ⟨g', h3⟩ := updateCollectibles_frame
      (updatePlayerMovement m (updateCameraFreeMove m (tickTimer s dt) dt) dt)
    rw [updateObstacles_features, updateFeatures_features, updateCollectibles_features, h3, h1]
    rfl

theorem animGated_resetGame (s : State) : AnimGated (resetGame s) := by
  intro i
  show ((sceneFeatures i).animEnabled = true → (sceneFeatures i).allCollected = true) ∧
    ((sceneFeatures i).allCollected = false → (sceneFeatures i).t = 0) ∧
    ((sceneFeatures i).allCollected = true → (3 : Int) ≤ 0)
  fin_cases i <;> simp [sceneFeatures]

theorem animGated_idle (m : Libm) (s : State) (dt : ℚ) (hs : AnimGated s) :
    AnimGated (idle m s dt) := by
  rcases idle_features_counter m s dt with ⟨e1, e2⟩ | ⟨e1, e2⟩
  · intro i
    rw [e1, e2]
    exact hs i
  · intro i
    obtain ⟨ha, ht, hc⟩ := hs i
    rw [e1 i]
    have hle := e2 i
    generalize (idle m s dt).collectedPerPlatform i = c at hle ⊢
    generalize s.collectedPerPlatform i = c0 at hle hc
    clear e1 e2
    generalize s.features i = f at ha ht hc ⊢
    obtain ⟨box, col, ty, ac, ae, t⟩ := f
    unfold unlockFeature totalCollectiblesPerPlatform
    dsimp only at ha ht hc ⊢
    cases ac
    · have hae : ae = false := by
        cases ae
        · rfl
        · exact absurd (ha rfl) (by decide)
      subst hae
      have ht0 := ht rfl
      subst ht0
      by_cases h3 : c ≥ 3
      · simp [h3]
      · simp [h3]
    · have h3 : c ≥ 3 := le_trans (hc rfl) hle
      cases ae <;> simp [h3]

theorem toggleFeatures_gated (fs : Fin 4 → FeatureObj) (key lower upper : Fin 256) (i j : Fin 4) :
    toggleFeatures fs key lower upper i j = fs j ∨
    ((fs j).allCollected = true ∧
      toggleFeatures fs key lower upper i j = { fs j with animEnabled := !(fs j).animEnabled }) := by
  unfold toggleFeatures
  split_ifs with h
  · by_cases hj : j = i
    · subst hj
      right
      exact ⟨h.2, Function.update_same _ _ _⟩
    · left
      exact Function.update_noteq hj _ _
  · left; rfl

/-- The gate of feature `j` as a property of the feature and its counter. -/
theorem toggleFeatures_keeps_gate (fs : Fin 4 → FeatureObj) (key lower upper : Fin 256)
    (i j : Fin 4) (c : Int)
    (h : ((fs j).animEnabled = true → (fs j).allCollected = true) ∧
      ((fs j).allCollected = false → (fs j).t = 0) ∧ ((fs j).allCollected = true → 3 ≤ c)) :
    ((toggleFeatures fs key lower upper i j).animEnabled = true →
        (toggleFeatures fs key lower upper i j).allCollected = true) ∧
      ((toggleFeatures fs key lower upper i j).allCollected = false →
        (toggleFeatures fs key lower upper i j).t = 0) ∧
      ((toggleFeatures fs key lower upper i j).allCollected = true → 3 ≤ c) := by
  rcases toggleFeatures_gated fs key lower upper i j with e | ⟨ha, e⟩
  · rw [e]; exact h
  · rw [e]
    exact ⟨fun _ => ha, fun hc => h.2.1 hc, fun hc => h.2.2 hc⟩

theorem animGated_keyboard (s : State) (key : Fin 256) (hs : AnimGated s) :
    AnimGated (keyboard s key) := by
  by_cases hk : key = 27
  · subst hk
    rw [keyboard_esc]
    exact animGated_resetGame s
  · intro j
    rw [keyboard_features s key hk, (keyboard_collectibles s key hk).2]
    exact toggleFeatures_keeps_gate _ _ _ _ _ _ _ (toggleFeatures_keeps_gate _ _ _ _ _ _ _
      (toggleFeatures_keeps_gate _ _ _ _ _ _ _ (toggleFeatures_keeps_gate _ _ _ _ _ _ _ (hs j))))

theorem animGated_reachable (m : Libm) (s : State) (h : Reachable m s) : AnimGated s := by
  induction h with
  | init s0 => exact animGated_resetGame s0
  | step e _ ih =>
    cases e with
    | idle dt => exact animGated_idle m _ dt ih
    | keyboard key => exact animGated_keyboard _ key ih
    | keyboardUp key => exact ih
    | special key => exact ih
    | specialUp key => exact ih

end P01

theorem countP_collected_lt (cs : List Collectible) (i : Fin 4)
    (h : ∃ c ∈ cs, c.platformIndex = i ∧ c.collected = false) :
    cs.countP (fun c => c.collected && decide (c.platformIndex = i)) <
      (cs.map (fun c => c.platformIndex)).count i := by
  induction cs with
  | nil =>
    obtain ⟨c, hc, -⟩ := h
    cases hc
  | cons c cs ih =>
    rw [List.map_cons, List.countP_cons, List.count_cons]
    obtain ⟨c', hm, hi, hc⟩ := h
    rcases List.mem_cons.mp hm with e | hm'
    · subst e
      have hle := countP_collected_le cs i
      simp [hi, hc]
      omega
    · have hlt := ih ⟨c', hm', hi, hc⟩
      cases hcc : c.collected <;> by_cases hii : c.platformIndex = i <;> simp [hii] <;> omega

/-- While some collectible of platform
`i` is still uncollected in a reachable state, the counter of the platform is
below 3. -/
theorem P01.counter_lt_of_uncollected (m : Libm) (s : P01.State) (h : P01.Reachable m s)
    (i : Fin 4) (hu : ∃ c ∈ s.collectibles, c.platformIndex = i ∧ c.collected = false) :
    s.collectedPerPlatform i < 3 := by
  obtain ⟨h1, h2⟩ := P01.countersMatch_reachable m s h
  have h3 : ∀ j : Fin 4, List.count j [0, 0, 0, 1, 1, 1, 2, 2, 2, 3, 3, 3] = 3 := by decide
  have hlt := countP_collected_lt s.collectibles i hu
  rw [h1, h3 i] at hlt
  rw [h2 i]
  exact_mod_cast hlt

/-- C29: in every state reachable from `resetGame` by idle ticks and keyboard
events, for every feature index `i`, `features[i].animEnabled = true` implies
`features[i].allCollected = true`; and as long as the counter of platform `i`
is below 3, in particular as long as one of the collectibles of platform `i`
is uncollected, the latch of feature `i` is clear, its animation is off and
its time accumulator `t` is 0. -/
theorem anim_implies_latch (m : Libm) (s : P01.State) (h : P01.Reachable m s) (i : Fin 4) :
    ((s.features i).animEnabled = true → (s.features i).allCollected = true) ∧
    (s.collectedPerPlatform i < 3 →
      (s.features i).allCollected = false ∧ (s.features i).animEnabled = false ∧
      (s.features i).t = 0) ∧
    ((∃ c ∈ s.collectibles, c.platformIndex = i ∧ c.collected = false) →
      (s.features i).allCollected = false ∧ (s.features i).animEnabled = false ∧
      (s.features i).t = 0) := by
  obtain ⟨ha, ht, hc⟩ := P01.animGated_reachable m s h i
  have key : s.collectedPerPlatform i < 3 →
      (s.features i).allCollected = false ∧ (s.features i).animEnabled = false ∧
      (s.features i).t = 0 := by
    intro hlt
    have hac : (s.features i).allCollected = false := by
      cases hx : (s.features i).allCollected
      · rfl
      · exact absurd (hc hx) (not_le.mpr hlt)
    refine ⟨hac, ?_, ht hac⟩
    cases hx : (s.features i).animEnabled
    · rfl
    · rw [ha hx] at hac
      cases hac
  exact ⟨ha, key, fun hu => key (P01.counter_lt_of_uncollected m s h i hu)⟩

/-- C29 at a concrete input: the key `r` pressed in the start state, where
nothing is collected yet, does not start the animation of feature 0. -/
theorem anim_implies_latch_witness :
    ((P01.step sampleLibm P01.startState (.keyboard 114)).features 0).animEnabled = false :=
  ((anim_implies_latch sampleLibm _ (.step _ (.init P01.staticInit)) 0).2.1
    (by
      show (P01.keyboard P01.startState 114).collectedPerPlatform 0 < 3
      rw [(P01.keyboard_collectibles P01.startState 114 (by decide)).2]
      exact (by decide : (0 : Int) < 3))).2.1

/-! ### Timer (C30) -/

namespace P01

theorem timerOk_resetGame (s : State) : TimerOk (resetGame s) := by
  refine ⟨?_, ?_, ?_⟩
  · show (0 : ℚ) ≤ 120
    norm_num
  · exact le_refl _
  · constructor
    · intro h
      have h' : (120 : ℚ) = 0 := h
      norm_num at h'
    · intro h
      cases h

theorem timerOk_idle (m : Libm) (s : State) (dt : ℚ) (hdt : 0 ≤ dt) (hs : TimerOk s) :
    TimerOk (idle m s dt) := by
  obtain ⟨h0, h120, hiff⟩ := hs
  obtain ⟨ht, hg⟩ := idle_game m s dt
  by_cases hp : s.gameState = .PLAYING
  · obtain ⟨hl, hn⟩ := tickTimer_playing s dt hp
    by_cases hc : s.gameTime - dt ≤ 0
    · have hst : (idle m s dt).gameState = .LOST := idle_timeout m s dt hp hc
      have htm : (idle m s dt).gameTime = 0 := by rw [ht]; exact (hl hc).2
      unfold TimerOk
      rw [htm, hst]
      exact ⟨le_refl _, by norm_num, ⟨fun _ => rfl, fun _ => rfl⟩⟩
    · have htm : (idle m s dt).gameTime = s.gameTime - dt := by rw [ht]; exact (hn hc).2
      have hst : (idle m s dt).gameState ≠ .LOST := by
        rcases hg with e | ⟨-, e⟩
        · rw [e, (hn hc).1]; intro hx; cases hx
        · rw [e]; intro hx; cases hx
      have hpos : 0 < s.gameTime - dt := not_le.mp hc
      unfold TimerOk
      rw [htm]
      refine ⟨le_of_lt hpos, by linarith, ⟨fun h => ?_, fun h => absurd h hst⟩⟩
      rw [h] at hpos
      exact absurd hpos (lt_irrefl _)
  · rw [tickTimer_not_playing s dt hp] at ht hg
    have hst : (idle m s dt).gameState = s.gameState := by
      rcases hg with e | ⟨e, -⟩
      · exact e
      · exact absurd e hp
    unfold TimerOk
    rw [ht, hst]
    exact ⟨h0, h120, hiff⟩

theorem timerOk_keyboard (s : State) (key : Fin 256) (hs : TimerOk s) :
    TimerOk (keyboard s key) := by
  by_cases hk : key = 27
  · subst hk
    rw [keyboard_esc]
    exact timerOk_resetGame s
  · unfold TimerOk
    rw [(keyboard_gameState s key hk).1, (keyboard_gameState s key hk).2]
    exact hs

theorem timerOk_reachable (m : Libm) (s : State) (h : ReachableForward m s) : TimerOk s := by
  induction h with
  | init s0 => exact timerOk_resetGame s0
  | step e he _ ih =>
    cases e with
    | idle dt => exact timerOk_idle m _ dt he ih
    | keyboard key => exact timerOk_keyboard _ key ih
    | keyboardUp key => exact ih
    | special key => exact ih
    | specialUp key => exact ih

theorem idle_won_gameTime (m : Libm) (s : State) (dt : ℚ) (h : s.gameState = .WON) :
    (idle m s dt).gameTime = s.gameTime := by
  have hp : s.gameState ≠ .PLAYING := by rw [h]; intro hx; cases hx
  rw [(idle_game m s dt).1, tickTimer_not_playing s dt hp]

end P01

/-- C30: in every state reachable from `resetGame` by idle ticks with
non-negative frame deltas and keyboard events, `0 <= gameTime <= 120`, and
`gameTime = 0` holds exactly when the game state is `LOST`; in particular,
while the game state is `WON` the timer is strictly positive, and an idle tick
(with any frame delta) leaves it as it is. -/
theorem timer_invariant (m : Libm) (s : P01.State) (h : P01.ReachableForward m s) :
    (0 ≤ s.gameTime ∧ s.gameTime ≤ 120) ∧
    (s.gameTime = 0 ↔ s.gameState = .LOST) ∧
    (s.gameState = .WON →
      0 < s.gameTime ∧ ∀ dt : ℚ, (P01.idle m s dt).gameTime = s.gameTime) := by
  obtain ⟨h0, h120, hiff⟩ := P01.timerOk_reachable m s h
  refine ⟨⟨h0, h120⟩, hiff, fun hw => ⟨?_, fun dt => P01.idle_won_gameTime m s dt hw⟩⟩
  rcases lt_or_eq_of_le h0 with hlt | heq
  · exact hlt
  · have := hiff.mp heq.symm
    rw [hw] at this
    cases this

/-- C30 at a concrete input: after the countdown has run out in a single tick
of 120 seconds, the timer is 0 and the game is lost. -/
theorem timer_invariant_witness :
    (P01.step sampleLibm P01.startState (.idle 120)).gameTime = 0 ↔
      (P01.step sampleLibm P01.startState (.idle 120)).gameState = .LOST :=
  (timer_invariant sampleLibm _
    (.step (.idle 120) (show (0 : ℚ) ≤ 120 by norm_num) (.init P01.staticInit))).2.1

/-! ### The second program: frame lemmas and the flags after a tick -/

namespace PXX

theorem tickTimer_frame_pxx (s : State) (dt : ℚ) :
    tickTimer s dt =
      { s with gameTime := (tickTimer s dt).gameTime, gameOver := (tickTimer s dt).gameOver } := by
  unfold tickTimer
  dsimp only
  split_ifs <;> rfl

theorem cameraKey_frame_pxx (s0 s : State) (lower upper : Fin 256) (f : Vec3 → Vec3)
    (h : ∃ p t, s = { s0 with camPos := p, camTarget := t }) :
    ∃ p t, cameraKey s lower upper f = { s0 with camPos := p, camTarget := t } := by
  obtain ⟨p, t, rfl⟩ := h
  unfold cameraKey
  split_ifs <;> exact ⟨_, _, rfl⟩

theorem updateCameraFreeMove_frame_pxx (m : Libm) (s : State) (dt : ℚ) :
    ∃ p t, updateCameraFreeMove m s dt = { s with camPos := p, camTarget := t } := by
  unfold updateCameraFreeMove
  split_ifs
  · exact ⟨_, _, rfl⟩
  · dsimp only
    iterate 6 apply cameraKey_frame_pxx
    exact ⟨_, _, rfl⟩

/-- The movement code either does nothing or calls `tryMovePlayer` and sets
the yaw. -/
theorem updatePlayerMovement_cases_pxx (m : Libm) (s : State) (dt : ℚ) :
    updatePlayerMovement m s dt = s ∨
    ∃ (delta : Vec3) (yaw : ℚ),
      updatePlayerMovement m s dt = { tryMovePlayer s delta with playerYawDeg := yaw } := by
  unfold updatePlayerMovement
  dsimp only
  split_ifs
  · left; rfl
  · right; exact ⟨_, _, rfl⟩
  · left; rfl

theorem movement_frame_pxx (m : Libm) (s : State) (dt : ℚ) :
    ∃ cp ct p yaw,
      updatePlayerMovement m (updateCameraFreeMove m s dt) dt =
        { s with camPos := cp, camTarget := ct, playerPos := p, playerYawDeg := yaw } := by
  obtain ⟨cp, ct, h⟩ := updateCameraFreeMove_frame_pxx m s dt
  rw [h]
  rcases updatePlayerMovement_cases_pxx m { s with camPos := cp, camTarget := ct } dt with
    e | ⟨delta, yaw, e⟩
  · rw [e]
    exact ⟨cp, ct, s.playerPos, s.playerYawDeg, rfl⟩
  · rw [e, tryMovePlayer_eq_pxx]
    exact ⟨cp, ct, _, yaw, rfl⟩

theorem updateCollectibles_frame_pxx (s : State) :
    updateCollectibles s =
      { s with
        collectibles := (collectPass s).collectibles
        collectedPerPlatform := (collectPass s).collectedPerPlatform
        features := fun i => unlockFeature (s.features i) ((collectPass s).collectedPerPlatform i)
        gameWin := if completedCount (collectPass s).collectedPerPlatform = 4 then true
          else s.gameWin } := by
  unfold updateCollectibles
  dsimp only
  split_ifs <;> rfl

theorem idle_eq_pxx (m : Libm) (s : State) (dt : ℚ) :
    idle m s dt = updateFeatures (updateCollectibles
      (updatePlayerMovement m (updateCameraFreeMove m (tickTimer s dt) dt) dt)) dt := rfl

/-- The flags and the timer after a tick: the countdown statement decides
`gameOver` and `gameTime`, and a win flag that is set stays set. -/
theorem idle_flags_pxx (m : Libm) (s : State) (dt : ℚ) :
    (idle m s dt).gameOver = (tickTimer s dt).gameOver ∧
    (idle m s dt).gameTime = (tickTimer s dt).gameTime ∧
    (s.gameWin = true → (idle m s dt).gameWin = true) := by
  obtain ⟨cp, ct, p, yaw, h⟩ := movement_frame_pxx m (tickTimer s dt) dt
  rw [idle_eq_pxx, h, updateCollectibles_frame_pxx]
  refine ⟨rfl, rfl, fun hw => ?_⟩
  show (if _ then true else (tickTimer s dt).gameWin) = true
  rw [tickTimer_frame_pxx]
  show (if _ then true else s.gameWin) = true
  rw [hw, ite_self]

theorem tickTimer_running_pxx (s : State) (dt : ℚ) (ho : s.gameOver = false) :
    (s.gameTime - dt ≤ 0 → (tickTimer s dt).gameOver = true ∧ (tickTimer s dt).gameTime = 0) ∧
    (¬ s.gameTime - dt ≤ 0 →
      (tickTimer s dt).gameOver = false ∧ (tickTimer s dt).gameTime = s.gameTime - dt) := by
  unfold tickTimer
  dsimp only
  rw [ho]
  constructor
  · intro h
    simp only [Bool.not_false, if_true, if_pos h, and_self]
  · intro h
    simp only [Bool.not_false, if_true, if_neg h, and_self]

end PXX

/-! ### The second program: nothing can be collected (C27) -/

theorem collectLoop_none (pb : AABB) (cs : List Collectible) (cnt : Fin 4 → Int)
    (h : ∀ c ∈ cs, aabbIntersects pb c.box = false) : collectLoop pb cs cnt = (cs, cnt) := by
  induction cs generalizing cnt with
  | nil => rfl
  | cons c cs ih =>
    have hc := h c (List.mem_cons_self _ _)
    have ht := ih cnt (fun d hd => h d (List.mem_cons_of_mem _ hd))
    unfold collectLoop
    rw [hc, Bool.and_false]
    simp only [Bool.false_eq_true, if_false]
    rw [ht]

namespace PXX

theorem collides_of_platform_pxx (s : State) (hp : s.platforms = scenePlatforms) (box : AABB)
    (j : Fin 4) (h : aabbIntersects box (thickBox (scenePlatforms j).box) = true) :
    collidesWithWorld s box = true := by
  unfold collidesWithWorld
  have e : (List.ofFn s.platforms).any (fun p => aabbIntersects box (thickBox p.box)) = true := by
    rw [List.any_eq_true]
    refine ⟨s.platforms j, (List.mem_ofFn _ _).mpr ⟨j, rfl⟩, ?_⟩
    rw [hp]
    exact h
  rw [e, Bool.or_true]

/-- A player box at height 1 that touches a collectible placed well inside the
footprint of its platform also touches the thickened volume of that platform. -/
theorem collectible_inside_pxx (p : Vec3) (hy : p.y = 1) (j : Fin 4) (offx offz r g b : ℚ)
    (hx1 : 18 / 100 - (scenePlatforms j).box.half.x ≤ offx)
    (hx2 : offx ≤ (scenePlatforms j).box.half.x - 18 / 100)
    (hz1 : 18 / 100 - (scenePlatforms j).box.half.z ≤ offz)
    (hz2 : offz ≤ (scenePlatforms j).box.half.z - 18 / 100)
    (h : aabbIntersects (playerBox p) (addCollectible j offx offz r g b).box = true) :
    aabbIntersects (playerBox p) (thickBox (scenePlatforms j).box) = true := by
  obtain ⟨px, py, pz⟩ := p
  dsimp only at hy
  subst hy
  simp only [aabbIntersects, playerBox, playerHalf, addCollectible, thickBox, Bool.and_eq_true,
    decide_eq_true_eq, abs_le] at h ⊢
  obtain ⟨⟨⟨h1, h2⟩, -⟩, h3, h4⟩ := h
  refine ⟨⟨⟨by linarith, by linarith⟩, by norm_num⟩, by linarith, by linarith⟩

theorem sceneCollectibles_blocked_pxx (s : State) (hp : s.platforms = scenePlatforms)
    (p : Vec3) (hy : p.y = 1) (hfree : collidesWithWorld s (playerBox p) = false) :
    ∀ c ∈ sceneCollectibles, aabbIntersects (playerBox p) c.box = false := by
  intro c hc
  rw [Bool.eq_false_iff]
  intro hi
  have key : ∀ (j : Fin 4) (offx offz r g b : ℚ),
      18 / 100 - (scenePlatforms j).box.half.x ≤ offx →
      offx ≤ (scenePlatforms j).box.half.x - 18 / 100 →
      18 / 100 - (scenePlatforms j).box.half.z ≤ offz →
      offz ≤ (scenePlatforms j).box.half.z - 18 / 100 →
      aabbIntersects (playerBox p) (addCollectible j offx offz r g b).box = true → False := by
    intro j offx offz r g b a1 a2 a3 a4 hi
    have e := collides_of_platform_pxx s hp _ j
      (collectible_inside_pxx p hy j offx offz r g b a1 a2 a3 a4 hi)
    rw [hfree] at e
    cases e
  simp only [sceneCollectibles, List.mem_cons, List.mem_singleton, List.not_mem_nil,
    or_false] at hc
  rcases hc with rfl | rfl | rfl | rfl | rfl | rfl | rfl | rfl | rfl | rfl | rfl | rfl <;>
    refine key _ _ _ _ _ _ ?_ ?_ ?_ ?_ hi <;>
    norm_num [scenePlatforms]

theorem unlockFeature_zero_pxx (f : FeatureObj) : unlockFeature f 0 = f := by
  unfold unlockFeature
  simp [totalCollectiblesPerPlatform]

theorem collectPass_untouched_pxx (s : State) (h : Untouched s) : collectPass s = s := by
  obtain ⟨-, hp, -, hc, -, -, hy, hfree⟩ := h
  have hloop : collectLoop (playerBox s.playerPos) s.collectibles s.collectedPerPlatform =
      (s.collectibles, s.collectedPerPlatform) :=
    collectLoop_none _ _ _ (by
      rw [hc]
      exact sceneCollectibles_blocked_pxx s hp _ hy hfree)
  unfold collectPass
  rw [hloop]

theorem updateCollectibles_untouched_pxx (s : State) (h : Untouched s) :
    updateCollectibles s = s := by
  have hcp := collectPass_untouched_pxx s h
  obtain ⟨-, -, -, -, hn, hg, -, -⟩ := h
  have h4 : completedCount s.collectedPerPlatform ≠ 4 := by
    rw [hn]
    decide
  have hf : (fun i => unlockFeature (s.features i) (s.collectedPerPlatform i)) = s.features := by
    funext i
    have e : s.collectedPerPlatform i = 0 := by rw [hn]
    rw [e]
    exact unlockFeature_zero_pxx _
  rw [updateCollectibles_frame_pxx, hcp, if_neg h4, hf]

theorem updateFeatures_untouched_pxx (s : State) (dt : ℚ) (h : Untouched s) :
    updateFeatures s dt = s := by
  obtain ⟨-, -, hf, -, -, -, -, -⟩ := h
  have e : (fun i => if (s.features i).animEnabled then
      { s.features i with t := (s.features i).t + dt } else s.features i) = s.features := by
    funext i
    have a : (s.features i).animEnabled = false := by
      rw [hf]
      fin_cases i <;> rfl
    rw [a]
    rfl
  unfold updateFeatures
  rw [e]

theorem untouched_tryMovePlayer_pxx (s : State) (delta : Vec3) (h : Untouched s) :
    Untouched (tryMovePlayer s delta) := by
  obtain ⟨hw, hp, hf, hc, hn, hg, hy, hfree⟩ := h
  have e := tryMovePlayer_eq_pxx s delta
  refine ⟨?_, ?_, ?_, ?_, ?_, ?_, ?_, ?_⟩
  · rw [e]; exact hw
  · rw [e]; exact hp
  · rw [e]; exact hf
  · rw [e]; exact hc
  · rw [e]; exact hn
  · rw [e]; exact hg
  · rw [e]; exact hy
  · rw [tryMovePlayer_collides_pxx]
    exact tryMovePlayer_free_pxx s delta hfree

theorem untouched_resetGame_pxx (s : State) : Untouched (resetGame s) := by
  refine ⟨rfl, rfl, rfl, rfl, rfl, rfl, rfl, ?_⟩
  rw [Bool.eq_false_iff]
  intro h
  unfold collidesWithWorld at h
  simp only [Bool.or_eq_true, List.any_eq_true, List.mem_ofFn] at h
  rcases h with (⟨w, hw, hi⟩ | ⟨f, ⟨i, rfl⟩, hi⟩) | ⟨q, ⟨i, rfl⟩, hi⟩
  · simp only [resetGame, List.mem_cons, List.mem_singleton, List.not_mem_nil, or_false] at hw
    rcases hw with rfl | rfl | rfl <;>
      norm_num [aabbIntersects, playerBox, playerHalf, resetGame, WORLD_HALF, abs_le] at hi
  · fin_cases i <;>
      norm_num [aabbIntersects, playerBox, playerHalf, resetGame, sceneFeatures, scenePlatforms,
        abs_le] at hi
  · fin_cases i <;>
      norm_num [aabbIntersects, playerBox, playerHalf, resetGame, scenePlatforms, thickBox,
        abs_le] at hi

theorem untouched_idle_pxx (m : Libm) (s : State) (dt : ℚ) (h : Untouched s) :
    Untouched (idle m s dt) := by
  have h1 : Untouched (tickTimer s dt) := by
    rw [tickTimer_frame_pxx]
    exact h
  have h2 : Untouched (updateCameraFreeMove m (tickTimer s dt) dt) := by
    obtain ⟨p, t, e⟩ := updateCameraFreeMove_frame_pxx m (tickTimer s dt) dt
    rw [e]
    exact h1
  have h3 : Untouched (updatePlayerMovement m (updateCameraFreeMove m (tickTimer s dt) dt) dt) := by
    rcases updatePlayerMovement_cases_pxx m (updateCameraFreeMove m (tickTimer s dt) dt) dt with
      e | ⟨delta, yaw, e⟩
    · rw [e]
      exact h2
    · rw [e]
      exact untouched_tryMovePlayer_pxx _ delta h2
  rw [idle_eq_pxx, updateCollectibles_untouched_pxx _ h3, updateFeatures_untouched_pxx _ dt h3]
  exact h3

theorem cameraKeys_frame_pxx (s : State) (key : Fin 256) :
    ∃ c, cameraKeys s key = { s with camMode := c } := by
  unfold cameraKeys
  dsimp only
  split_ifs <;> exact ⟨_, rfl⟩

theorem toggleKey_untouched_pxx (s : State) (key code : Fin 256) (i : Fin 4) (h : Untouched s) :
    toggleKey s key code i = s := by
  obtain ⟨-, -, hf, -, -, -, -, -⟩ := h
  have a : (s.features i).allCollected = false := by
    rw [hf]
    fin_cases i <;> rfl
  unfold toggleKey
  rw [if_neg]
  rintro ⟨-, hl⟩
  rw [a] at hl
  cases hl

theorem untouched_keyboard_pxx (s : State) (key : Fin 256) (h : Untouched s) :
    Untouched (keyboard s key) := by
  obtain ⟨c, e⟩ := cameraKeys_frame_pxx { s with keyDown := Function.update s.keyDown key true } key
  have h1 : Untouched (cameraKeys { s with keyDown := Function.update s.keyDown key true } key) := by
    rw [e]
    exact h
  have h2 : Untouched (if key = 114 ∨ key = 82 then
      resetGame (cameraKeys { s with keyDown := Function.update s.keyDown key true } key)
      else cameraKeys { s with keyDown := Function.update s.keyDown key true } key) := by
    split_ifs
    · exact untouched_resetGame_pxx _
    · exact h1
  unfold keyboard
  dsimp only
  rw [toggleKey_untouched_pxx _ key 53 0 h2, toggleKey_untouched_pxx _ key 54 1 h2,
    toggleKey_untouched_pxx _ key 55 2 h2, toggleKey_untouched_pxx _ key 56 3 h2]
  exact h2

theorem untouched_reachable_pxx (m : Libm) (s : State) (h : Reachable m s) : Untouched s := by
  induction h with
  | init s0 => exact untouched_resetGame_pxx s0
  | step e _ ih =>
    cases e with
    | idle dt => exact untouched_idle_pxx m _ dt ih
    | keyboard key => exact untouched_keyboard_pxx _ key ih
    | keyboardUp key => exact ih
    | special key => exact ih
    | specialUp key => exact ih

/-- Every scene collectible lies inside the horizontal footprint of its own
platform. -/
theorem sceneCollectibles_footprint_pxx :
    ∀ c ∈ sceneCollectibles,
      (scenePlatforms c.platformIndex).box.center.x - (scenePlatforms c.platformIndex).box.half.x ≤
          c.box.center.x - c.box.half.x ∧
      c.box.center.x + c.box.half.x ≤
          (scenePlatforms c.platformIndex).box.center.x + (scenePlatforms c.platformIndex).box.half.x ∧
      (scenePlatforms c.platformIndex).box.center.z - (scenePlatforms c.platformIndex).box.half.z ≤
          c.box.center.z - c.box.half.z ∧
      c.box.center.z + c.box.half.z ≤
          (scenePlatforms c.platformIndex).box.center.z + (scenePlatforms c.platformIndex).box.half.z := by
  intro c hc
  simp only [sceneCollectibles, List.mem_cons, List.mem_singleton, List.not_mem_nil,
    or_false] at hc
  rcases hc with rfl | rfl | rfl | rfl | rfl | rfl | rfl | rfl | rfl | rfl | rfl | rfl <;>
    norm_num [addCollectible, scenePlatforms]

end PXX

/-- C27: in the second program no collectible can ever be collected.  In
every state reachable from `resetGame` by any sequence of idle ticks (any
frame deltas, any held keys) and key events, every collectible has
`collected = false`, every per-platform counter is 0, every feature has
`allCollected = false`, and `gameWin` is false.  The reason is part of the
statement: the player is at height 1, every collectible lies inside the
horizontal footprint of its platform, the player box touches no thickened
platform volume, and so it touches no collectible. -/
theorem pxx_nothing_collected (m : Libm) (s : PXX.State) (h : PXX.Reachable m s) :
    (∀ c ∈ s.collectibles, c.collected = false) ∧
    (∀ i, s.collectedPerPlatform i = 0) ∧
    (∀ i, (s.features i).allCollected = false) ∧
    s.gameWin = false ∧
    s.playerPos.y = 1 ∧
    (∀ c ∈ s.collectibles,
      (s.platforms c.platformIndex).box.center.x - (s.platforms c.platformIndex).box.half.x ≤
          c.box.center.x - c.box.half.x ∧
      c.box.center.x + c.box.half.x ≤
          (s.platforms c.platformIndex).box.center.x + (s.platforms c.platformIndex).box.half.x ∧
      (s.platforms c.platformIndex).box.center.z - (s.platforms c.platformIndex).box.half.z ≤
          c.box.center.z - c.box.half.z ∧
      c.box.center.z + c.box.half.z ≤
          (s.platforms c.platformIndex).box.center.z + (s.platforms c.platformIndex).box.half.z) ∧
    (∀ j, aabbIntersects (playerBox s.playerPos) (PXX.thickBox (s.platforms j).box) = false) ∧
    (∀ c ∈ s.collectibles, aabbIntersects (playerBox s.playerPos) c.box = false) := by
  obtain ⟨hw, hp, hf, hc, hn, hg, hy, hfree⟩ := PXX.untouched_reachable_pxx m s h
  refine ⟨?_, ?_, ?_, hg, hy, ?_, ?_, ?_⟩
  · intro c hm
    rw [hc] at hm
    simp only [PXX.sceneCollectibles, List.mem_cons, List.mem_singleton, List.not_mem_nil,
      or_false] at hm
    rcases hm with rfl | rfl | rfl | rfl | rfl | rfl | rfl | rfl | rfl | rfl | rfl | rfl <;> rfl
  · intro i
    rw [hn]
  · intro i
    rw [hf]
    fin_cases i <;> rfl
  · intro c hm
    rw [hc] at hm
    rw [hp]
    exact PXX.sceneCollectibles_footprint_pxx c hm
  · intro j
    rw [Bool.eq_false_iff]
    intro hi
    rw [hp] at hi
    have e := PXX.collides_of_platform_pxx s hp _ j hi
    rw [hfree] at e
    cases e
  · rw [hc]
    exact PXX.sceneCollectibles_blocked_pxx s hp _ hy hfree

/-- C27 at a concrete run: hold `w`, then let one second pass. -/
theorem pxx_nothing_collected_witness :
    (PXX.step sampleLibm (PXX.step sampleLibm PXX.startState (.keyboard 119)) (.idle 1)).gameWin =
      false :=
  (pxx_nothing_collected sampleLibm _
    (.step (.idle 1) (.step (.keyboard 119) (.init PXX.staticInit)))).2.2.2.1

end Platformer
